import Mathlib

/-!
# godot_fastnoise_simd: the binding layer `FastNoiseSIMD`

A shallow embedding of `fastnoise_simd.h` / `fastnoise_simd.cpp`.

* The wrapper object is the record `State`; every method is a function on it
  (explicit state passing), written statement by statement after the C++ body.
* The wrapped third-party object `_noise` is not part of the sources.  It is modelled by the
  sequence of calls the wrapper makes on it (`LibCall`), and the values it computes are a
  parameter (`NoiseLibrary`).
* `float` / `real_t` values are binary32 numbers, held as the rational numbers they denote.
  Every `float` operation of the code (`+`, `-`, `*`, `/`, the conversion of an `int`) is the
  exact operation followed by rounding to 24 significant bits, nearest value, ties to even
  (`float_round`).  The exponent range is not bounded: overflow to infinity, subnormal
  numbers, NaN and signed zero are outside the model.
* `int` values are mathematical integers: the methods below compare, assign and convert
  them, and the one subtraction (`_cell_dist_index1 - 1`) acts on a value between 1 and 3.
  The `int` products and sums of `get_image` are the exception: they are reduced to 32 bits
  (`int_wrap`).  The conversion of a `float` to `int` gives a 32-bit value (`float_to_int`).
-/

namespace FastNoiseSIMD

/-! ## Values -/

/-- C++ `float` (and the engine's `real_t`, which is `float` unless the engine is built for
double precision): the rational number a binary32 value denotes.  A value that comes from
outside (an argument, a stored field) may be any rational number; the operations below round
what they compute. -/
abbrev float : Type := ℚ

/-- Rounding to the nearest integer, a tie going to the even one. -/
def round_half_even (y : ℚ) : Int :=
  let f := Int.floor y
  if y - f < 1 / 2 then f
  else if 1 / 2 < y - f then f + 1
  else if f % 2 = 0 then f else f + 1

/-- Rounding of a non-negative number to 24 significant bits: with `e` the exponent of the
leading bit (`2^e ≤ a < 2^(e+1)`), `a` is rounded to a multiple of `2^(e-23)`. -/
def float_round_abs (a : ℚ) : ℚ :=
  round_half_even (a / 2 ^ (Int.log 2 a - 23)) * 2 ^ (Int.log 2 a - 23)

/-- The binary32 value nearest to `q`, ties to even: the rounding every `float` operation
applies to its exact result. -/
def float_round (q : ℚ) : float :=
  if q < 0 then -float_round_abs (-q) else float_round_abs q

/-- The `float` sum `a + b`. -/
def float_add (a b : float) : float :=
  float_round (a + b)

/-- The `float` difference `a - b`. -/
def float_sub (a b : float) : float :=
  float_round (a - b)

/-- The `float` product `a * b`. -/
def float_mul (a b : float) : float :=
  float_round (a * b)

/-- The `float` quotient `a / b`.  The code divides only by a non-zero value. -/
def float_div (a b : float) : float :=
  float_round (a / b)

/-- Implicit C++ conversion of an `int` to a `float`. -/
def int_to_float (n : Int) : float :=
  float_round n

/-- The integer part of a `float`: the fractional part is discarded (rounding toward zero). -/
def float_trunc (f : float) : Int :=
  if 0 ≤ f then Int.floor f else Int.ceil f

/-- Implicit C++ conversion of a `float` to an `int`: the integer part of the value.  C++
leaves the conversion undefined when the integer part is outside the range of `int`; the
model takes the value the x86 conversion instruction gives then, `-2147483648`. -/
def float_to_int (f : float) : Int :=
  if -2147483648 ≤ float_trunc f ∧ float_trunc f ≤ 2147483647 then float_trunc f
  else -2147483648

/-- The engine's `Vector2`. -/
structure Vector2 where
  x : float
  y : float
deriving DecidableEq

/-- The engine's `Vector3`. -/
structure Vector3 where
  x : float
  y : float
  z : float
deriving DecidableEq

/-- Enum `FastNoiseSIMD::NoiseType`; each value is defined as the library value of the same name. -/
inductive NoiseType where
  | TYPE_VALUE | TYPE_VALUE_FRACTAL | TYPE_PERLIN | TYPE_PERLIN_FRACTAL
  | TYPE_SIMPLEX | TYPE_SIMPLEX_FRACTAL
  | TYPE_WHITE_NOISE | TYPE_CELLULAR | TYPE_CUBIC | TYPE_CUBIC_FRACTAL
deriving DecidableEq

/-- Enum `FastNoiseSIMD::FractalType`. -/
inductive FractalType where
  | FRACTAL_FBM | FRACTAL_BILLOW | FRACTAL_RIDGED_MULTI
deriving DecidableEq

/-- Enum `FastNoiseSIMD::PerturbType`. -/
inductive PerturbType where
  | PERTURB_NONE | PERTURB_GRADIENT | PERTURB_GRADIENT_FRACTAL | PERTURB_NORMALIZE
  | PERTURB_GRADIENT_NORMALIZE | PERTURB_GRADIENT_FRACTAL_NORMALIZE
deriving DecidableEq

/-- Enum `FastNoiseSIMD::CellularDistanceFunction`. -/
inductive CellularDistanceFunction where
  | DISTANCE_EUCLIDEAN | DISTANCE_MANHATTAN | DISTANCE_NATURAL
deriving DecidableEq

/-- Enum `FastNoiseSIMD::CellularReturnType`. -/
inductive CellularReturnType where
  | RETURN_CELL_VALUE | RETURN_DISTANCE | RETURN_DISTANCE2 | RETURN_DISTANCE2_ADD
  | RETURN_DISTANCE2_SUB | RETURN_DISTANCE2_MUL | RETURN_DISTANCE2_DIV
  | RETURN_DISTANCE2_CAVE | RETURN_NOISE_LOOKUP
deriving DecidableEq

/-! ## The wrapped library object -/

/-- The arguments of one `GetNoiseSet` / `FillNoiseSet` call, as the wrapper evaluates them
(an `int` argument is recorded by its value).  How the library converts them to its own
parameter types is the library's business. -/
structure NoiseSetRequest where
  xStart : float
  yStart : float
  zStart : float
  xSize : float
  ySize : float
  zSize : float
  scaleModifier : float
deriving DecidableEq

/-- One call made on the library object `_noise`. -/
inductive LibCall where
  | SetNoiseType (t : NoiseType)
  | SetSeed (seed : Int)
  | SetFrequency (f : float)
  | SetAxisScales (x y z : float)
  | SetSIMDLevel (level : Int)
  | SetPerturbType (t : PerturbType)
  | SetPerturbAmp (a : float)
  | SetPerturbFrequency (f : float)
  | SetPerturbFractalOctaves (n : Int)
  | SetPerturbFractalLacunarity (l : float)
  | SetPerturbFractalGain (g : float)
  | SetPerturbNormaliseLength (l : float)
  | SetFractalType (t : FractalType)
  | SetFractalOctaves (n : Int)
  | SetFractalLacunarity (l : float)
  | SetFractalGain (g : float)
  | SetCellularDistanceFunction (f : CellularDistanceFunction)
  | SetCellularReturnType (t : CellularReturnType)
  | SetCellularDistance2Indices (index0 index1 : Int)
  | SetCellularJitter (j : float)
  | SetCellularNoiseLookupType (t : NoiseType)
  | SetCellularNoiseLookupFrequency (f : float)
  | GetNoiseSet (req : NoiseSetRequest) (ret : Nat)
  | GetEmptySet (size : Int) (ret : Nat)
  | FillNoiseSet (set : Nat) (req : NoiseSetRequest)
  | FreeNoiseSet (set : Nat)
deriving DecidableEq

/-- Whether the call hands a buffer out (`GetNoiseSet`, `GetEmptySet`). -/
def LibCall.isAlloc : LibCall → Bool
  | .GetNoiseSet _ _ => true
  | .GetEmptySet _ _ => true
  | _ => false

/-- Whether the call changes the library's configuration (the `Set...` calls). -/
def LibCall.isSetter : LibCall → Bool
  | .GetNoiseSet _ _ => false
  | .GetEmptySet _ _ => false
  | .FillNoiseSet _ _ => false
  | .FreeNoiseSet _ => false
  | _ => true

/-- The third-party object behind `_noise`, known to the wrapper only through the calls it
makes on it: `calls` lists them, oldest first. -/
structure _FastNoiseSIMD where
  calls : List LibCall
deriving DecidableEq

/-- A `float *` handed out by the library: the buffer's identity and what can be read
through the pointer when it is returned. -/
structure NoiseSet where
  ptr : Nat
  data : Nat → float

/-- What the wrapper cannot see of the library: the value of the `scaleModifier` parameter
when a call omits it, and the samples a request yields under a given configuration. -/
structure NoiseLibrary where
  default_scaleModifier : float
  samples : List LibCall → NoiseSetRequest → Nat → float

/-- `_FastNoiseSIMD::NewFastNoiseSIMD()`: a library object on which nothing was called yet. -/
def _FastNoiseSIMD.NewFastNoiseSIMD : _FastNoiseSIMD := ⟨[]⟩

/-- Record one call on the library object. -/
def _FastNoiseSIMD.call (n : _FastNoiseSIMD) (c : LibCall) : _FastNoiseSIMD :=
  ⟨n.calls ++ [c]⟩

/-- The library's configuration: the `Set...` calls made so far. -/
def _FastNoiseSIMD.config (n : _FastNoiseSIMD) : List LibCall :=
  n.calls.filter LibCall.isSetter

/-- Identifier of the next buffer the library hands out: buffers are numbered from 1 in the
order of allocation, so no two of them share an identifier and none is the null pointer. -/
def _FastNoiseSIMD.fresh (n : _FastNoiseSIMD) : Nat :=
  (n.calls.filter LibCall.isAlloc).length + 1

/-- The library call `GetNoiseSet(...)`: a new buffer holding the samples of the request. -/
def _FastNoiseSIMD.GetNoiseSet (lib : NoiseLibrary) (n : _FastNoiseSIMD)
    (req : NoiseSetRequest) : NoiseSet × _FastNoiseSIMD :=
  (⟨n.fresh, lib.samples n.config req⟩, n.call (.GetNoiseSet req n.fresh))

/-- The library call `GetEmptySet(size)`: a new buffer (its contents are never read here). -/
def _FastNoiseSIMD.GetEmptySet (n : _FastNoiseSIMD) (size : Int) : Nat × _FastNoiseSIMD :=
  (n.fresh, n.call (.GetEmptySet size n.fresh))

/-! ## The wrapper object -/

/-- The private fields of class `FastNoiseSIMD`, and a count of the `changed` signals the
object has emitted (`emit_changed()` of the engine's base class). -/
structure State where
  _noise : _FastNoiseSIMD
  _allocated_sets : List Nat
  _offset : Vector3
  _scale : float
  _perturb_amp : float
  _axis_scales : Vector3
  _cell_dist_index0 : Int
  _cell_dist_index1 : Int
  changed : Nat
deriving DecidableEq

/-- Signal emission `emit_changed()`. -/
def emit_changed (s : State) : State :=
  { s with changed := s.changed + 1 }

/-! ### General settings -/

def set_noise_type (s : State) (p_noise_type : NoiseType) : State :=
  emit_changed { s with _noise := s._noise.call (.SetNoiseType p_noise_type) }

def set_seed (s : State) (p_seed : Int) : State :=
  emit_changed { s with _noise := s._noise.call (.SetSeed p_seed) }

def set_frequency (s : State) (p_freq : float) : State :=
  emit_changed { s with _noise := s._noise.call (.SetFrequency p_freq) }

def set_offset (s : State) (p_offset : Vector3) : State :=
  emit_changed { s with _offset := p_offset }

def get_offset (s : State) : Vector3 :=
  s._offset

def set_axis_scales (s : State) (p_scale : Vector3) : State :=
  let s := { s with _axis_scales := { s._axis_scales with x := p_scale.x } }
  let s := { s with _axis_scales := { s._axis_scales with y := p_scale.y } }
  let s := { s with _axis_scales := { s._axis_scales with z := p_scale.z } }
  let s := { s with _noise := s._noise.call (.SetAxisScales p_scale.x p_scale.y p_scale.z) }
  emit_changed s

def get_axis_scales (s : State) : Vector3 :=
  s._axis_scales

def set_scale (s : State) (p_scale : float) : State :=
  emit_changed { s with _scale := p_scale }

def get_scale (s : State) : float :=
  s._scale

def set_simd_level (s : State) (p_level : Int) : State :=
  emit_changed { s with _noise := s._noise.call (.SetSIMDLevel p_level) }

/-! ### Cellular -/

def set_cellular_distance_function (s : State) (p_func : CellularDistanceFunction) : State :=
  emit_changed { s with _noise := s._noise.call (.SetCellularDistanceFunction p_func) }

def set_cellular_return_type (s : State) (p_type : CellularReturnType) : State :=
  emit_changed { s with _noise := s._noise.call (.SetCellularReturnType p_type) }

def set_cellular_distance2_indices (s : State) (p_index0 p_index1 : Int) : State :=
  -- Valid range for index1: 1-3
  let s :=
    if p_index1 > 3 then { s with _cell_dist_index1 := 3 }
    else if p_index1 < 1 then { s with _cell_dist_index1 := 1 }
    else { s with _cell_dist_index1 := p_index1 }
  -- Valid range for index0: 0-2 and < index1
  let s := { s with _cell_dist_index0 := p_index0 }
  let s :=
    if s._cell_dist_index0 ≥ s._cell_dist_index1 then
      { s with _cell_dist_index0 := s._cell_dist_index1 - 1 }
    else s
  let s :=
    if s._cell_dist_index0 < 0 then { s with _cell_dist_index0 := 0 }
    else s
  let c := LibCall.SetCellularDistance2Indices s._cell_dist_index0 s._cell_dist_index1
  let s := { s with _noise := s._noise.call c }
  emit_changed s

/-- The engine's `PackedInt32Array` is a list of integers. -/
def get_cellular_distance2_indices (s : State) : List Int :=
  let a : List Int := []
  let a := a ++ [s._cell_dist_index0]
  let a := a ++ [s._cell_dist_index1]
  a

def set_cellular_distance2_index0 (s : State) (p_index0 : Int) : State :=
  emit_changed (set_cellular_distance2_indices s p_index0 s._cell_dist_index1)

def get_cellular_distance2_index0 (s : State) : Int :=
  s._cell_dist_index0

def set_cellular_distance2_index1 (s : State) (p_index1 : Int) : State :=
  emit_changed (set_cellular_distance2_indices s s._cell_dist_index0 p_index1)

def get_cellular_distance2_index1 (s : State) : Int :=
  s._cell_dist_index1

def set_cellular_jitter (s : State) (p_jitter : float) : State :=
  emit_changed { s with _noise := s._noise.call (.SetCellularJitter p_jitter) }

def set_cellular_noise_lookup_type (s : State) (p_type : NoiseType) : State :=
  emit_changed { s with _noise := s._noise.call (.SetCellularNoiseLookupType p_type) }

def set_cellular_noise_lookup_frequency (s : State) (p_freq : float) : State :=
  emit_changed { s with _noise := s._noise.call (.SetCellularNoiseLookupFrequency p_freq) }

/-! ### Perturb -/

def set_perturb_type (s : State) (p_type : PerturbType) : State :=
  emit_changed { s with _noise := s._noise.call (.SetPerturbType p_type) }

def set_perturb_amplitude (s : State) (p_amp : float) : State :=
  let s := { s with _perturb_amp := p_amp }
  let s := { s with _noise := s._noise.call (.SetPerturbAmp s._perturb_amp) }
  emit_changed s

def get_perturb_amplitude (s : State) : float :=
  s._perturb_amp

def set_perturb_frequency (s : State) (p_freq : float) : State :=
  emit_changed { s with _noise := s._noise.call (.SetPerturbFrequency p_freq) }

def set_perturb_fractal_octaves (s : State) (p_octaves : Int) : State :=
  emit_changed { s with _noise := s._noise.call (.SetPerturbFractalOctaves p_octaves) }

def set_perturb_fractal_lacunarity (s : State) (p_lacunarity : float) : State :=
  emit_changed { s with _noise := s._noise.call (.SetPerturbFractalLacunarity p_lacunarity) }

def set_perturb_fractal_gain (s : State) (p_gain : float) : State :=
  emit_changed { s with _noise := s._noise.call (.SetPerturbFractalGain p_gain) }

def set_perturb_normalize_length (s : State) (p_length : float) : State :=
  emit_changed { s with _noise := s._noise.call (.SetPerturbNormaliseLength p_length) }

/-! ### Fractal -/

def set_fractal_type (s : State) (p_type : FractalType) : State :=
  emit_changed { s with _noise := s._noise.call (.SetFractalType p_type) }

def set_fractal_octaves (s : State) (p_octaves : Int) : State :=
  emit_changed { s with _noise := s._noise.call (.SetFractalOctaves p_octaves) }

def set_fractal_lacunarity (s : State) (p_lacunarity : float) : State :=
  emit_changed { s with _noise := s._noise.call (.SetFractalLacunarity p_lacunarity) }

def set_fractal_gain (s : State) (p_gain : float) : State :=
  emit_changed { s with _noise := s._noise.call (.SetFractalGain p_gain) }

/-! ### Construction -/

/-- The object when the constructor body starts: a new library object, an empty list, zero
vectors.  The four scalar members have no initialiser; the constructor assigns each of them
before anything reads it, and zero stands for their indeterminate values. -/
def uninitialized : State where
  _noise := _FastNoiseSIMD.NewFastNoiseSIMD
  _allocated_sets := []
  _offset := ⟨0, 0, 0⟩
  _scale := 0
  _perturb_amp := 0
  _axis_scales := ⟨0, 0, 0⟩
  _cell_dist_index0 := 0
  _cell_dist_index1 := 0
  changed := 0

/-- The constructor `FastNoiseSIMD::FastNoiseSIMD()`.  The literals `0.01` and `0.45` are not
binary32 values and are rounded when they are passed for a `float` parameter; the other
literals are passed exactly. -/
def new : State :=
  let s := uninitialized
  -- Most defaults copied from the library
  let s := set_noise_type s .TYPE_VALUE
  let s := set_seed s 0
  let s := set_frequency s (float_round 0.01)
  let s := set_offset s ⟨0.0, 0.0, 0.0⟩
  let s := set_axis_scales s ⟨1.0, 1.0, 1.0⟩
  let s := set_scale s 1.0
  let s := set_fractal_type s .FRACTAL_FBM
  let s := set_fractal_octaves s 3
  let s := set_fractal_lacunarity s 2.0
  let s := set_fractal_gain s 0.5
  let s := set_cellular_distance_function s .DISTANCE_EUCLIDEAN
  let s := set_cellular_return_type s .RETURN_CELL_VALUE
  let s := set_cellular_distance2_indices s 0 1
  let s := set_cellular_jitter s (float_round 0.45)
  let s := set_perturb_type s .PERTURB_NONE
  let s := set_perturb_amplitude s 1
  let s := set_perturb_frequency s 0.5
  let s := set_perturb_fractal_octaves s 3
  let s := set_perturb_fractal_lacunarity s 2.0
  let s := set_perturb_fractal_gain s 0.5
  let s := set_perturb_normalize_length s 1.0
  s

/-! ### Noise singular value functions -/

def get_noise_3d (lib : NoiseLibrary) (s : State) (p_x p_y p_z : float) : float × State :=
  let r := s._noise.GetNoiseSet lib
    ⟨float_add p_x s._offset.x, float_add p_y s._offset.y, float_add p_z s._offset.z,
      1.0, 1.0, 1.0, lib.default_scaleModifier⟩
  let n := r.1
  let s := { s with _noise := r.2 }
  let v := n.data 0
  let s := { s with _noise := s._noise.call (.FreeNoiseSet n.ptr) }
  (v, s)

def get_noise_1d (lib : NoiseLibrary) (s : State) (p_z : float) : float × State :=
  get_noise_3d lib s 0.0 0.0 p_z

def get_noise_2dv (lib : NoiseLibrary) (s : State) (p_v : Vector2) : float × State :=
  get_noise_3d lib s p_v.x 0.0 p_v.y

def get_noise_2d (lib : NoiseLibrary) (s : State) (p_x p_z : float) : float × State :=
  get_noise_3d lib s p_x 0.0 p_z

def get_noise_3dv (lib : NoiseLibrary) (s : State) (p_v : Vector3) : float × State :=
  get_noise_3d lib s p_v.x p_v.y p_v.z

/-! ### Noise set functions -/

/-- The default `p_scale = 0.0f` of the bulk functions. -/
def default_p_scale : float := 0.0

/-- In `p_x + _offset.x` the `int` is converted to `float` and the sum is a `float` sum. -/
def get_noise_set_3d (lib : NoiseLibrary) (s : State)
    (p_x p_y p_z p_sizex p_sizey p_sizez : Int) (p_scale : float) : NoiseSet × State :=
  let scale := if p_scale = 0.0 then s._scale else p_scale
  let r := s._noise.GetNoiseSet lib
    ⟨float_add (int_to_float p_x) s._offset.x, float_add (int_to_float p_y) s._offset.y,
      float_add (int_to_float p_z) s._offset.z, p_sizex, p_sizey, p_sizez, scale⟩
  let ns := r.1
  let s := { s with _noise := r.2 }
  let s := { s with _allocated_sets := s._allocated_sets ++ [ns.ptr] }
  (ns, s)

/-- The `float` arguments are passed for `int` parameters of `get_noise_set_3d`. -/
def get_noise_set_1d (lib : NoiseLibrary) (s : State)
    (p_z : float) (p_sizez : Int) (p_scale : float) : NoiseSet × State :=
  get_noise_set_3d lib s (float_to_int 0.0) (float_to_int 0.0) (float_to_int p_z)
    (float_to_int 1.0) (float_to_int 1.0) p_sizez p_scale

def get_noise_set_2dv (lib : NoiseLibrary) (s : State)
    (p_v p_size : Vector2) (p_scale : float) : NoiseSet × State :=
  get_noise_set_3d lib s (float_to_int p_v.x) (float_to_int 0.0) (float_to_int p_v.y)
    (float_to_int p_size.x) (float_to_int 1.0) (float_to_int p_size.y) p_scale

def get_noise_set_2d (lib : NoiseLibrary) (s : State)
    (p_x p_z : float) (p_sizex p_sizez : Int) (p_scale : float) : NoiseSet × State :=
  get_noise_set_3d lib s (float_to_int p_x) (float_to_int 0.0) (float_to_int p_z)
    p_sizex (float_to_int 1.0) p_sizez p_scale

def get_noise_set_3dv (lib : NoiseLibrary) (s : State)
    (p_v p_size : Vector3) (p_scale : float) : NoiseSet × State :=
  get_noise_set_3d lib s (float_to_int p_v.x) (float_to_int p_v.y) (float_to_int p_v.z)
    (float_to_int p_size.x) (float_to_int p_size.y) (float_to_int p_size.z) p_scale

def get_empty_set (s : State) (p_size : Int) : Nat × State :=
  let r := s._noise.GetEmptySet p_size
  let set := r.1
  let s := { s with _noise := r.2 }
  let s := { s with _allocated_sets := s._allocated_sets ++ [set] }
  (set, s)

/-- The product of the three `float` components is a `float`, passed for the `int`
parameter of `get_empty_set`. -/
def get_empty_set_3dv (s : State) (p_size : Vector3) : Nat × State :=
  get_empty_set s (float_to_int (float_mul (float_mul p_size.x p_size.y) p_size.z))

def fill_noise_set_3d (s : State) (p_set : Nat)
    (p_x p_y p_z p_sizex p_sizey p_sizez : Int) (p_scale : float) : State :=
  let scale := if p_scale = 0.0 then s._scale else p_scale
  { s with _noise := s._noise.call (.FillNoiseSet p_set
      ⟨float_add (int_to_float p_x) s._offset.x, float_add (int_to_float p_y) s._offset.y,
        float_add (int_to_float p_z) s._offset.z, p_sizex, p_sizey, p_sizez, scale⟩) }

def fill_noise_set_3dv (s : State) (p_set : Nat)
    (p_v p_size : Vector3) (p_scale : float) : State :=
  fill_noise_set_3d s p_set (float_to_int p_v.x) (float_to_int p_v.y) (float_to_int p_v.z)
    (float_to_int p_size.x) (float_to_int p_size.y) (float_to_int p_size.z) p_scale

/-- The engine's `List::erase(value)` removes the first element equal to the value. -/
def free_noise_set (s : State) (p_set : Nat) : State :=
  let s := { s with _allocated_sets := s._allocated_sets.erase p_set }
  { s with _noise := s._noise.call (.FreeNoiseSet p_set) }

/-! ### Arrays for scripts -/

/-- The three statements `pv.resize(size)`, `wr = pv.ptrw()` and
`memcpy(wr, ns, size * sizeof(float))` on a new `Vector<float> pv`: the first `size` floats
behind `ns`.  With a negative `size` the engine rejects the resize and the byte count of the
copy wraps around: the behaviour is undefined, which is `none`. -/
def resize_and_memcpy (ns : NoiseSet) (size : Int) : Option (List float) :=
  if size < 0 then none
  else some ((List.range size.toNat).map ns.data)

/-- Script binding of `get_noise_set_1d`.  The state of a run that ends in undefined
behaviour is the one reached before the copy. -/
def _b_get_noise_set_1d (lib : NoiseLibrary) (s : State)
    (p_z : float) (p_sizez : Int) (p_scale : float) : Option (List float) × State :=
  let scale := if p_scale = 0.0 then s._scale else p_scale
  let r := s._noise.GetNoiseSet lib
    ⟨0.0, 0.0, float_add p_z s._offset.z, 1.0, 1.0, p_sizez, scale⟩
  let ns := r.1
  let s := { s with _noise := r.2 }
  match resize_and_memcpy ns p_sizez with
  | none => (none, s)
  | some pv => (some pv, { s with _noise := s._noise.call (.FreeNoiseSet ns.ptr) })

/-- Script binding of `get_noise_set_2dv`. -/
def _b_get_noise_set_2dv (lib : NoiseLibrary) (s : State)
    (p_v p_size : Vector2) (p_scale : float) : Option (List float) × State :=
  let scale := if p_scale = 0.0 then s._scale else p_scale
  let r := s._noise.GetNoiseSet lib
    ⟨float_add p_v.x s._offset.x, 0.0, float_add p_v.y s._offset.z,
      p_size.x, 1.0, p_size.y, scale⟩
  let ns := r.1
  let s := { s with _noise := r.2 }
  let size := float_to_int (float_mul p_size.x p_size.y)
  match resize_and_memcpy ns size with
  | none => (none, s)
  | some pv => (some pv, { s with _noise := s._noise.call (.FreeNoiseSet ns.ptr) })

/-- Script binding of `get_noise_set_3dv`. -/
def _b_get_noise_set_3dv (lib : NoiseLibrary) (s : State)
    (p_v p_size : Vector3) (p_scale : float) : Option (List float) × State :=
  let scale := if p_scale = 0.0 then s._scale else p_scale
  let r := s._noise.GetNoiseSet lib
    ⟨float_add p_v.x s._offset.x, float_add p_v.y s._offset.y, float_add p_v.z s._offset.z,
      p_size.x, p_size.y, p_size.z, scale⟩
  let ns := r.1
  let s := { s with _noise := r.2 }
  let size := float_to_int (float_mul (float_mul p_size.x p_size.y) p_size.z)
  match resize_and_memcpy ns size with
  | none => (none, s)
  | some pv => (some pv, { s with _noise := s._noise.call (.FreeNoiseSet ns.ptr) })

/-! ## Sequences of calls -/

/-- A call of one of the three setters of the cellular distance index pair. -/
inductive IndexCall where
  | indices (p_index0 p_index1 : Int)
  | index0 (p_index0 : Int)
  | index1 (p_index1 : Int)
deriving DecidableEq

/-- Perform one setter call. -/
def IndexCall.apply (s : State) : IndexCall → State
  | .indices p_index0 p_index1 => set_cellular_distance2_indices s p_index0 p_index1
  | .index0 p_index0 => set_cellular_distance2_index0 s p_index0
  | .index1 p_index1 => set_cellular_distance2_index1 s p_index1

/-- Perform the calls of a list in order. -/
def run_index_calls (s : State) (cs : List IndexCall) : State :=
  cs.foldl IndexCall.apply s

/-- The bounds documented for the stored cellular distance index pair. -/
def index_pair_valid (s : State) : Prop :=
  1 ≤ s._cell_dist_index1 ∧ s._cell_dist_index1 ≤ 3 ∧
  0 ≤ s._cell_dist_index0 ∧ s._cell_dist_index0 ≤ s._cell_dist_index1 - 1 ∧
  s._cell_dist_index0 < s._cell_dist_index1 ∧ s._cell_dist_index0 ≤ 2

/-! ## Observing the requests -/

/-- The three start coordinates of a request. -/
def NoiseSetRequest.start (r : NoiseSetRequest) : Vector3 :=
  ⟨r.xStart, r.yStart, r.zStart⟩

/-- The three extents of a request. -/
def NoiseSetRequest.sizes (r : NoiseSetRequest) : Vector3 :=
  ⟨r.xSize, r.ySize, r.zSize⟩

/-- The request of a `GetNoiseSet` or `FillNoiseSet` call. -/
def LibCall.request? : LibCall → Option NoiseSetRequest
  | .GetNoiseSet req _ => some req
  | .FillNoiseSet _ req => some req
  | _ => none

/-- The most recent noise request made on the library object. -/
def last_request (n : _FastNoiseSIMD) : Option NoiseSetRequest :=
  n.calls.reverse.findSome? LibCall.request?

/-- The request `_b_get_noise_set_1d` makes (proved below: `b_get_noise_set_1d_eq`). -/
def b_1d_request (s : State) (p_z : float) (p_sizez : Int) (p_scale : float) :
    NoiseSetRequest :=
  ⟨0, 0, float_add p_z s._offset.z, 1, 1, p_sizez, if p_scale = 0 then s._scale else p_scale⟩

/-- The request `_b_get_noise_set_2dv` makes (proved below: `b_get_noise_set_2dv_eq`). -/
def b_2dv_request (s : State) (p_v p_size : Vector2) (p_scale : float) : NoiseSetRequest :=
  ⟨float_add p_v.x s._offset.x, 0, float_add p_v.y s._offset.z, p_size.x, 1, p_size.y,
    if p_scale = 0 then s._scale else p_scale⟩

/-- The request `_b_get_noise_set_3dv` makes (proved below: `b_get_noise_set_3dv_eq`). -/
def b_3dv_request (s : State) (p_v p_size : Vector3) (p_scale : float) : NoiseSetRequest :=
  ⟨float_add p_v.x s._offset.x, float_add p_v.y s._offset.y, float_add p_v.z s._offset.z,
    p_size.x, p_size.y, p_size.z, if p_scale = 0 then s._scale else p_scale⟩

/-- The effect of one library call on the list of buffers handed out and not freed. -/
def live_step (live : List Nat) : LibCall → List Nat
  | .GetNoiseSet _ ret => live ++ [ret]
  | .GetEmptySet _ ret => live ++ [ret]
  | .FreeNoiseSet set => live.erase set
  | _ => live

/-- The buffers the library has handed out and not been asked to free, oldest first. -/
def live_sets (n : _FastNoiseSIMD) : List Nat :=
  n.calls.foldl live_step []

/-! ## A sample library -/

/-- A library for concrete evaluations.  A call that omits the scale modifier gets 1; the
buffer of a request is laid out with z running fastest, and the sample of the cell with
coordinates `(x, y, z)` is `scale * (x + 10 y + 100 z)` plus the number of settings made. -/
def sample_library : NoiseLibrary where
  default_scaleModifier := 1
  samples := fun cfg req n =>
    let ny := (float_trunc req.ySize).toNat
    let nz := (float_trunc req.zSize).toNat
    req.scaleModifier *
      ((req.xStart + (n / (ny * nz) : Nat)) + 10 * (req.yStart + (n / nz % ny : Nat))
        + 100 * (req.zStart + (n % nz : Nat)))
      + cfg.length

/-- Position in the buffer of the cell `(i, j, k)` of a region of extents `(sx, sy, sz)`
when z runs fastest. -/
def z_fastest (_sx sy sz i j k : Int) : Nat :=
  ((i.toNat * sy.toNat + j.toNat) * sz.toNat + k.toNat)

/-- A library that reads the start coordinates it is handed as `int`s, converting the
`float` as C++ does; otherwise it is the sample library. -/
def grid_library : NoiseLibrary where
  default_scaleModifier := 1
  samples := fun cfg req n =>
    sample_library.samples cfg
      ⟨float_to_int req.xStart, float_to_int req.yStart, float_to_int req.zStart,
        req.xSize, req.ySize, req.zSize, req.scaleModifier⟩ n

/-- The library is region/point consistent on integer starts for the buffer layout `index`:
for a region that starts at integer coordinates and lies within the range of `int`, the
sample at the position of cell `(i, j, k)` is the sample the library yields for the one-cell
region that starts at that cell, under the same configuration and scale modifier; and the
layout keeps the cells of a region within its `sx * sy * sz` elements. -/
def NoiseLibrary.region_point_consistent (lib : NoiseLibrary)
    (index : Int → Int → Int → Int → Int → Int → Nat) : Prop :=
  ∀ (cfg : List LibCall) (x y z : Int) (scale : float) (sx sy sz i j k : Int),
    -2147483648 ≤ x → x + sx ≤ 2147483648 →
    -2147483648 ≤ y → y + sy ≤ 2147483648 →
    -2147483648 ≤ z → z + sz ≤ 2147483648 →
    0 ≤ i → i < sx → 0 ≤ j → j < sy → 0 ≤ k → k < sz →
    index sx sy sz i j k < (sx * sy * sz).toNat ∧
    lib.samples cfg ⟨x, y, z, sx, sy, sz, scale⟩ (index sx sy sz i j k)
      = lib.samples cfg ⟨(x + i : Int), (y + j : Int), (z + k : Int), 1.0, 1.0, 1.0, scale⟩ 0

/-! ## Destruction -/

/-- One pass of the `while` loop of `~FastNoiseSIMD()`.  `_allocated_sets.front()` is the
first element of the engine's list, null when the list is empty: the loop is left (`none`)
on the empty list; otherwise the front buffer is freed and popped. -/
def destructor_step (s : State) : Option State :=
  match s._allocated_sets with
  | [] => none
  | front :: rest =>
    some { s with _noise := s._noise.call (.FreeNoiseSet front), _allocated_sets := rest }

/-- The destructor `~FastNoiseSIMD()` run for at most `fuel` passes of its loop: the number
of passes made and the state in which the loop is left, `none` when `fuel` passes do not
reach the end of the loop. -/
def destructor : Nat → State → Option (Nat × State)
  | fuel, s =>
    match destructor_step s, fuel with
    | none, _ => some (0, s)
    | some _, 0 => none
    | some s', fuel + 1 => (destructor fuel s').map fun r => (r.1 + 1, r.2)

/-! ## Sequences of buffer calls -/

/-- A call of one of the functions that hand a buffer out, or of `free_noise_set`. -/
inductive BufferCall where
  | set_1d (p_z : float) (p_sizez : Int) (p_scale : float)
  | set_2d (p_x p_z : float) (p_sizex p_sizez : Int) (p_scale : float)
  | set_2dv (p_v p_size : Vector2) (p_scale : float)
  | set_3d (p_x p_y p_z p_sizex p_sizey p_sizez : Int) (p_scale : float)
  | set_3dv (p_v p_size : Vector3) (p_scale : float)
  | empty_set (p_size : Int)
  | empty_set_3dv (p_size : Vector3)
  | free (p_set : Nat)

/-- Perform one buffer call. -/
def BufferCall.apply (lib : NoiseLibrary) (s : State) : BufferCall → State
  | .set_1d p_z p_sizez p_scale => (get_noise_set_1d lib s p_z p_sizez p_scale).2
  | .set_2d p_x p_z p_sizex p_sizez p_scale =>
    (get_noise_set_2d lib s p_x p_z p_sizex p_sizez p_scale).2
  | .set_2dv p_v p_size p_scale => (get_noise_set_2dv lib s p_v p_size p_scale).2
  | .set_3d p_x p_y p_z p_sizex p_sizey p_sizez p_scale =>
    (get_noise_set_3d lib s p_x p_y p_z p_sizex p_sizey p_sizez p_scale).2
  | .set_3dv p_v p_size p_scale => (get_noise_set_3dv lib s p_v p_size p_scale).2
  | .empty_set p_size => (get_empty_set s p_size).2
  | .empty_set_3dv p_size => (get_empty_set_3dv s p_size).2
  | .free p_set => free_noise_set s p_set

/-- Perform the buffer calls of a list in order. -/
def run_buffer_calls (lib : NoiseLibrary) (s : State) (cs : List BufferCall) : State :=
  cs.foldl (BufferCall.apply lib) s

/-- The buffer a library call hands out, if it hands one out. -/
def LibCall.allocated? : LibCall → Option Nat
  | .GetNoiseSet _ ret => some ret
  | .GetEmptySet _ ret => some ret
  | _ => none

/-- The buffers handed out, in the order of the calls. -/
def handed_out (calls : List LibCall) : List Nat :=
  calls.filterMap LibCall.allocated?

/-- Read off the calls made on the library, oldest first: the buffers that were handed out
and have not been passed to the library's free function since. -/
def handed_out_not_freed : List LibCall → List Nat
  | [] => []
  | c :: cs =>
    match c.allocated? with
    | some p =>
      if LibCall.FreeNoiseSet p ∈ cs then handed_out_not_freed cs
      else p :: handed_out_not_freed cs
    | none => handed_out_not_freed cs

/-- Consistent buffer bookkeeping: the buffers handed out so far carry distinct numbers below
the next fresh one, and the tracked list holds the buffers handed out and not freed since. -/
def buffers_consistent (s : State) : Prop :=
  (∀ p ∈ handed_out s._noise.calls, p < s._noise.fresh) ∧
  (handed_out s._noise.calls).Nodup ∧
  s._allocated_sets = handed_out_not_freed s._noise.calls

/-! ## Textures -/

/-- The value of an `int` expression whose mathematical value is `n`: `n` itself when it lies
between -2^31 and 2^31 - 1.  Signed overflow is undefined in C++; the model takes the
two's-complement result, `n` reduced modulo 2^32 into that range. -/
def int_wrap (n : Int) : Int :=
  (n + 2147483648) % 4294967296 - 2147483648

/-- Product of two `int` values. -/
def int_mul (a b : Int) : Int :=
  int_wrap (a * b)

/-- Sum of two `int` values. -/
def int_add (a b : Int) : Int :=
  int_wrap (a + b)

/-- Conversion of an `int` to `uint8_t`: reduction modulo 256. -/
def int_to_uint8 (n : Int) : Nat :=
  (n % 256).toNat

/-- Conversion `uint8_t(f)` of a `float`: the fractional part is discarded.  C++ defines it
when the result lies in 0..255; the model reduces any other result modulo 256. -/
def float_to_uint8 (f : float) : Nat :=
  int_to_uint8 (float_to_int f)

/-- The statement `data.resize(size)` on a new `Vector<uint8_t>`: `size` bytes, which the
engine leaves as they are in memory (`uninit i` stands for byte `i`).  A negative size is
rejected and the vector stays empty. -/
def resize_bytes (uninit : Nat → Nat) (size : Int) : List Nat :=
  if size < 0 then [] else (List.range size.toNat).map uninit

/-- The assignment `wd8[index] = value`: `none` (undefined behaviour) when `index` is not a
position of the vector. -/
def write_byte (wd8 : List Nat) (index : Int) (value : Nat) : Option (List Nat) :=
  if 0 ≤ index ∧ index < wd8.length then some (wd8.set index.toNat value) else none

/-- Body of the first loop of `get_image`, on the pair `(min_val, max_val)`. -/
def scan_step (noise_set : NoiseSet) (acc : float × float) (i : Nat) : float × float :=
  let min_val := acc.1
  let max_val := acc.2
  let max_val := if noise_set.data i > max_val then noise_set.data i else max_val
  let min_val := if noise_set.data i < min_val then noise_set.data i else min_val
  (min_val, max_val)

/-- The first loop of `get_image`, `for (int i = 0; i < count; i++)`, started with
`min_val = 100` and `max_val = -100`: the pair `(min_val, max_val)` after it. -/
def scan_min_max (noise_set : NoiseSet) (count : Int) : float × float :=
  (List.range count.toNat).foldl (scan_step noise_set) (100, -100)

/-- Body of the second loop of `get_image`: the grey level of sample `x` and the four byte
writes. -/
def write_pixel (noise_set : NoiseSet) (min_val max_val : float) (p_invert : Bool)
    (wd8 : List Nat) (x : Nat) : Option (List Nat) :=
  let value := float_to_uint8
    (float_mul (float_div (float_sub (noise_set.data x) min_val) (float_sub max_val min_val))
      255)
  let value := if p_invert then int_to_uint8 (255 - value) else value
  (write_byte wd8 (int_add (int_mul x 4) 0) value).bind fun wd8 =>
  (write_byte wd8 (int_add (int_mul x 4) 1) value).bind fun wd8 =>
  (write_byte wd8 (int_add (int_mul x 4) 2) value).bind fun wd8 =>
  write_byte wd8 (int_add (int_mul x 4) 3) 255

/-- The block "Normalize values and write to texture" of `get_image`: nothing is written
when `max_val` equals `min_val`, otherwise the second loop,
`for (int x = 0; x < count; x++)`, runs. -/
def normalize_and_write (noise_set : NoiseSet) (min_val max_val : float) (p_invert : Bool)
    (count : Int) (wd8 : List Nat) : Option (List Nat) :=
  if max_val ≠ min_val then
    (List.range count.toNat).foldlM (write_pixel noise_set min_val max_val p_invert) wd8
  else some wd8

/-- The engine's `Image` as `get_image` builds it (no mipmaps, format RGBA8). -/
structure Image where
  width : Int
  height : Int
  data : List Nat
deriving DecidableEq

/-- The method `get_image`.  `uninit` gives the bytes of the pixel vector right after
`resize`.  The result is `none` when a write falls outside the vector (undefined behaviour);
the state is then the one reached before the writes. -/
def get_image (lib : NoiseLibrary) (uninit : Nat → Nat) (s : State)
    (p_width p_height : Int) (p_invert : Bool) : Option Image × State :=
  let data := resize_bytes uninit (int_mul (int_mul p_width p_height) 4)
  let wd8 := data
  let r := get_noise_set_2d lib s 0.0 0.0 p_height p_width default_p_scale
  let noise_set := r.1
  let s := r.2
  -- Get all values and identify min/max values
  let mm := scan_min_max noise_set (int_mul p_width p_height)
  let min_val := mm.1
  let max_val := mm.2
  -- Normalize values and write to texture
  match normalize_and_write noise_set min_val max_val p_invert (int_mul p_width p_height) wd8 with
  | none => (none, s)
  | some data =>
    let s := free_noise_set s noise_set.ptr
    (some ⟨p_width, p_height, data⟩, s)

/-- The number of elements of the region a request asks for: each extent converted to an
integer, then multiplied. -/
def NoiseSetRequest.element_count (r : NoiseSetRequest) : Int :=
  float_to_int r.xSize * float_to_int r.ySize * float_to_int r.zSize

/-- The grey level of a sample `v` between `min_val` and `max_val`:
`trunc((v - min) / (max - min) * 255)`, the difference, the quotient and the product being
`float` operations. -/
def grey_level (v min_val max_val : float) : Int :=
  float_to_int (float_mul (float_div (float_sub v min_val) (float_sub max_val min_val)) 255)

/-- The byte the second loop of `get_image` computes for a sample `v`: the truncated grey
level, subtracted from 255 when `p_invert` is set. -/
def grey_byte (v min_val max_val : float) (p_invert : Bool) : Nat :=
  let value := float_to_uint8
    (float_mul (float_div (float_sub v min_val) (float_sub max_val min_val)) 255)
  if p_invert then int_to_uint8 (255 - value) else value

/-- The request `get_image` makes through `get_noise_set_2d(0.0, 0.0, p_height, p_width)`
(proved below: `image_set_eq`). -/
def image_request (s : State) (p_width p_height : Int) : NoiseSetRequest :=
  ⟨float_add (int_to_float 0) s._offset.x, float_add (int_to_float 0) s._offset.y,
    float_add (int_to_float 0) s._offset.z, p_height, 1, p_width, s._scale⟩

/-- The buffer `get_image` obtains for that request. -/
def image_noise_set (lib : NoiseLibrary) (s : State) (p_width p_height : Int) : NoiseSet :=
  ⟨s._noise.fresh, lib.samples s._noise.config (image_request s p_width p_height)⟩

/-! ## Theorems -/

/-! ### The cellular distance index pair -/

theorem set_indices_index1 (s : State) (p_index0 p_index1 : Int) :
    (set_cellular_distance2_indices s p_index0 p_index1)._cell_dist_index1
      = min 3 (max 1 p_index1) := by
  unfold set_cellular_distance2_indices emit_changed
  by_cases h3 : p_index1 > 3
  · simp only [h3, if_true]
    split_ifs <;> simp <;> omega
  · by_cases h1 : p_index1 < 1
    · simp only [h3, h1, if_true, if_false]
      split_ifs <;> simp <;> omega
    · simp only [h3, h1, if_false]
      split_ifs <;> simp <;> omega

theorem set_indices_index0 (s : State) (p_index0 p_index1 : Int) :
    (set_cellular_distance2_indices s p_index0 p_index1)._cell_dist_index0
      = max 0 (min p_index0 (min 3 (max 1 p_index1) - 1)) := by
  unfold set_cellular_distance2_indices emit_changed
  by_cases h3 : p_index1 > 3
  · simp only [h3, if_true]
    split_ifs <;> simp at * <;> omega
  · by_cases h1 : p_index1 < 1
    · simp only [h3, h1, if_true, if_false]
      split_ifs <;> simp at * <;> omega
    · simp only [h3, h1, if_false]
      split_ifs <;> simp at * <;> omega

/-- Two states with the same fields are the same state. -/
theorem State.eq_of_fields (a b : State)
    (h1 : a._noise = b._noise) (h2 : a._allocated_sets = b._allocated_sets)
    (h3 : a._offset = b._offset) (h4 : a._scale = b._scale)
    (h5 : a._perturb_amp = b._perturb_amp) (h6 : a._axis_scales = b._axis_scales)
    (h7 : a._cell_dist_index0 = b._cell_dist_index0)
    (h8 : a._cell_dist_index1 = b._cell_dist_index1)
    (h9 : a.changed = b.changed) : a = b := by
  cases a
  cases b
  simp only [State.mk.injEq]
  exact ⟨h1, h2, h3, h4, h5, h6, h7, h8, h9⟩

theorem set_indices_noise (s : State) (p_index0 p_index1 : Int) :
    (set_cellular_distance2_indices s p_index0 p_index1)._noise
      = s._noise.call (.SetCellularDistance2Indices
          (set_cellular_distance2_indices s p_index0 p_index1)._cell_dist_index0
          (set_cellular_distance2_indices s p_index0 p_index1)._cell_dist_index1) := by
  unfold set_cellular_distance2_indices emit_changed
  dsimp only
  split_ifs <;> rfl

theorem set_indices_frame (s : State) (p_index0 p_index1 : Int) :
    (set_cellular_distance2_indices s p_index0 p_index1)._allocated_sets = s._allocated_sets
    ∧ (set_cellular_distance2_indices s p_index0 p_index1)._offset = s._offset
    ∧ (set_cellular_distance2_indices s p_index0 p_index1)._scale = s._scale
    ∧ (set_cellular_distance2_indices s p_index0 p_index1)._perturb_amp = s._perturb_amp
    ∧ (set_cellular_distance2_indices s p_index0 p_index1)._axis_scales = s._axis_scales
    ∧ (set_cellular_distance2_indices s p_index0 p_index1).changed = s.changed + 1 := by
  unfold set_cellular_distance2_indices emit_changed
  dsimp only
  split_ifs <;> exact ⟨rfl, rfl, rfl, rfl, rfl, rfl⟩

/-- The whole effect of `set_cellular_distance2_indices` in closed form. -/
theorem set_indices_eq (s : State) (p_index0 p_index1 : Int) :
    set_cellular_distance2_indices s p_index0 p_index1 =
      { s with
        _cell_dist_index1 := min 3 (max 1 p_index1)
        _cell_dist_index0 := max 0 (min p_index0 (min 3 (max 1 p_index1) - 1))
        _noise := s._noise.call (.SetCellularDistance2Indices
          (max 0 (min p_index0 (min 3 (max 1 p_index1) - 1))) (min 3 (max 1 p_index1)))
        changed := s.changed + 1 } := by
  have e1 := set_indices_index1 s p_index0 p_index1
  have e0 := set_indices_index0 s p_index0 p_index1
  have hn := set_indices_noise s p_index0 p_index1
  rw [e0, e1] at hn
  obtain ⟨h2, h3, h4, h5, h6, h9⟩ := set_indices_frame s p_index0 p_index1
  exact State.eq_of_fields _ _ hn h2 h3 h4 h5 h6 e0 e1 h9

theorem index_pair_valid_set_indices (s : State) (p_index0 p_index1 : Int) :
    index_pair_valid (set_cellular_distance2_indices s p_index0 p_index1) := by
  unfold index_pair_valid
  rw [set_indices_index0, set_indices_index1]
  omega

theorem index_pair_valid_apply (s : State) (c : IndexCall) :
    index_pair_valid (IndexCall.apply s c) := by
  cases c with
  | indices p_index0 p_index1 => exact index_pair_valid_set_indices s p_index0 p_index1
  | index0 p_index0 =>
    exact index_pair_valid_set_indices s p_index0 s._cell_dist_index1
  | index1 p_index1 =>
    exact index_pair_valid_set_indices s s._cell_dist_index0 p_index1

theorem index_pair_valid_new : index_pair_valid new := by
  unfold index_pair_valid
  decide

theorem index_pair_valid_run (cs : List IndexCall) :
    ∀ s : State, index_pair_valid s → index_pair_valid (run_index_calls s cs) := by
  induction cs with
  | nil => intro s hs; exact hs
  | cons c cs ih =>
    intro s _
    exact ih (IndexCall.apply s c) (index_pair_valid_apply s c)

/-- C1: after `set_cellular_distance2_indices(p_index0, p_index1)`, from any prior state and for
any pair of integers, the stored pair satisfies `1 ≤ index1 ≤ 3` and `0 ≤ index0 ≤ index1 - 1`,
hence `index0 < index1` and `index0 ≤ 2`; and the same bounds hold in every state reached from
the constructor by any sequence of calls of `set_cellular_distance2_indices`,
`set_cellular_distance2_index0` and `set_cellular_distance2_index1`. -/
theorem C1_distance2_index_invariant :
    (∀ (s : State) (p_index0 p_index1 : Int),
      1 ≤ (set_cellular_distance2_indices s p_index0 p_index1)._cell_dist_index1 ∧
      (set_cellular_distance2_indices s p_index0 p_index1)._cell_dist_index1 ≤ 3 ∧
      0 ≤ (set_cellular_distance2_indices s p_index0 p_index1)._cell_dist_index0 ∧
      (set_cellular_distance2_indices s p_index0 p_index1)._cell_dist_index0
        ≤ (set_cellular_distance2_indices s p_index0 p_index1)._cell_dist_index1 - 1 ∧
      (set_cellular_distance2_indices s p_index0 p_index1)._cell_dist_index0
        < (set_cellular_distance2_indices s p_index0 p_index1)._cell_dist_index1 ∧
      (set_cellular_distance2_indices s p_index0 p_index1)._cell_dist_index0 ≤ 2) ∧
    (∀ cs : List IndexCall,
      1 ≤ (run_index_calls new cs)._cell_dist_index1 ∧
      (run_index_calls new cs)._cell_dist_index1 ≤ 3 ∧
      0 ≤ (run_index_calls new cs)._cell_dist_index0 ∧
      (run_index_calls new cs)._cell_dist_index0 ≤ (run_index_calls new cs)._cell_dist_index1 - 1 ∧
      (run_index_calls new cs)._cell_dist_index0 < (run_index_calls new cs)._cell_dist_index1 ∧
      (run_index_calls new cs)._cell_dist_index0 ≤ 2) :=
  ⟨fun s p_index0 p_index1 => index_pair_valid_set_indices s p_index0 p_index1,
   fun cs => index_pair_valid_run cs new index_pair_valid_new⟩

/-- C2: `set_cellular_distance2_indices(p_index0, p_index1)` stores
`index1 = min(3, max(1, p_index1))` and `index0 = max(0, min(p_index0, index1 - 1))`, the three
getters return exactly that pair, and exactly that pair is forwarded to the library (the one
call added); a pair with `0 ≤ p_index0 < p_index1 ≤ 3` is stored unchanged, and setting
`(3, 1)` stores `(0, 1)`. -/
theorem C2_distance2_indices_clamp :
    (∀ (s : State) (p_index0 p_index1 : Int),
      (set_cellular_distance2_indices s p_index0 p_index1)._cell_dist_index1
        = min 3 (max 1 p_index1) ∧
      (set_cellular_distance2_indices s p_index0 p_index1)._cell_dist_index0
        = max 0 (min p_index0
            ((set_cellular_distance2_indices s p_index0 p_index1)._cell_dist_index1 - 1)) ∧
      get_cellular_distance2_indices (set_cellular_distance2_indices s p_index0 p_index1)
        = [max 0 (min p_index0 (min 3 (max 1 p_index1) - 1)), min 3 (max 1 p_index1)] ∧
      get_cellular_distance2_index0 (set_cellular_distance2_indices s p_index0 p_index1)
        = max 0 (min p_index0 (min 3 (max 1 p_index1) - 1)) ∧
      get_cellular_distance2_index1 (set_cellular_distance2_indices s p_index0 p_index1)
        = min 3 (max 1 p_index1) ∧
      (set_cellular_distance2_indices s p_index0 p_index1)._noise.calls
        = s._noise.calls ++ [LibCall.SetCellularDistance2Indices
            (max 0 (min p_index0 (min 3 (max 1 p_index1) - 1))) (min 3 (max 1 p_index1))] ∧
      (0 ≤ p_index0 → p_index0 < p_index1 → p_index1 ≤ 3 →
        (set_cellular_distance2_indices s p_index0 p_index1)._cell_dist_index0 = p_index0 ∧
        (set_cellular_distance2_indices s p_index0 p_index1)._cell_dist_index1 = p_index1)) ∧
    (∀ s : State,
      (set_cellular_distance2_indices s 3 1)._cell_dist_index0 = 0 ∧
      (set_cellular_distance2_indices s 3 1)._cell_dist_index1 = 1 ∧
      get_cellular_distance2_indices (set_cellular_distance2_indices s 3 1) = [0, 1]) := by
  refine ⟨fun s p_index0 p_index1 => ?_, fun s => ?_⟩
  · have e := set_indices_eq s p_index0 p_index1
    refine ⟨?_, ?_, ?_, ?_, ?_, ?_, ?_⟩
    · rw [e]
    · rw [e]
    · rw [e]; rfl
    · rw [e]; rfl
    · rw [e]; rfl
    · rw [e]; rfl
    · intro h0 h01 h3
      rw [e]
      constructor
      · show max 0 (min p_index0 (min 3 (max 1 p_index1) - 1)) = p_index0
        omega
      · show min 3 (max 1 p_index1) = p_index1
        omega
  · have e := set_indices_eq s 3 1
    rw [e]
    refine ⟨?_, ?_, ?_⟩ <;> simp [get_cellular_distance2_indices]

/-- C2 at the constructor's state: the valid pair `(1, 2)` is stored as it is. -/
theorem C2_distance2_indices_clamp_witness :
    (set_cellular_distance2_indices new 1 2)._cell_dist_index0 = 1 ∧
    (set_cellular_distance2_indices new 1 2)._cell_dist_index1 = 2 :=
  (C2_distance2_indices_clamp.1 new 1 2).2.2.2.2.2.2 (by decide) (by decide) (by decide)

/-! ### Conversions -/

theorem float_zero : (0.0 : float) = 0 := by norm_num

theorem float_one : (1.0 : float) = 1 := by norm_num

/-! ### Rounding -/

theorem round_half_even_intCast (n : Int) : round_half_even (n : ℚ) = n := by
  unfold round_half_even
  simp

theorem round_half_even_bounds (y : ℚ) :
    Int.floor y ≤ round_half_even y ∧ round_half_even y ≤ Int.floor y + 1 := by
  unfold round_half_even
  dsimp only
  split_ifs <;> omega

theorem round_half_even_mono (a b : ℚ) (h : a ≤ b) : round_half_even a ≤ round_half_even b := by
  have hf : Int.floor a ≤ Int.floor b := Int.floor_mono h
  rcases lt_or_eq_of_le hf with hlt | heq
  · have h1 := (round_half_even_bounds a).2
    have h2 := (round_half_even_bounds b).1
    omega
  · unfold round_half_even
    dsimp only
    rw [heq]
    have hab : a - Int.floor b ≤ b - Int.floor b := by linarith
    split_ifs <;> first | omega | (exfalso; linarith)

theorem int_log_eq (r : ℚ) (k : Int) (h1 : (2 : ℚ) ^ k ≤ r) (h2 : r < 2 ^ (k + 1)) :
    Int.log 2 r = k := by
  have hr : 0 < r := lt_of_lt_of_le (by positivity) h1
  have a : k ≤ Int.log 2 r := by
    rw [← Int.zpow_le_iff_le_log (by norm_num) hr]
    exact_mod_cast h1
  have b : Int.log 2 r < k + 1 := by
    rw [← Int.lt_zpow_iff_log_lt (by norm_num) hr]
    exact_mod_cast h2
  omega

theorem int_log_bounds (r : ℚ) (hr : 0 < r) :
    (2 : ℚ) ^ Int.log 2 r ≤ r ∧ r < 2 ^ (Int.log 2 r + 1) := by
  have a := Int.zpow_log_le_self (b := 2) (by norm_num) hr
  have b := Int.lt_zpow_succ_log_self (b := 2) (by norm_num) r
  constructor
  · exact_mod_cast a
  · exact_mod_cast b


theorem float_round_abs_zero : float_round_abs 0 = 0 := by
  unfold float_round_abs
  rw [zero_div, ← Int.cast_zero, round_half_even_intCast]
  simp

/-- The scaled significand of a positive value lies between 2^23 and 2^24. -/
theorem scaled_bounds (a : ℚ) (ha : 0 < a) :
    (2 : ℚ) ^ (23 : Int) ≤ a / 2 ^ (Int.log 2 a - 23) ∧
    a / 2 ^ (Int.log 2 a - 23) < 2 ^ (24 : Int) := by
  obtain ⟨h1, h2⟩ := int_log_bounds a ha
  have hp : (0 : ℚ) < 2 ^ (Int.log 2 a - 23) := by positivity
  constructor
  · rw [le_div_iff₀ hp, ← zpow_add₀ (by norm_num : (2 : ℚ) ≠ 0)]
    have e : (23 : Int) + (Int.log 2 a - 23) = Int.log 2 a := by ring
    rw [e]
    exact h1
  · rw [div_lt_iff₀ hp, ← zpow_add₀ (by norm_num : (2 : ℚ) ≠ 0)]
    have e : (24 : Int) + (Int.log 2 a - 23) = Int.log 2 a + 1 := by ring
    rw [e]
    exact h2

theorem significand_bounds (a : ℚ) (ha : 0 < a) :
    (8388608 : Int) ≤ round_half_even (a / 2 ^ (Int.log 2 a - 23)) ∧
    round_half_even (a / 2 ^ (Int.log 2 a - 23)) ≤ 16777216 := by
  obtain ⟨h1, h2⟩ := scaled_bounds a ha
  constructor
  · have h := round_half_even_mono _ _ h1
    have e : ((2 : ℚ) ^ (23 : Int)) = ((8388608 : Int) : ℚ) := by norm_num
    rw [e, round_half_even_intCast] at h
    exact h
  · have h := round_half_even_mono _ _ (le_of_lt h2)
    have e : ((2 : ℚ) ^ (24 : Int)) = ((16777216 : Int) : ℚ) := by norm_num
    rw [e, round_half_even_intCast] at h
    exact h

/-- Rounding keeps a positive value within its binade. -/
theorem float_round_abs_binade (a : ℚ) (ha : 0 < a) :
    (2 : ℚ) ^ Int.log 2 a ≤ float_round_abs a ∧
    float_round_abs a ≤ 2 ^ (Int.log 2 a + 1) := by
  obtain ⟨h1, h2⟩ := significand_bounds a ha
  have hp : (0 : ℚ) < 2 ^ (Int.log 2 a - 23) := by positivity
  unfold float_round_abs
  constructor
  · have e : (2 : ℚ) ^ Int.log 2 a = 8388608 * 2 ^ (Int.log 2 a - 23) := by
      have : (8388608 : ℚ) = 2 ^ (23 : Int) := by norm_num
      rw [this, ← zpow_add₀ (by norm_num : (2 : ℚ) ≠ 0)]
      congr 1
      ring
    rw [e]
    apply mul_le_mul_of_nonneg_right _ (le_of_lt hp)
    exact_mod_cast h1
  · have e : (2 : ℚ) ^ (Int.log 2 a + 1) = 16777216 * 2 ^ (Int.log 2 a - 23) := by
      have : (16777216 : ℚ) = 2 ^ (24 : Int) := by norm_num
      rw [this, ← zpow_add₀ (by norm_num : (2 : ℚ) ≠ 0)]
      congr 1
      ring
    rw [e]
    apply mul_le_mul_of_nonneg_right _ (le_of_lt hp)
    exact_mod_cast h2

theorem float_round_abs_pos (a : ℚ) (ha : 0 < a) : 0 < float_round_abs a :=
  lt_of_lt_of_le (by positivity) (float_round_abs_binade a ha).1

theorem float_round_abs_mono (a b : ℚ) (ha : 0 ≤ a) (hab : a ≤ b) :
    float_round_abs a ≤ float_round_abs b := by
  rcases eq_or_lt_of_le ha with h0 | hpos
  · rw [← h0, float_round_abs_zero]
    rcases eq_or_lt_of_le (le_trans ha hab) with hb0 | hbpos
    · rw [← hb0, float_round_abs_zero]
    · exact le_of_lt (float_round_abs_pos b hbpos)
  · have hb : 0 < b := lt_of_lt_of_le hpos hab
    have hlog : Int.log 2 a ≤ Int.log 2 b := Int.log_mono_right hpos hab
    rcases lt_or_eq_of_le hlog with hlt | heq
    · have h1 := (float_round_abs_binade a hpos).2
      have h2 := (float_round_abs_binade b hb).1
      have h3 : (2 : ℚ) ^ (Int.log 2 a + 1) ≤ 2 ^ Int.log 2 b :=
        zpow_le_zpow_right₀ (by norm_num) (by omega)
      linarith
    · unfold float_round_abs
      rw [heq]
      have hp : (0 : ℚ) < 2 ^ (Int.log 2 b - 23) := by positivity
      apply mul_le_mul_of_nonneg_right _ (le_of_lt hp)
      have := round_half_even_mono (a / 2 ^ (Int.log 2 b - 23)) (b / 2 ^ (Int.log 2 b - 23))
        (div_le_div_of_nonneg_right hab (le_of_lt hp))
      exact_mod_cast this

theorem float_round_zero : float_round 0 = 0 := by
  unfold float_round
  rw [if_neg (by norm_num), float_round_abs_zero]

theorem float_round_of_nonneg (q : ℚ) (h : 0 ≤ q) : float_round q = float_round_abs q := by
  unfold float_round
  rw [if_neg (not_lt.mpr h)]

theorem float_round_neg (q : ℚ) : float_round (-q) = -float_round q := by
  unfold float_round
  rcases lt_trichotomy q 0 with h | h | h
  · rw [if_neg (by linarith), if_pos h, neg_neg]
  · rw [h]
    simp [float_round_abs_zero]
  · rw [if_pos (by linarith), if_neg (by linarith), neg_neg]

theorem float_round_nonneg (q : ℚ) (h : 0 ≤ q) : 0 ≤ float_round q := by
  rw [float_round_of_nonneg q h]
  have := float_round_abs_mono 0 q le_rfl h
  rwa [float_round_abs_zero] at this

theorem float_round_pos (q : ℚ) (h : 0 < q) : 0 < float_round q := by
  rw [float_round_of_nonneg q (le_of_lt h)]
  exact float_round_abs_pos q h

/-- Rounding is monotone. -/
theorem float_round_mono (a b : ℚ) (h : a ≤ b) : float_round a ≤ float_round b := by
  rcases lt_or_le a 0 with ha | ha
  · rcases lt_or_le b 0 with hb | hb
    · have e1 : float_round a = -float_round (-a) := by rw [float_round_neg, neg_neg]
      have e2 : float_round b = -float_round (-b) := by rw [float_round_neg, neg_neg]
      rw [e1, e2, float_round_of_nonneg (-a) (by linarith),
        float_round_of_nonneg (-b) (by linarith)]
      have := float_round_abs_mono (-b) (-a) (by linarith) (by linarith)
      linarith
    · have e1 : float_round a = -float_round (-a) := by rw [float_round_neg, neg_neg]
      have h1 := float_round_nonneg (-a) (by linarith)
      have h2 := float_round_nonneg b hb
      rw [e1]
      linarith
  · rw [float_round_of_nonneg a ha, float_round_of_nonneg b (le_trans ha h)]
    exact float_round_abs_mono a b ha h

/-- A value `m * 2^e` with `0 < m < 2^24` is a `float` value: rounding leaves it as it is. -/
theorem float_round_abs_dyadic (m : Nat) (e : Int) (hm0 : 0 < m) (hm : m < 16777216) :
    float_round_abs ((m : ℚ) * 2 ^ e) = (m : ℚ) * 2 ^ e := by
  have hpe : (0 : ℚ) < 2 ^ e := by positivity
  have ha : (0 : ℚ) < (m : ℚ) * 2 ^ e := by positivity
  obtain ⟨h1, h2⟩ := int_log_bounds _ ha
  -- the exponent of the value is at most e + 23
  have hE : Int.log 2 ((m : ℚ) * 2 ^ e) ≤ e + 23 := by
    by_contra hc
    have hge : e + 24 ≤ Int.log 2 ((m : ℚ) * 2 ^ e) := by omega
    have h3 : (2 : ℚ) ^ (e + 24) ≤ 2 ^ Int.log 2 ((m : ℚ) * 2 ^ e) :=
      zpow_le_zpow_right₀ (by norm_num) hge
    have h4 : (m : ℚ) * 2 ^ e < 2 ^ (e + 24) := by
      rw [zpow_add₀ (by norm_num : (2 : ℚ) ≠ 0)]
      have : (m : ℚ) < 2 ^ (24 : Int) := by
        norm_num
        exact hm
      nlinarith
    linarith
  obtain ⟨k, hk⟩ : ∃ k : Nat, (k : Int) = e + 23 - Int.log 2 ((m : ℚ) * 2 ^ e) :=
    ⟨(e + 23 - Int.log 2 ((m : ℚ) * 2 ^ e)).toNat, by omega⟩
  have hscaled : (m : ℚ) * 2 ^ e / 2 ^ (Int.log 2 ((m : ℚ) * 2 ^ e) - 23)
      = (((m * 2 ^ k : Nat) : Int) : ℚ) := by
    rw [mul_div_assoc, ← zpow_sub₀ (by norm_num : (2 : ℚ) ≠ 0)]
    have : e - (Int.log 2 ((m : ℚ) * 2 ^ e) - 23) = (k : Int) := by omega
    rw [this]
    push_cast
    rw [zpow_natCast]
  unfold float_round_abs
  rw [hscaled, round_half_even_intCast, ← hscaled]
  have hp : (2 : ℚ) ^ (Int.log 2 ((m : ℚ) * 2 ^ e) - 23) ≠ 0 := by positivity
  rw [div_mul_cancel₀ _ hp]

theorem float_round_natCast (n : Nat) (h : n ≤ 16777216) : float_round (n : ℚ) = n := by
  rw [float_round_of_nonneg _ (by positivity)]
  rcases Nat.eq_zero_or_pos n with h0 | hpos
  · rw [h0]
    simpa using float_round_abs_zero
  · rcases Nat.lt_or_ge n 16777216 with hlt | hge
    · have := float_round_abs_dyadic n 0 hpos hlt
      simpa using this
    · have e : n = 16777216 := by omega
      have := float_round_abs_dyadic 1 24 (by norm_num) (by norm_num)
      rw [e]
      norm_num at this ⊢
      exact this

theorem float_round_intCast (n : Int) (h1 : -16777216 ≤ n) (h2 : n ≤ 16777216) :
    float_round (n : ℚ) = n := by
  rcases le_or_lt 0 n with h | h
  · lift n to ℕ using h
    have := float_round_natCast n (by omega)
    simpa using this
  · obtain ⟨m, rfl⟩ : ∃ m : Nat, n = -(m : Int) := ⟨n.natAbs, by omega⟩
    have := float_round_natCast m (by omega)
    push_cast
    rw [float_round_neg, this]

/-- An integer of magnitude at most 2^24 is converted to `float` exactly. -/
theorem int_to_float_of_small (n : Int) (h1 : -16777216 ≤ n) (h2 : n ≤ 16777216) :
    int_to_float n = n :=
  float_round_intCast n h1 h2

theorem int_to_float_zero : int_to_float 0 = 0 := by
  simpa using int_to_float_of_small 0 (by norm_num) (by norm_num)

/-- A sum of integers of magnitude at most 2^24 is exact. -/
theorem float_add_intCast (a b : Int) (h1 : -16777216 ≤ a + b) (h2 : a + b ≤ 16777216) :
    float_add (a : float) (b : float) = ((a + b : Int) : float) := by
  unfold float_add
  rw [← Int.cast_add]
  exact float_round_intCast _ h1 h2

theorem float_add_zero_zero : float_add 0 0 = 0 := by
  simpa using float_add_intCast 0 0 (by norm_num) (by norm_num)

/-- Evaluation of the rounding of a positive number from the exponent of its leading bit. -/
theorem float_round_abs_eval (a : ℚ) (k m : Int) (h1 : (2 : ℚ) ^ k ≤ a) (h2 : a < 2 ^ (k + 1))
    (hm : round_half_even (a / 2 ^ (k - 23)) = m) :
    float_round_abs a = m * 2 ^ (k - 23) := by
  unfold float_round_abs
  rw [int_log_eq a k h1 h2, hm]

/-- A tie goes to the even neighbour. -/
theorem round_half_even_tie (f : Int) :
    round_half_even ((f : ℚ) + 1 / 2) = if f % 2 = 0 then f else f + 1 := by
  have hf : Int.floor ((f : ℚ) + 1 / 2) = f := by
    rw [Int.floor_eq_iff]
    constructor <;> norm_num
  unfold round_half_even
  simp only [hf]
  rw [if_neg (by norm_num), if_neg (by norm_num)]

theorem float_round_16777217 : float_round 16777217 = 16777216 := by
  rw [float_round_of_nonneg _ (by norm_num),
    float_round_abs_eval 16777217 24 8388608 (by norm_num) (by norm_num)]
  · norm_num
  · have e : (16777217 : ℚ) / 2 ^ ((24 : Int) - 23) = ((8388608 : Int) : ℚ) + 1 / 2 := by
      norm_num
    rw [e, round_half_even_tie]
    decide

theorem float_round_16785409 : float_round 16785409 = 16785408 := by
  rw [float_round_of_nonneg _ (by norm_num),
    float_round_abs_eval 16785409 24 8392704 (by norm_num) (by norm_num)]
  · norm_num
  · have e : (16785409 : ℚ) / 2 ^ ((24 : Int) - 23) = ((8392704 : Int) : ℚ) + 1 / 2 := by
      norm_num
    rw [e, round_half_even_tie]
    decide

/-- A value `m * 2^e` with `|m| < 2^24` is a `float` value. -/
theorem float_round_dyadic (m e : Int) (h1 : -16777216 < m) (h2 : m < 16777216) :
    float_round ((m : ℚ) * 2 ^ e) = (m : ℚ) * 2 ^ e := by
  rcases lt_trichotomy m 0 with h | h | h
  · obtain ⟨n, rfl⟩ : ∃ n : Nat, m = -(n : Int) := ⟨m.natAbs, by omega⟩
    have hn := float_round_abs_dyadic n e (by omega) (by omega)
    have hp : (0 : ℚ) ≤ (n : ℚ) * 2 ^ e := by positivity
    push_cast
    rw [neg_mul, float_round_neg, float_round_of_nonneg _ hp, hn]
  · rw [h]
    simpa using float_round_zero
  · lift m to ℕ using (le_of_lt h)
    have hn := float_round_abs_dyadic m e (by omega) (by omega)
    have hp : (0 : ℚ) ≤ (m : ℚ) * 2 ^ e := by positivity
    push_cast
    rw [float_round_of_nonneg _ hp, hn]

theorem int_to_float_16777217 : int_to_float 16777217 = 16777216 := by
  unfold int_to_float
  exact_mod_cast float_round_16777217

theorem float_add_16777216_zero : float_add 16777216 0 = 16777216 := by
  simpa using float_add_intCast 16777216 0 (by norm_num) (by norm_num)

theorem float_add_zero_small :
    float_add 0 1 = 1 ∧ float_add 0 2 = 2 ∧ float_add 0 3 = 3 :=
  ⟨by simpa using float_add_intCast 0 1 (by norm_num) (by norm_num),
   by simpa using float_add_intCast 0 2 (by norm_num) (by norm_num),
   by simpa using float_add_intCast 0 3 (by norm_num) (by norm_num)⟩

/-! ### Conversion to `int` -/

theorem float_trunc_intCast (n : Int) : float_trunc (n : float) = n := by
  unfold float_trunc
  split_ifs <;> simp

theorem float_trunc_natCast (n : Nat) : float_trunc (n : float) = n := by
  have h := float_trunc_intCast (n : Int)
  simpa using h

theorem float_to_int_of_range (f : float) (h1 : -2147483648 ≤ float_trunc f)
    (h2 : float_trunc f ≤ 2147483647) : float_to_int f = float_trunc f := by
  unfold float_to_int
  rw [if_pos ⟨h1, h2⟩]

theorem float_to_int_intCast (n : Int) (h1 : -2147483648 ≤ n) (h2 : n ≤ 2147483647) :
    float_to_int (n : float) = n := by
  rw [float_to_int_of_range _ (by rw [float_trunc_intCast]; exact h1)
    (by rw [float_trunc_intCast]; exact h2), float_trunc_intCast]

theorem float_to_int_natCast (n : Nat) (h : n ≤ 2147483647) :
    float_to_int (n : float) = n := by
  have h := float_to_int_intCast (n : Int) (by omega) (by omega)
  simpa using h

theorem float_to_int_zero : float_to_int 0.0 = 0 := by
  have h := float_to_int_intCast 0 (by norm_num) (by norm_num)
  norm_num at h ⊢
  exact h

theorem float_to_int_one : float_to_int 1.0 = 1 := by
  have h := float_to_int_intCast 1 (by norm_num) (by norm_num)
  norm_num at h ⊢
  exact h

theorem float_trunc_eq (q : float) (n : Int) (h0 : 0 ≤ q) (h1 : (n : float) ≤ q)
    (h2 : q < n + 1) : float_trunc q = n := by
  unfold float_trunc
  rw [if_pos h0]
  exact Int.floor_eq_iff.mpr ⟨h1, h2⟩

theorem float_to_int_eq (q : float) (n : Int) (h0 : 0 ≤ q) (h1 : (n : float) ≤ q)
    (h2 : q < n + 1) (hn1 : -2147483648 ≤ n) (hn2 : n ≤ 2147483647) :
    float_to_int q = n := by
  have e := float_trunc_eq q n h0 h1 h2
  rw [float_to_int_of_range q (by rw [e]; exact hn1) (by rw [e]; exact hn2), e]

theorem float_to_int_half : float_to_int (1 / 2) = 0 :=
  float_to_int_eq _ 0 (by norm_num) (by norm_num) (by norm_num) (by norm_num) (by norm_num)

/-! ### The requests made by the entry points -/

theorem last_request_get (l : List LibCall) (r : NoiseSetRequest) (p : Nat) :
    last_request ⟨l ++ [LibCall.GetNoiseSet r p]⟩ = some r := by
  simp [last_request, LibCall.request?]

theorem last_request_get_free (l : List LibCall) (r : NoiseSetRequest) (p q : Nat) :
    last_request ⟨l ++ [LibCall.GetNoiseSet r p, LibCall.FreeNoiseSet q]⟩ = some r := by
  simp [last_request, LibCall.request?]

theorem last_request_fill (l : List LibCall) (r : NoiseSetRequest) (p : Nat) :
    last_request ⟨l ++ [LibCall.FillNoiseSet p r]⟩ = some r := by
  simp [last_request, LibCall.request?]

theorem get_noise_3d_calls (lib : NoiseLibrary) (s : State) (p_x p_y p_z : float) :
    (get_noise_3d lib s p_x p_y p_z).2._noise.calls
      = s._noise.calls ++
        [LibCall.GetNoiseSet
          ⟨float_add p_x s._offset.x, float_add p_y s._offset.y, float_add p_z s._offset.z, 1.0, 1.0, 1.0,
            lib.default_scaleModifier⟩ s._noise.fresh,
         LibCall.FreeNoiseSet s._noise.fresh] := by
  simp [get_noise_3d, _FastNoiseSIMD.GetNoiseSet, _FastNoiseSIMD.call]

theorem get_noise_3d_request (lib : NoiseLibrary) (s : State) (p_x p_y p_z : float) :
    last_request (get_noise_3d lib s p_x p_y p_z).2._noise
      = some ⟨float_add p_x s._offset.x, float_add p_y s._offset.y, float_add p_z s._offset.z, 1.0, 1.0, 1.0,
          lib.default_scaleModifier⟩ := by
  have h := get_noise_3d_calls lib s p_x p_y p_z
  have e : (get_noise_3d lib s p_x p_y p_z).2._noise
      = ⟨(get_noise_3d lib s p_x p_y p_z).2._noise.calls⟩ := rfl
  rw [e, h]
  exact last_request_get_free _ _ _ _

theorem get_noise_set_3d_eq (lib : NoiseLibrary) (s : State)
    (p_x p_y p_z p_sizex p_sizey p_sizez : Int) (p_scale : float) :
    get_noise_set_3d lib s p_x p_y p_z p_sizex p_sizey p_sizez p_scale
      = (⟨s._noise.fresh, lib.samples s._noise.config
            ⟨float_add (int_to_float p_x) s._offset.x, float_add (int_to_float p_y) s._offset.y,
              float_add (int_to_float p_z) s._offset.z,
              p_sizex, p_sizey, p_sizez, if p_scale = 0 then s._scale else p_scale⟩⟩,
         { s with
           _noise := ⟨s._noise.calls ++ [LibCall.GetNoiseSet
              ⟨float_add (int_to_float p_x) s._offset.x, float_add (int_to_float p_y) s._offset.y,
              float_add (int_to_float p_z) s._offset.z,
                p_sizex, p_sizey, p_sizez, if p_scale = 0 then s._scale else p_scale⟩
              s._noise.fresh]⟩
           _allocated_sets := s._allocated_sets ++ [s._noise.fresh] }) := by
  simp [get_noise_set_3d, _FastNoiseSIMD.GetNoiseSet, _FastNoiseSIMD.call, float_zero]

theorem get_noise_set_3d_request (lib : NoiseLibrary) (s : State)
    (p_x p_y p_z p_sizex p_sizey p_sizez : Int) (p_scale : float) :
    last_request (get_noise_set_3d lib s p_x p_y p_z p_sizex p_sizey p_sizez p_scale).2._noise
      = some ⟨float_add (int_to_float p_x) s._offset.x, float_add (int_to_float p_y) s._offset.y,
              float_add (int_to_float p_z) s._offset.z,
          p_sizex, p_sizey, p_sizez, if p_scale = 0 then s._scale else p_scale⟩ := by
  rw [get_noise_set_3d_eq]
  exact last_request_get _ _ _

theorem fill_noise_set_3d_request (s : State) (p_set : Nat)
    (p_x p_y p_z p_sizex p_sizey p_sizez : Int) (p_scale : float) :
    last_request (fill_noise_set_3d s p_set p_x p_y p_z p_sizex p_sizey p_sizez p_scale)._noise
      = some ⟨float_add (int_to_float p_x) s._offset.x, float_add (int_to_float p_y) s._offset.y,
              float_add (int_to_float p_z) s._offset.z,
          p_sizex, p_sizey, p_sizez, if p_scale = 0 then s._scale else p_scale⟩ := by
  have e : (fill_noise_set_3d s p_set p_x p_y p_z p_sizex p_sizey p_sizez p_scale)._noise
      = ⟨s._noise.calls ++ [LibCall.FillNoiseSet p_set
          ⟨float_add (int_to_float p_x) s._offset.x, float_add (int_to_float p_y) s._offset.y,
              float_add (int_to_float p_z) s._offset.z,
            p_sizex, p_sizey, p_sizez, if p_scale = 0 then s._scale else p_scale⟩]⟩ := by
    simp [fill_noise_set_3d, _FastNoiseSIMD.call, float_zero]
  rw [e]
  exact last_request_fill _ _ _

theorem b_get_noise_set_1d_eq (lib : NoiseLibrary) (s : State)
    (p_z : float) (p_sizez : Int) (p_scale : float) :
    _b_get_noise_set_1d lib s p_z p_sizez p_scale
      = if p_sizez < 0 then
          (none, { s with _noise := ⟨s._noise.calls ++
            [LibCall.GetNoiseSet (b_1d_request s p_z p_sizez p_scale) s._noise.fresh]⟩ })
        else
          (some ((List.range p_sizez.toNat).map
              (lib.samples s._noise.config (b_1d_request s p_z p_sizez p_scale))),
           { s with _noise := ⟨s._noise.calls ++
            [LibCall.GetNoiseSet (b_1d_request s p_z p_sizez p_scale) s._noise.fresh,
             LibCall.FreeNoiseSet s._noise.fresh]⟩ }) := by
  unfold _b_get_noise_set_1d resize_and_memcpy b_1d_request
  simp only [float_zero, float_one]
  split_ifs <;>
    simp [_FastNoiseSIMD.GetNoiseSet, _FastNoiseSIMD.call, float_zero, float_one]

theorem b_get_noise_set_2dv_eq (lib : NoiseLibrary) (s : State)
    (p_v p_size : Vector2) (p_scale : float) :
    _b_get_noise_set_2dv lib s p_v p_size p_scale
      = if float_to_int (float_mul p_size.x p_size.y) < 0 then
          (none, { s with _noise := ⟨s._noise.calls ++
            [LibCall.GetNoiseSet (b_2dv_request s p_v p_size p_scale) s._noise.fresh]⟩ })
        else
          (some ((List.range (float_to_int (float_mul p_size.x p_size.y)).toNat).map
              (lib.samples s._noise.config (b_2dv_request s p_v p_size p_scale))),
           { s with _noise := ⟨s._noise.calls ++
            [LibCall.GetNoiseSet (b_2dv_request s p_v p_size p_scale) s._noise.fresh,
             LibCall.FreeNoiseSet s._noise.fresh]⟩ }) := by
  unfold _b_get_noise_set_2dv resize_and_memcpy b_2dv_request
  simp only [float_zero, float_one]
  split_ifs <;>
    simp [_FastNoiseSIMD.GetNoiseSet, _FastNoiseSIMD.call, float_zero, float_one]

theorem b_get_noise_set_3dv_eq (lib : NoiseLibrary) (s : State)
    (p_v p_size : Vector3) (p_scale : float) :
    _b_get_noise_set_3dv lib s p_v p_size p_scale
      = if float_to_int (float_mul (float_mul p_size.x p_size.y) p_size.z) < 0 then
          (none, { s with _noise := ⟨s._noise.calls ++
            [LibCall.GetNoiseSet (b_3dv_request s p_v p_size p_scale) s._noise.fresh]⟩ })
        else
          (some ((List.range (float_to_int (float_mul (float_mul p_size.x p_size.y) p_size.z)).toNat).map
              (lib.samples s._noise.config (b_3dv_request s p_v p_size p_scale))),
           { s with _noise := ⟨s._noise.calls ++
            [LibCall.GetNoiseSet (b_3dv_request s p_v p_size p_scale) s._noise.fresh,
             LibCall.FreeNoiseSet s._noise.fresh]⟩ }) := by
  unfold _b_get_noise_set_3dv resize_and_memcpy b_3dv_request
  simp only [float_zero, float_one]
  split_ifs <;>
    simp [_FastNoiseSIMD.GetNoiseSet, _FastNoiseSIMD.call, float_zero, float_one]

theorem b_get_noise_set_1d_request (lib : NoiseLibrary) (s : State)
    (p_z : float) (p_sizez : Int) (p_scale : float) :
    last_request (_b_get_noise_set_1d lib s p_z p_sizez p_scale).2._noise
      = some (b_1d_request s p_z p_sizez p_scale) := by
  rw [b_get_noise_set_1d_eq]
  split_ifs
  · exact last_request_get _ _ _
  · exact last_request_get_free _ _ _ _

theorem b_get_noise_set_2dv_request (lib : NoiseLibrary) (s : State)
    (p_v p_size : Vector2) (p_scale : float) :
    last_request (_b_get_noise_set_2dv lib s p_v p_size p_scale).2._noise
      = some (b_2dv_request s p_v p_size p_scale) := by
  rw [b_get_noise_set_2dv_eq]
  split_ifs
  · exact last_request_get _ _ _
  · exact last_request_get_free _ _ _ _

theorem b_get_noise_set_3dv_request (lib : NoiseLibrary) (s : State)
    (p_v p_size : Vector3) (p_scale : float) :
    last_request (_b_get_noise_set_3dv lib s p_v p_size p_scale).2._noise
      = some (b_3dv_request s p_v p_size p_scale) := by
  rw [b_get_noise_set_3dv_eq]
  split_ifs
  · exact last_request_get _ _ _
  · exact last_request_get_free _ _ _ _

/-! ### The constructor's state -/

theorem new_offset : new._offset = ⟨0, 0, 0⟩ := by
  have h : new._offset = ⟨0.0, 0.0, 0.0⟩ := rfl
  rw [h, float_zero]

theorem new_scale : new._scale = 1 := by
  have h : new._scale = 1.0 := rfl
  rw [h, float_one]

theorem new_allocated_sets : new._allocated_sets = [] := rfl

/-! ### Start coordinates -/

/-- C3 fails as stated.  `get_noise_set_1d` passes its `float` coordinate for the `int`
parameter of `get_noise_set_3d`: on the constructor's state (offset zero) the query at
`z = 1/2` hands the library the start `(0, 0, 0)` and not `(0, 0, 1/2)`.  And
`get_noise_set_3d` converts its `int` origin to `float`: the origin `x = 16777217` is handed
over as `16777216`. -/
theorem C3_counterexample_truncated_coordinate :
    (last_request (get_noise_set_1d sample_library new (1 / 2) 1 0).2._noise).map
        NoiseSetRequest.start
      = some ⟨0, 0, 0⟩ ∧
    (last_request (get_noise_set_1d sample_library new (1 / 2) 1 0).2._noise).map
        NoiseSetRequest.start
      ≠ some ⟨0 + new._offset.x, 0 + new._offset.y, 1 / 2 + new._offset.z⟩ ∧
    (last_request (get_noise_set_3d sample_library new 16777217 0 0 1 1 1 0).2._noise).map
        NoiseSetRequest.start
      = some ⟨16777216, 0, 0⟩ ∧
    (last_request (get_noise_set_3d sample_library new 16777217 0 0 1 1 1 0).2._noise).map
        NoiseSetRequest.start
      ≠ some ⟨16777217 + new._offset.x, 0 + new._offset.y, 0 + new._offset.z⟩ := by
  have h : (last_request (get_noise_set_1d sample_library new (1 / 2) 1 0).2._noise).map
        NoiseSetRequest.start = some ⟨0, 0, 0⟩ := by
    unfold get_noise_set_1d
    rw [get_noise_set_3d_request, float_to_int_zero, float_to_int_half]
    simp [NoiseSetRequest.start, new_offset, int_to_float_zero, float_add_zero_zero]
  have h2 : (last_request
        (get_noise_set_3d sample_library new 16777217 0 0 1 1 1 0).2._noise).map
        NoiseSetRequest.start = some ⟨16777216, 0, 0⟩ := by
    rw [get_noise_set_3d_request]
    simp [NoiseSetRequest.start, new_offset, int_to_float_zero, float_add_zero_zero,
      int_to_float_16777217, float_add_16777216_zero]
  refine ⟨h, ?_, h2, ?_⟩
  · rw [h, new_offset]
    intro hc
    have hz := congrArg Vector3.z (Option.some.inj hc)
    norm_num at hz
  · rw [h2, new_offset]
    intro hc
    have hx := congrArg Vector3.x (Option.some.inj hc)
    norm_num at hx

/-- C3, amended: for every state, with stored offset `(ox, oy, oz)`, the start coordinate
handed to the library is, on each axis, a `float` sum (`float_add`: the exact sum rounded to
a `float`) of a coordinate and the offset component:
* for `get_noise_3d/3dv/2d/2dv/1d`: the queried coordinate plus the offset on all three axes,
  an axis the function does not take being queried at 0;
* for `get_noise_set_3d` and `fill_noise_set_3d`: the integer origin, converted to `float`,
  plus the offset;
* for `get_noise_set_1d/2d/2dv/3dv` and `fill_noise_set_3dv`: the queried coordinate
  converted to `int` (truncated) and back to `float`, plus the offset, an axis not taken
  being 0 plus its offset component;
* for `_b_get_noise_set_3dv`: the queried vector plus the offset on all three axes; for
  `_b_get_noise_set_2dv` on its two axes x and z; for `_b_get_noise_set_1d` on its axis z. -/
theorem C3_start_is_coordinate_plus_offset (lib : NoiseLibrary) (s : State) :
    (∀ p_x p_y p_z : float,
      (last_request (get_noise_3d lib s p_x p_y p_z).2._noise).map NoiseSetRequest.start
        = some ⟨float_add p_x s._offset.x, float_add p_y s._offset.y,
            float_add p_z s._offset.z⟩) ∧
    (∀ p_v : Vector3,
      (last_request (get_noise_3dv lib s p_v).2._noise).map NoiseSetRequest.start
        = some ⟨float_add p_v.x s._offset.x, float_add p_v.y s._offset.y,
            float_add p_v.z s._offset.z⟩) ∧
    (∀ p_x p_z : float,
      (last_request (get_noise_2d lib s p_x p_z).2._noise).map NoiseSetRequest.start
        = some ⟨float_add p_x s._offset.x, float_add 0 s._offset.y,
            float_add p_z s._offset.z⟩) ∧
    (∀ p_v : Vector2,
      (last_request (get_noise_2dv lib s p_v).2._noise).map NoiseSetRequest.start
        = some ⟨float_add p_v.x s._offset.x, float_add 0 s._offset.y,
            float_add p_v.y s._offset.z⟩) ∧
    (∀ p_z : float,
      (last_request (get_noise_1d lib s p_z).2._noise).map NoiseSetRequest.start
        = some ⟨float_add 0 s._offset.x, float_add 0 s._offset.y,
            float_add p_z s._offset.z⟩) ∧
    (∀ (p_x p_y p_z p_sizex p_sizey p_sizez : Int) (p_scale : float),
      (last_request
          (get_noise_set_3d lib s p_x p_y p_z p_sizex p_sizey p_sizez p_scale).2._noise).map
          NoiseSetRequest.start
        = some ⟨float_add (int_to_float p_x) s._offset.x,
            float_add (int_to_float p_y) s._offset.y,
            float_add (int_to_float p_z) s._offset.z⟩) ∧
    (∀ (p_set : Nat) (p_x p_y p_z p_sizex p_sizey p_sizez : Int) (p_scale : float),
      (last_request
          (fill_noise_set_3d s p_set p_x p_y p_z p_sizex p_sizey p_sizez p_scale)._noise).map
          NoiseSetRequest.start
        = some ⟨float_add (int_to_float p_x) s._offset.x,
            float_add (int_to_float p_y) s._offset.y,
            float_add (int_to_float p_z) s._offset.z⟩) ∧
    (∀ (p_v p_size : Vector3) (p_scale : float),
      (last_request (get_noise_set_3dv lib s p_v p_size p_scale).2._noise).map
          NoiseSetRequest.start
        = some ⟨float_add (int_to_float (float_to_int p_v.x)) s._offset.x,
            float_add (int_to_float (float_to_int p_v.y)) s._offset.y,
            float_add (int_to_float (float_to_int p_v.z)) s._offset.z⟩) ∧
    (∀ (p_set : Nat) (p_v p_size : Vector3) (p_scale : float),
      (last_request (fill_noise_set_3dv s p_set p_v p_size p_scale)._noise).map
          NoiseSetRequest.start
        = some ⟨float_add (int_to_float (float_to_int p_v.x)) s._offset.x,
            float_add (int_to_float (float_to_int p_v.y)) s._offset.y,
            float_add (int_to_float (float_to_int p_v.z)) s._offset.z⟩) ∧
    (∀ (p_x p_z : float) (p_sizex p_sizez : Int) (p_scale : float),
      (last_request (get_noise_set_2d lib s p_x p_z p_sizex p_sizez p_scale).2._noise).map
          NoiseSetRequest.start
        = some ⟨float_add (int_to_float (float_to_int p_x)) s._offset.x,
            float_add 0 s._offset.y,
            float_add (int_to_float (float_to_int p_z)) s._offset.z⟩) ∧
    (∀ (p_v p_size : Vector2) (p_scale : float),
      (last_request (get_noise_set_2dv lib s p_v p_size p_scale).2._noise).map
          NoiseSetRequest.start
        = some ⟨float_add (int_to_float (float_to_int p_v.x)) s._offset.x,
            float_add 0 s._offset.y,
            float_add (int_to_float (float_to_int p_v.y)) s._offset.z⟩) ∧
    (∀ (p_z : float) (p_sizez : Int) (p_scale : float),
      (last_request (get_noise_set_1d lib s p_z p_sizez p_scale).2._noise).map
          NoiseSetRequest.start
        = some ⟨float_add 0 s._offset.x, float_add 0 s._offset.y,
            float_add (int_to_float (float_to_int p_z)) s._offset.z⟩) ∧
    (∀ (p_v p_size : Vector3) (p_scale : float),
      (last_request (_b_get_noise_set_3dv lib s p_v p_size p_scale).2._noise).map
          NoiseSetRequest.start
        = some ⟨float_add p_v.x s._offset.x, float_add p_v.y s._offset.y,
            float_add p_v.z s._offset.z⟩) ∧
    (∀ (p_v p_size : Vector2) (p_scale : float),
      ∃ r, last_request (_b_get_noise_set_2dv lib s p_v p_size p_scale).2._noise = some r ∧
        r.xStart = float_add p_v.x s._offset.x ∧ r.zStart = float_add p_v.y s._offset.z) ∧
    (∀ (p_z : float) (p_sizez : Int) (p_scale : float),
      ∃ r, last_request (_b_get_noise_set_1d lib s p_z p_sizez p_scale).2._noise = some r ∧
        r.zStart = float_add p_z s._offset.z) ∧
    (∀ n : Int, -16777216 ≤ n → n ≤ 16777216 → int_to_float n = n) ∧
    (∀ a b : Int, -16777216 ≤ a + b → a + b ≤ 16777216 →
      float_add (a : float) (b : float) = ((a + b : Int) : float)) := by
  refine ⟨?_, ?_, ?_, ?_, ?_, ?_, ?_, ?_, ?_, ?_, ?_, ?_, ?_, ?_, ?_,
    int_to_float_of_small, float_add_intCast⟩
  · intro p_x p_y p_z
    rw [get_noise_3d_request]; rfl
  · intro p_v
    unfold get_noise_3dv
    rw [get_noise_3d_request]; rfl
  · intro p_x p_z
    unfold get_noise_2d
    rw [get_noise_3d_request, float_zero]; rfl
  · intro p_v
    unfold get_noise_2dv
    rw [get_noise_3d_request, float_zero]; rfl
  · intro p_z
    unfold get_noise_1d
    rw [get_noise_3d_request, float_zero]; rfl
  · intro p_x p_y p_z p_sizex p_sizey p_sizez p_scale
    rw [get_noise_set_3d_request]; rfl
  · intro p_set p_x p_y p_z p_sizex p_sizey p_sizez p_scale
    rw [fill_noise_set_3d_request]; rfl
  · intro p_v p_size p_scale
    unfold get_noise_set_3dv
    rw [get_noise_set_3d_request]; rfl
  · intro p_set p_v p_size p_scale
    unfold fill_noise_set_3dv
    rw [fill_noise_set_3d_request]; rfl
  · intro p_x p_z p_sizex p_sizez p_scale
    unfold get_noise_set_2d
    rw [get_noise_set_3d_request, float_to_int_zero, int_to_float_zero]
    rfl
  · intro p_v p_size p_scale
    unfold get_noise_set_2dv
    rw [get_noise_set_3d_request, float_to_int_zero, int_to_float_zero]
    rfl
  · intro p_z p_sizez p_scale
    unfold get_noise_set_1d
    rw [get_noise_set_3d_request, float_to_int_zero, int_to_float_zero]
    rfl
  · intro p_v p_size p_scale
    rw [b_get_noise_set_3dv_request]; rfl
  · intro p_v p_size p_scale
    exact ⟨_, b_get_noise_set_2dv_request lib s p_v p_size p_scale, rfl, rfl⟩
  · intro p_z p_sizez p_scale
    exact ⟨_, b_get_noise_set_1d_request lib s p_z p_sizez p_scale, rfl⟩

/-- C3 at the constructor's state: the origin `5` of `get_noise_set_3d` is converted to
`float` exactly, and the sum with the offset component 0 is exact. -/
theorem C3_start_is_coordinate_plus_offset_witness :
    int_to_float 5 = ((5 : Int) : float) ∧
    float_add ((5 : Int) : float) ((0 : Int) : float) = ((5 + 0 : Int) : float) := by
  obtain ⟨_, _, _, _, _, _, _, _, _, _, _, _, _, _, _, h1, h2⟩ :=
    C3_start_is_coordinate_plus_offset sample_library new
  exact ⟨h1 5 (by norm_num) (by norm_num), h2 5 0 (by norm_num) (by norm_num)⟩

/-- The script binding `_b_get_noise_set_1d` hands the library the start `0` on the axes x
and y whatever the stored offset, where `get_noise_set_1d` hands `0 + offset`: with the
offset `(1, 2, 3)` and `z = 0` the two starts are `(0, 0, 3)` and `(1, 2, 3)`. -/
theorem b_get_noise_set_1d_start_without_offset :
    (last_request
        (_b_get_noise_set_1d sample_library (set_offset new ⟨1, 2, 3⟩) 0 1 0).2._noise).map
        NoiseSetRequest.start = some ⟨0, 0, 3⟩ ∧
    (last_request
        (get_noise_set_1d sample_library (set_offset new ⟨1, 2, 3⟩) 0 1 0).2._noise).map
        NoiseSetRequest.start = some ⟨1, 2, 3⟩ := by
  obtain ⟨a1, a2, a3⟩ := float_add_zero_small
  constructor
  · rw [b_get_noise_set_1d_request]
    simp [b_1d_request, NoiseSetRequest.start, set_offset, emit_changed, a3]
  · unfold get_noise_set_1d
    rw [get_noise_set_3d_request, float_to_int_zero]
    have h0 : float_to_int 0 = 0 := by
      simpa using float_to_int_intCast 0 (by norm_num) (by norm_num)
    simp [NoiseSetRequest.start, set_offset, emit_changed, h0, int_to_float_zero, a1, a2, a3]

/-- The script binding `_b_get_noise_set_2dv` hands the library the start `0` on the axis y
whatever the stored offset: with the offset `(1, 2, 3)` and `v = (0, 0)` the start is
`(1, 0, 3)`, where `get_noise_set_2dv` hands `(1, 2, 3)`. -/
theorem b_get_noise_set_2dv_start_without_offset :
    (last_request
        (_b_get_noise_set_2dv sample_library (set_offset new ⟨1, 2, 3⟩) ⟨0, 0⟩ ⟨1, 1⟩ 0).2._noise).map
        NoiseSetRequest.start = some ⟨1, 0, 3⟩ ∧
    (last_request
        (get_noise_set_2dv sample_library (set_offset new ⟨1, 2, 3⟩) ⟨0, 0⟩ ⟨1, 1⟩ 0).2._noise).map
        NoiseSetRequest.start = some ⟨1, 2, 3⟩ := by
  obtain ⟨a1, a2, a3⟩ := float_add_zero_small
  constructor
  · rw [b_get_noise_set_2dv_request]
    simp [b_2dv_request, NoiseSetRequest.start, set_offset, emit_changed, a1, a3]
  · unfold get_noise_set_2dv
    rw [get_noise_set_3d_request, float_to_int_zero]
    have h0 : float_to_int 0 = 0 := by
      simpa using float_to_int_intCast 0 (by norm_num) (by norm_num)
    simp [NoiseSetRequest.start, set_offset, emit_changed, h0, int_to_float_zero, a1, a2, a3]

/-! ### Region and point -/

theorem z_fastest_decode (sy sz i j k : Nat) (hj : j < sy) (hk : k < sz) :
    ((i * sy + j) * sz + k) / (sy * sz) = i ∧
    ((i * sy + j) * sz + k) / sz % sy = j ∧
    ((i * sy + j) * sz + k) % sz = k := by
  have hsz : 0 < sz := by omega
  have hsy : 0 < sy := by omega
  have h1 : ((i * sy + j) * sz + k) / sz = i * sy + j := by
    rw [Nat.add_comm, Nat.add_mul_div_right _ _ hsz, Nat.div_eq_of_lt hk, Nat.zero_add]
  have h2 : (i * sy + j) / sy = i := by
    rw [Nat.add_comm, Nat.add_mul_div_right _ _ hsy, Nat.div_eq_of_lt hj, Nat.zero_add]
  refine ⟨?_, ?_, ?_⟩
  · rw [Nat.mul_comm sy sz, ← Nat.div_div_eq_div_mul, h1, h2]
  · rw [h1, Nat.add_comm, Nat.add_mul_mod_self_right, Nat.mod_eq_of_lt hj]
  · rw [Nat.add_comm, Nat.add_mul_mod_self_right, Nat.mod_eq_of_lt hk]

theorem z_fastest_lt (sx sy sz i j k : Nat) (hi : i < sx) (hj : j < sy) (hk : k < sz) :
    (i * sy + j) * sz + k < sx * sy * sz := by
  have h1 : i * sy + j + 1 ≤ sx * sy := by
    have : (i + 1) * sy ≤ sx * sy := Nat.mul_le_mul_right sy hi
    have e : (i + 1) * sy = i * sy + sy := by ring
    omega
  have h2 : (i * sy + j + 1) * sz ≤ sx * sy * sz := Nat.mul_le_mul_right sz h1
  have e : (i * sy + j + 1) * sz = (i * sy + j) * sz + sz := by ring
  omega

/-- The sample library on a region with integer extents: the sample of cell `(i, j, k)` is
the sample of the one-cell region that starts `(i, j, k)` further, for any start. -/
theorem sample_library_cell (cfg : List LibCall) (x y z scale : float)
    (sx sy sz i j k : Int)
    (hi0 : 0 ≤ i) (hi : i < sx) (hj0 : 0 ≤ j) (hj : j < sy) (hk0 : 0 ≤ k) (hk : k < sz) :
    z_fastest sx sy sz i j k < (sx * sy * sz).toNat ∧
    sample_library.samples cfg ⟨x, y, z, sx, sy, sz, scale⟩ (z_fastest sx sy sz i j k)
      = sample_library.samples cfg ⟨x + i, y + j, z + k, 1.0, 1.0, 1.0, scale⟩ 0 := by
  lift i to ℕ using hi0
  lift j to ℕ using hj0
  lift k to ℕ using hk0
  lift sx to ℕ using (by omega)
  lift sy to ℕ using (by omega)
  lift sz to ℕ using (by omega)
  have hi' : i < sx := by exact_mod_cast hi
  have hj' : j < sy := by exact_mod_cast hj
  have hk' : k < sz := by exact_mod_cast hk
  obtain ⟨d1, d2, d3⟩ := z_fastest_decode sy sz i j k hj' hk'
  have t1 : float_trunc 1 = 1 := by simpa using float_trunc_intCast 1
  constructor
  · have h := z_fastest_lt sx sy sz i j k hi' hj' hk'
    have e : ((sx : Int) * sy * sz).toNat = sx * sy * sz := by
      have : ((sx : Int) * sy * sz) = ((sx * sy * sz : Nat) : Int) := by push_cast; ring
      rw [this, Int.toNat_natCast]
    rw [e]
    simpa [z_fastest] using h
  · simp only [sample_library, z_fastest, Int.toNat_natCast, Int.cast_natCast,
      float_trunc_natCast, float_one, t1]
    rw [d1, d2, d3]
    simp

theorem sample_library_consistent : sample_library.region_point_consistent z_fastest := by
  intro cfg x y z scale sx sy sz i j k _ _ _ _ _ _ hi0 hi hj0 hj hk0 hk
  obtain ⟨h1, h2⟩ := sample_library_cell cfg x y z scale sx sy sz i j k hi0 hi hj0 hj hk0 hk
  refine ⟨h1, ?_⟩
  rw [h2]
  push_cast
  rfl

theorem grid_library_consistent : grid_library.region_point_consistent z_fastest := by
  intro cfg x y z scale sx sy sz i j k hx1 hx2 hy1 hy2 hz1 hz2 hi0 hi hj0 hj hk0 hk
  obtain ⟨h1, h2⟩ := sample_library_cell cfg x y z scale sx sy sz i j k hi0 hi hj0 hj hk0 hk
  refine ⟨h1, ?_⟩
  show sample_library.samples cfg
      ⟨float_to_int (x : float), float_to_int (y : float), float_to_int (z : float),
        sx, sy, sz, scale⟩ (z_fastest sx sy sz i j k)
    = sample_library.samples cfg
      ⟨float_to_int ((x + i : Int) : float), float_to_int ((y + j : Int) : float),
        float_to_int ((z + k : Int) : float), 1.0, 1.0, 1.0, scale⟩ 0
  rw [float_to_int_intCast x (by omega) (by omega), float_to_int_intCast y (by omega) (by omega),
    float_to_int_intCast z (by omega) (by omega),
    float_to_int_intCast (x + i) (by omega) (by omega),
    float_to_int_intCast (y + j) (by omega) (by omega),
    float_to_int_intCast (z + k) (by omega) (by omega), h2]
  push_cast
  rfl

theorem get_noise_3d_value (lib : NoiseLibrary) (s : State) (p_x p_y p_z : float) :
    (get_noise_3d lib s p_x p_y p_z).1
      = lib.samples s._noise.config
          ⟨float_add p_x s._offset.x, float_add p_y s._offset.y, float_add p_z s._offset.z,
            1.0, 1.0, 1.0, lib.default_scaleModifier⟩ 0 := rfl

theorem config_append_get (l : List LibCall) (r : NoiseSetRequest) (p : Nat) :
    _FastNoiseSIMD.config ⟨l ++ [LibCall.GetNoiseSet r p]⟩ = _FastNoiseSIMD.config ⟨l⟩ := by
  simp [_FastNoiseSIMD.config, List.filter_append, LibCall.isSetter]

theorem config_append_get_free (l : List LibCall) (r : NoiseSetRequest) (p q : Nat) :
    _FastNoiseSIMD.config ⟨l ++ [LibCall.GetNoiseSet r p, LibCall.FreeNoiseSet q]⟩
      = _FastNoiseSIMD.config ⟨l⟩ := by
  simp [_FastNoiseSIMD.config, List.filter_append, LibCall.isSetter]

/-- A product of integers of magnitude at most 2^24 is exact. -/
theorem float_mul_intCast (a b : Int) (h1 : -16777216 ≤ a * b) (h2 : a * b ≤ 16777216) :
    float_mul (a : float) (b : float) = ((a * b : Int) : float) := by
  unfold float_mul
  rw [← Int.cast_mul]
  exact float_round_intCast _ h1 h2

theorem float_round_half : float_round (1 / 2) = 1 / 2 ∧ float_round (-1 / 2) = -1 / 2 := by
  have h1 := float_round_dyadic 1 (-1) (by norm_num) (by norm_num)
  have h2 := float_round_dyadic (-1) (-1) (by norm_num) (by norm_num)
  norm_num at h1 h2
  constructor
  · norm_num
    exact h1
  · have e : (-1 / 2 : ℚ) = -(1 / 2) := by norm_num
    rw [e]
    norm_num
    exact h2

/-- C4 fails as stated, in three ways.  After `set_scale(2)` the one-cell region request of
`get_noise_set_3d(0, 0, 0, 1, 1, 1)` carries the scale 2, the request of `get_noise_3d(0, 0, 0)`
carries no scale (the library's default, 1 for the sample library), and the sample of the
one-cell region at `(1, 0, 0)` differs from the point value there.  On the constructor's
state the region of extents `(2, 1, 1)` at the origin `x = 16777216` holds at cell `1` the
sample of `x = 16777217`, while `get_noise_3d` at `origin + 1` receives the `float` nearest to
`16777217`, which is `16777216`.  And with a library that reads its starts as `int`s and the
offset `(1/2, 0, 0)`, the region at the origin `x = -1` starts at `-1/2`, read as 0, so its
cell `1` is the cell `x = 1`, while the point `origin + 1 = 0` is handed over as `1/2`, read
as the cell `x = 0`. -/
theorem C4_counterexample_region_differs_from_point :
    last_request
        (get_noise_set_3d sample_library (set_scale new 2) 0 0 0 1 1 1 default_p_scale).2._noise
      = some ⟨0, 0, 0, 1, 1, 1, 2⟩ ∧
    last_request (get_noise_3d sample_library (set_scale new 2) 0 0 0).2._noise
      = some ⟨0, 0, 0, 1, 1, 1, 1⟩ ∧
    last_request
        (get_noise_set_3d sample_library (set_scale new 2) 0 0 0 1 1 1 default_p_scale).2._noise
      ≠ last_request (get_noise_3d sample_library (set_scale new 2) 0 0 0).2._noise ∧
    (get_noise_set_3d sample_library (set_scale new 2) 1 0 0 1 1 1 default_p_scale).1.data 0
      ≠ (get_noise_3d sample_library (set_scale new 2) 1 0 0).1 ∧
    (get_noise_set_3d sample_library new 16777216 0 0 2 1 1 default_p_scale).1.data
        (z_fastest 2 1 1 1 0 0) = 16777236 ∧
    (get_noise_3d sample_library new (int_to_float (16777216 + 1)) (int_to_float (0 + 0))
        (int_to_float (0 + 0))).1 = 16777235 ∧
    (get_noise_set_3d grid_library (set_offset new ⟨1 / 2, 0, 0⟩) (-1) 0 0 2 1 1
        default_p_scale).1.data (z_fastest 2 1 1 1 0 0) = 20 ∧
    (get_noise_3d grid_library (set_offset new ⟨1 / 2, 0, 0⟩) (int_to_float (-1 + 1))
        (int_to_float (0 + 0)) (int_to_float (0 + 0))).1 = 19 := by
  have ho : (set_scale new 2)._offset = ⟨0, 0, 0⟩ := new_offset
  have hs : (set_scale new 2)._scale = 2 := rfl
  have t1 : float_trunc 1 = 1 := by simpa using float_trunc_intCast 1
  have a01 : float_add 1 0 = 1 := by
    simpa using float_add_intCast 1 0 (by norm_num) (by norm_num)
  have i1 : int_to_float 1 = 1 := by
    simpa using int_to_float_of_small 1 (by norm_num) (by norm_num)
  have h1 : last_request
        (get_noise_set_3d sample_library (set_scale new 2) 0 0 0 1 1 1 default_p_scale).2._noise
      = some ⟨0, 0, 0, 1, 1, 1, 2⟩ := by
    rw [get_noise_set_3d_request, ho, hs]
    simp [default_p_scale, float_zero, int_to_float_zero, float_add_zero_zero]
  have h2 : last_request (get_noise_3d sample_library (set_scale new 2) 0 0 0).2._noise
      = some ⟨0, 0, 0, 1, 1, 1, 1⟩ := by
    rw [get_noise_3d_request, ho]
    simp [sample_library, float_one, float_add_zero_zero]
  have hcfg : new._noise.config.length = 19 := rfl
  have hn : (set_offset new ⟨1 / 2, 0, 0⟩)._noise = new._noise := rfl
  have i0 : int_to_float (0 + 0) = 0 := by
    simpa using int_to_float_zero
  refine ⟨h1, h2, ?_, ?_, ?_, ?_, ?_, ?_⟩
  · rw [h1, h2]
    intro hc
    have hz := congrArg NoiseSetRequest.scaleModifier (Option.some.inj hc)
    norm_num at hz
  · rw [get_noise_set_3d_eq, get_noise_3d_value, ho, hs]
    simp [sample_library, default_p_scale, float_zero, float_one, int_to_float_zero,
      float_add_zero_zero, a01, i1, t1]
  · have i2 : int_to_float 16777216 = 16777216 := by
      simpa using int_to_float_of_small 16777216 (by norm_num) (by norm_num)
    have t2 : float_trunc 1 = 1 := t1
    rw [get_noise_set_3d_eq, new_offset, new_scale]
    simp [sample_library, default_p_scale, float_zero, int_to_float_zero, float_add_zero_zero,
      i2, float_add_16777216_zero, t1, z_fastest, hcfg]
    norm_num
  · have e : int_to_float (16777216 + 1) = 16777216 := by
      have : ((16777216 : Int) + 1) = 16777217 := by norm_num
      rw [this]
      exact int_to_float_16777217
    rw [get_noise_3d_value, e, i0, new_offset]
    simp [sample_library, float_one, float_add_zero_zero, float_add_16777216_zero, t1, hcfg]
    norm_num
  · have hoff : (set_offset new ⟨1 / 2, 0, 0⟩)._offset = ⟨1 / 2, 0, 0⟩ := rfl
    have hsc : (set_offset new ⟨1 / 2, 0, 0⟩)._scale = 1 := new_scale
    have e1 : float_add (int_to_float (-1)) (1 / 2) = -1 / 2 := by
      have : int_to_float (-1) = -1 := by
        simpa using int_to_float_of_small (-1) (by norm_num) (by norm_num)
      rw [this]
      unfold float_add
      have e : (-1 : ℚ) + 1 / 2 = -1 / 2 := by norm_num
      rw [e]
      exact float_round_half.2
    have e2 : float_to_int (-1 / 2) = 0 := by
      have et : float_trunc (-1 / 2) = 0 := by
        unfold float_trunc
        rw [if_neg (by norm_num)]
        rw [Int.ceil_eq_iff]
        constructor <;> norm_num
      rw [float_to_int_of_range _ (by rw [et]; norm_num) (by rw [et]; norm_num), et]
    have e0 : float_to_int 0 = 0 := by
      simpa using float_to_int_intCast 0 (by norm_num) (by norm_num)
    rw [get_noise_set_3d_eq, hoff, hsc, hn]
    simp only [default_p_scale, float_zero, if_true, int_to_float_zero, float_add_zero_zero, e1]
    show sample_library.samples _ ⟨float_to_int (-1 / 2), float_to_int 0, float_to_int 0,
      _, _, _, _⟩ _ = 20
    rw [e2, e0]
    simp [sample_library, t1, z_fastest, hcfg]
    norm_num
  · have hoff : (set_offset new ⟨1 / 2, 0, 0⟩)._offset = ⟨1 / 2, 0, 0⟩ := rfl
    have e : int_to_float (-1 + 1) = 0 := by
      simpa using int_to_float_zero
    have e1 : float_add 0 (1 / 2) = 1 / 2 := by
      unfold float_add
      rw [zero_add]
      exact float_round_half.1
    have e0 : float_to_int 0 = 0 := by
      simpa using float_to_int_intCast 0 (by norm_num) (by norm_num)
    rw [get_noise_3d_value, e, i0, hoff, hn]
    simp only [e1, float_add_zero_zero]
    show sample_library.samples _ ⟨float_to_int (1 / 2), float_to_int 0, float_to_int 0,
      _, _, _, _⟩ _ = 19
    rw [float_to_int_half, e0]
    simp [sample_library, float_one, t1, hcfg, grid_library]

/-- C4, amended: let the stored scale be the library's default scale modifier (as it is after
construction), let the stored offset have integer components `(a, b, c)`, and let the library
be region/point consistent on integer starts for the buffer layout `index`.  Let the integer
origin `(x, y, z)` and the extents `(sx, sy, sz)` be such that the origin, the far end of the
region, and both shifted by the offset have magnitude at most 2^24 (the conversions to
`float` and the `float` sums are then exact).  Then for every cell `(i, j, k)` inside the
extents, the element at the cell's position of the region returned by `get_noise_set_3d` with
the scale argument left at its default is the value `get_noise_3d` returns at
`origin + (i, j, k)`, called in the same state or right after the region call; the same holds
of the array returned by `_b_get_noise_set_3dv` when the region has at most 2^24 elements
(the count of the copy, a `float` product, is then exact).  And, with nothing assumed on the
offset or the origin, the one-cell region `get_noise_set_3d(x, y, z, 1, 1, 1)` issues the same
library request as `get_noise_3d(x, y, z)`. -/
theorem C4_region_matches_point (lib : NoiseLibrary)
    (index : Int → Int → Int → Int → Int → Int → Nat)
    (hlib : lib.region_point_consistent index)
    (s : State) (hscale : s._scale = lib.default_scaleModifier) :
    (∀ (a b c : Int), s._offset = ⟨a, b, c⟩ →
      ∀ (x y z sx sy sz i j k : Int),
      0 ≤ i → i < sx → 0 ≤ j → j < sy → 0 ≤ k → k < sz →
      -16777216 ≤ x → x + sx ≤ 16777216 → -16777216 ≤ x + a → x + sx + a ≤ 16777216 →
      -16777216 ≤ y → y + sy ≤ 16777216 → -16777216 ≤ y + b → y + sy + b ≤ 16777216 →
      -16777216 ≤ z → z + sz ≤ 16777216 → -16777216 ≤ z + c → z + sz + c ≤ 16777216 →
      (get_noise_set_3d lib s x y z sx sy sz default_p_scale).1.data (index sx sy sz i j k)
        = (get_noise_3d lib s (int_to_float (x + i)) (int_to_float (y + j))
            (int_to_float (z + k))).1 ∧
      (get_noise_set_3d lib s x y z sx sy sz default_p_scale).1.data (index sx sy sz i j k)
        = (get_noise_3d lib (get_noise_set_3d lib s x y z sx sy sz default_p_scale).2
            (int_to_float (x + i)) (int_to_float (y + j)) (int_to_float (z + k))).1 ∧
      (sx * sy * sz ≤ 16777216 →
        ∃ pv : List float,
          (_b_get_noise_set_3dv lib s ⟨x, y, z⟩ ⟨sx, sy, sz⟩ default_p_scale).1 = some pv ∧
          pv[index sx sy sz i j k]?
            = some (get_noise_3d lib s (int_to_float (x + i)) (int_to_float (y + j))
                (int_to_float (z + k))).1)) ∧
    (∀ x y z : Int,
      last_request (get_noise_set_3d lib s x y z 1 1 1 default_p_scale).2._noise
        = last_request (get_noise_3d lib s (int_to_float x) (int_to_float y)
            (int_to_float z)).2._noise) := by
  constructor
  · intro a b c hoff x y z sx sy sz i j k hi0 hi hj0 hj hk0 hk
      hx1 hx2 hx3 hx4 hy1 hy2 hy3 hy4 hz1 hz2 hz3 hz4
    obtain ⟨hlt, hval⟩ := hlib s._noise.config (x + a) (y + b) (z + c) s._scale
      sx sy sz i j k (by omega) (by omega) (by omega) (by omega) (by omega) (by omega)
      hi0 hi hj0 hj hk0 hk
    -- the starts of the region request
    have rx : float_add (int_to_float x) s._offset.x = ((x + a : Int) : float) := by
      rw [hoff, int_to_float_of_small x (by omega) (by omega)]
      exact float_add_intCast x a (by omega) (by omega)
    have ry : float_add (int_to_float y) s._offset.y = ((y + b : Int) : float) := by
      rw [hoff, int_to_float_of_small y (by omega) (by omega)]
      exact float_add_intCast y b (by omega) (by omega)
    have rz : float_add (int_to_float z) s._offset.z = ((z + c : Int) : float) := by
      rw [hoff, int_to_float_of_small z (by omega) (by omega)]
      exact float_add_intCast z c (by omega) (by omega)
    -- the starts of the point request
    have px : float_add (int_to_float (x + i)) s._offset.x = ((x + a + i : Int) : float) := by
      rw [hoff, int_to_float_of_small (x + i) (by omega) (by omega)]
      have e := float_add_intCast (x + i) a (by omega) (by omega)
      have e2 : x + i + a = x + a + i := by ring
      rw [e2] at e
      exact e
    have py : float_add (int_to_float (y + j)) s._offset.y = ((y + b + j : Int) : float) := by
      rw [hoff, int_to_float_of_small (y + j) (by omega) (by omega)]
      have e := float_add_intCast (y + j) b (by omega) (by omega)
      have e2 : y + j + b = y + b + j := by ring
      rw [e2] at e
      exact e
    have pz : float_add (int_to_float (z + k)) s._offset.z = ((z + c + k : Int) : float) := by
      rw [hoff, int_to_float_of_small (z + k) (by omega) (by omega)]
      have e := float_add_intCast (z + k) c (by omega) (by omega)
      have e2 : z + k + c = z + c + k := by ring
      rw [e2] at e
      exact e
    have hpoint : (get_noise_3d lib s (int_to_float (x + i)) (int_to_float (y + j))
        (int_to_float (z + k))).1
        = lib.samples s._noise.config
            ⟨((x + a + i : Int) : float), ((y + b + j : Int) : float),
              ((z + c + k : Int) : float), 1.0, 1.0, 1.0, s._scale⟩ 0 := by
      rw [get_noise_3d_value, hscale, px, py, pz]
    have hregion : (get_noise_set_3d lib s x y z sx sy sz default_p_scale).1.data
        = lib.samples s._noise.config
            ⟨((x + a : Int) : float), ((y + b : Int) : float), ((z + c : Int) : float),
              sx, sy, sz, s._scale⟩ := by
      rw [get_noise_set_3d_eq, rx, ry, rz]
      simp [default_p_scale, float_zero]
    refine ⟨?_, ?_, ?_⟩
    · rw [hregion, hval, hpoint]
    · rw [hregion, hval, get_noise_3d_value, get_noise_set_3d_eq]
      simp only [config_append_get]
      rw [← hscale, px, py, pz]
    · intro hcount
      have hsx : 1 ≤ sx := by omega
      have hsy : 1 ≤ sy := by omega
      have hsz : 1 ≤ sz := by omega
      have hxy0 : 1 ≤ sx * sy := by nlinarith
      have hxy : sx * sy ≤ sx * sy * sz := by nlinarith
      have hsize : float_to_int (float_mul (float_mul (sx : float) sy) sz) = sx * sy * sz := by
        rw [float_mul_intCast sx sy (by omega) (by omega),
          float_mul_intCast (sx * sy) sz (by nlinarith) hcount]
        exact float_to_int_intCast _ (by nlinarith) (by omega)
      have hpos : ¬ (sx * sy * sz < 0) := by nlinarith
      have bx : float_add (x : float) s._offset.x = ((x + a : Int) : float) := by
        rw [hoff]
        exact float_add_intCast x a (by omega) (by omega)
      have by' : float_add (y : float) s._offset.y = ((y + b : Int) : float) := by
        rw [hoff]
        exact float_add_intCast y b (by omega) (by omega)
      have bz : float_add (z : float) s._offset.z = ((z + c : Int) : float) := by
        rw [hoff]
        exact float_add_intCast z c (by omega) (by omega)
      rw [b_get_noise_set_3dv_eq]
      simp only [hsize, hpos, if_false]
      refine ⟨_, rfl, ?_⟩
      rw [List.getElem?_map, List.getElem?_range hlt, hpoint]
      simp only [Option.map_some', b_3dv_request, default_p_scale, float_zero, if_true,
        bx, by', bz]
      rw [hval]
  · intro x y z
    rw [get_noise_set_3d_request, get_noise_3d_request, ← hscale]
    simp [default_p_scale, float_zero, float_one]

/-- C4 at the sample library and the constructor's state (offset zero): the region of extents
`(4, 1, 4)` at the origin `(0, 0, 0)` holds at the position of cell `(3, 0, 2)` the value of
the point `(3, 0, 2)`. -/
theorem C4_region_matches_point_witness :
    (get_noise_set_3d sample_library new 0 0 0 4 1 4 default_p_scale).1.data
        (z_fastest 4 1 4 3 0 2)
      = (get_noise_3d sample_library new (int_to_float (0 + 3)) (int_to_float (0 + 0))
          (int_to_float (0 + 2))).1 :=
  ((C4_region_matches_point sample_library z_fastest sample_library_consistent new
      new_scale).1 0 0 0 (by rw [new_offset]; norm_num)
    0 0 0 4 1 4 3 0 2 (by decide) (by decide) (by decide) (by decide) (by decide)
    (by decide) (by decide) (by decide) (by decide) (by decide) (by decide) (by decide)
    (by decide) (by decide) (by decide) (by decide) (by decide) (by decide)).1

/-! ### The scale argument -/

/-- The scale every bulk entry point hands to the library. -/
theorem bulk_scale (lib : NoiseLibrary) (s : State) (p_scale : float) :
    (∀ p_x p_y p_z p_sizex p_sizey p_sizez : Int,
      (last_request
          (get_noise_set_3d lib s p_x p_y p_z p_sizex p_sizey p_sizez p_scale).2._noise).map
          NoiseSetRequest.scaleModifier
        = some (if p_scale = 0 then s._scale else p_scale)) ∧
    (∀ (p_z : float) (p_sizez : Int),
      (last_request (get_noise_set_1d lib s p_z p_sizez p_scale).2._noise).map
          NoiseSetRequest.scaleModifier
        = some (if p_scale = 0 then s._scale else p_scale)) ∧
    (∀ (p_x p_z : float) (p_sizex p_sizez : Int),
      (last_request (get_noise_set_2d lib s p_x p_z p_sizex p_sizez p_scale).2._noise).map
          NoiseSetRequest.scaleModifier
        = some (if p_scale = 0 then s._scale else p_scale)) ∧
    (∀ p_v p_size : Vector2,
      (last_request (get_noise_set_2dv lib s p_v p_size p_scale).2._noise).map
          NoiseSetRequest.scaleModifier
        = some (if p_scale = 0 then s._scale else p_scale)) ∧
    (∀ p_v p_size : Vector3,
      (last_request (get_noise_set_3dv lib s p_v p_size p_scale).2._noise).map
          NoiseSetRequest.scaleModifier
        = some (if p_scale = 0 then s._scale else p_scale)) ∧
    (∀ (p_set : Nat) (p_x p_y p_z p_sizex p_sizey p_sizez : Int),
      (last_request
          (fill_noise_set_3d s p_set p_x p_y p_z p_sizex p_sizey p_sizez p_scale)._noise).map
          NoiseSetRequest.scaleModifier
        = some (if p_scale = 0 then s._scale else p_scale)) ∧
    (∀ (p_set : Nat) (p_v p_size : Vector3),
      (last_request (fill_noise_set_3dv s p_set p_v p_size p_scale)._noise).map
          NoiseSetRequest.scaleModifier
        = some (if p_scale = 0 then s._scale else p_scale)) ∧
    (∀ (p_z : float) (p_sizez : Int),
      (last_request (_b_get_noise_set_1d lib s p_z p_sizez p_scale).2._noise).map
          NoiseSetRequest.scaleModifier
        = some (if p_scale = 0 then s._scale else p_scale)) ∧
    (∀ p_v p_size : Vector2,
      (last_request (_b_get_noise_set_2dv lib s p_v p_size p_scale).2._noise).map
          NoiseSetRequest.scaleModifier
        = some (if p_scale = 0 then s._scale else p_scale)) ∧
    (∀ p_v p_size : Vector3,
      (last_request (_b_get_noise_set_3dv lib s p_v p_size p_scale).2._noise).map
          NoiseSetRequest.scaleModifier
        = some (if p_scale = 0 then s._scale else p_scale)) := by
  refine ⟨?_, ?_, ?_, ?_, ?_, ?_, ?_, ?_, ?_, ?_⟩
  · intro p_x p_y p_z p_sizex p_sizey p_sizez
    rw [get_noise_set_3d_request]; rfl
  · intro p_z p_sizez
    unfold get_noise_set_1d
    rw [get_noise_set_3d_request]; rfl
  · intro p_x p_z p_sizex p_sizez
    unfold get_noise_set_2d
    rw [get_noise_set_3d_request]; rfl
  · intro p_v p_size
    unfold get_noise_set_2dv
    rw [get_noise_set_3d_request]; rfl
  · intro p_v p_size
    unfold get_noise_set_3dv
    rw [get_noise_set_3d_request]; rfl
  · intro p_set p_x p_y p_z p_sizex p_sizey p_sizez
    rw [fill_noise_set_3d_request]; rfl
  · intro p_set p_v p_size
    unfold fill_noise_set_3dv
    rw [fill_noise_set_3d_request]; rfl
  · intro p_z p_sizez
    rw [b_get_noise_set_1d_request]; rfl
  · intro p_v p_size
    rw [b_get_noise_set_2dv_request]; rfl
  · intro p_v p_size
    rw [b_get_noise_set_3dv_request]; rfl

/-- C5: every bulk entry point that takes a scale argument (`get_noise_set_3d` and its
wrappers `get_noise_set_1d/2d/2dv/3dv`, `fill_noise_set_3d/3dv`,
`_b_get_noise_set_1d/_2dv/_3dv`) hands the library the stored scale when `p_scale` equals 0
and `p_scale` itself otherwise, in every state; the stored scale is the last value given to
`set_scale`. -/
theorem C5_scale_argument (lib : NoiseLibrary) (s : State) (p_scale : float) :
    (∀ p_x p_y p_z p_sizex p_sizey p_sizez : Int,
      (last_request
          (get_noise_set_3d lib s p_x p_y p_z p_sizex p_sizey p_sizez p_scale).2._noise).map
          NoiseSetRequest.scaleModifier
        = some (if p_scale = 0 then s._scale else p_scale)) ∧
    (∀ (p_z : float) (p_sizez : Int),
      (last_request (get_noise_set_1d lib s p_z p_sizez p_scale).2._noise).map
          NoiseSetRequest.scaleModifier
        = some (if p_scale = 0 then s._scale else p_scale)) ∧
    (∀ (p_x p_z : float) (p_sizex p_sizez : Int),
      (last_request (get_noise_set_2d lib s p_x p_z p_sizex p_sizez p_scale).2._noise).map
          NoiseSetRequest.scaleModifier
        = some (if p_scale = 0 then s._scale else p_scale)) ∧
    (∀ p_v p_size : Vector2,
      (last_request (get_noise_set_2dv lib s p_v p_size p_scale).2._noise).map
          NoiseSetRequest.scaleModifier
        = some (if p_scale = 0 then s._scale else p_scale)) ∧
    (∀ p_v p_size : Vector3,
      (last_request (get_noise_set_3dv lib s p_v p_size p_scale).2._noise).map
          NoiseSetRequest.scaleModifier
        = some (if p_scale = 0 then s._scale else p_scale)) ∧
    (∀ (p_set : Nat) (p_x p_y p_z p_sizex p_sizey p_sizez : Int),
      (last_request
          (fill_noise_set_3d s p_set p_x p_y p_z p_sizex p_sizey p_sizez p_scale)._noise).map
          NoiseSetRequest.scaleModifier
        = some (if p_scale = 0 then s._scale else p_scale)) ∧
    (∀ (p_set : Nat) (p_v p_size : Vector3),
      (last_request (fill_noise_set_3dv s p_set p_v p_size p_scale)._noise).map
          NoiseSetRequest.scaleModifier
        = some (if p_scale = 0 then s._scale else p_scale)) ∧
    (∀ (p_z : float) (p_sizez : Int),
      (last_request (_b_get_noise_set_1d lib s p_z p_sizez p_scale).2._noise).map
          NoiseSetRequest.scaleModifier
        = some (if p_scale = 0 then s._scale else p_scale)) ∧
    (∀ p_v p_size : Vector2,
      (last_request (_b_get_noise_set_2dv lib s p_v p_size p_scale).2._noise).map
          NoiseSetRequest.scaleModifier
        = some (if p_scale = 0 then s._scale else p_scale)) ∧
    (∀ p_v p_size : Vector3,
      (last_request (_b_get_noise_set_3dv lib s p_v p_size p_scale).2._noise).map
          NoiseSetRequest.scaleModifier
        = some (if p_scale = 0 then s._scale else p_scale)) ∧
    (∀ v : float, (set_scale s v)._scale = v) :=
  ⟨(bulk_scale lib s p_scale).1, (bulk_scale lib s p_scale).2.1,
   (bulk_scale lib s p_scale).2.2.1, (bulk_scale lib s p_scale).2.2.2.1,
   (bulk_scale lib s p_scale).2.2.2.2.1, (bulk_scale lib s p_scale).2.2.2.2.2.1,
   (bulk_scale lib s p_scale).2.2.2.2.2.2.1, (bulk_scale lib s p_scale).2.2.2.2.2.2.2.1,
   (bulk_scale lib s p_scale).2.2.2.2.2.2.2.2.1, (bulk_scale lib s p_scale).2.2.2.2.2.2.2.2.2,
   fun _ => rfl⟩

/-- C6 fails as stated: after `set_scale(0)` a bulk request with the scale argument 0 hands
the library the scale 0, not 1. -/
theorem C6_counterexample_stored_zero :
    (last_request
        (get_noise_set_3d sample_library (set_scale new 0) 0 0 0 1 1 1 0).2._noise).map
        NoiseSetRequest.scaleModifier = some 0 ∧
    (last_request
        (get_noise_set_3d sample_library (set_scale new 0) 0 0 0 1 1 1 0).2._noise).map
        NoiseSetRequest.scaleModifier ≠ some 1 := by
  have h := (bulk_scale sample_library (set_scale new 0) 0).1 0 0 0 1 1 1
  have hs : (set_scale new 0)._scale = 0 := rfl
  rw [hs] at h
  simp only [if_true] at h
  refine ⟨h, ?_⟩
  rw [h]
  intro hc
  have := Option.some.inj hc
  norm_num at this

/-- C6, amended: a scale argument of 0 stands for the stored scale, whatever that is.  In a
state whose stored scale is 1 (the constructor sets it to 1.0) every bulk entry point called
with the scale argument 0 hands the scale 1 to the library. -/
theorem C6_zero_means_stored_scale (lib : NoiseLibrary) (s : State) (h : s._scale = 1) :
    (∀ p_x p_y p_z p_sizex p_sizey p_sizez : Int,
      (last_request
          (get_noise_set_3d lib s p_x p_y p_z p_sizex p_sizey p_sizez 0).2._noise).map
          NoiseSetRequest.scaleModifier = some 1) ∧
    (∀ (p_z : float) (p_sizez : Int),
      (last_request (get_noise_set_1d lib s p_z p_sizez 0).2._noise).map
          NoiseSetRequest.scaleModifier = some 1) ∧
    (∀ (p_x p_z : float) (p_sizex p_sizez : Int),
      (last_request (get_noise_set_2d lib s p_x p_z p_sizex p_sizez 0).2._noise).map
          NoiseSetRequest.scaleModifier = some 1) ∧
    (∀ p_v p_size : Vector2,
      (last_request (get_noise_set_2dv lib s p_v p_size 0).2._noise).map
          NoiseSetRequest.scaleModifier = some 1) ∧
    (∀ p_v p_size : Vector3,
      (last_request (get_noise_set_3dv lib s p_v p_size 0).2._noise).map
          NoiseSetRequest.scaleModifier = some 1) ∧
    (∀ (p_set : Nat) (p_x p_y p_z p_sizex p_sizey p_sizez : Int),
      (last_request
          (fill_noise_set_3d s p_set p_x p_y p_z p_sizex p_sizey p_sizez 0)._noise).map
          NoiseSetRequest.scaleModifier = some 1) ∧
    (∀ (p_set : Nat) (p_v p_size : Vector3),
      (last_request (fill_noise_set_3dv s p_set p_v p_size 0)._noise).map
          NoiseSetRequest.scaleModifier = some 1) ∧
    (∀ (p_z : float) (p_sizez : Int),
      (last_request (_b_get_noise_set_1d lib s p_z p_sizez 0).2._noise).map
          NoiseSetRequest.scaleModifier = some 1) ∧
    (∀ p_v p_size : Vector2,
      (last_request (_b_get_noise_set_2dv lib s p_v p_size 0).2._noise).map
          NoiseSetRequest.scaleModifier = some 1) ∧
    (∀ p_v p_size : Vector3,
      (last_request (_b_get_noise_set_3dv lib s p_v p_size 0).2._noise).map
          NoiseSetRequest.scaleModifier = some 1) := by
  have hb := bulk_scale lib s 0
  simp only [if_true, h] at hb
  exact hb

/-- C6 at the constructor's state, whose stored scale is 1: `get_noise_set_3d` with the scale
argument 0 hands the scale 1 to the library. -/
theorem C6_zero_means_stored_scale_witness :
    new._scale = 1 ∧
    (last_request (get_noise_set_3d sample_library new 0 0 0 4 1 4 0).2._noise).map
        NoiseSetRequest.scaleModifier = some 1 :=
  ⟨new_scale, (C6_zero_means_stored_scale sample_library new new_scale).1 0 0 0 4 1 4⟩

/-! ### Extents are not validated -/

theorem new_fresh : new._noise.fresh = 1 := rfl

theorem get_empty_set_eq (s : State) (p_size : Int) :
    get_empty_set s p_size
      = (s._noise.fresh,
         { s with
           _noise := ⟨s._noise.calls ++ [LibCall.GetEmptySet p_size s._noise.fresh]⟩
           _allocated_sets := s._allocated_sets ++ [s._noise.fresh] }) := by
  simp [get_empty_set, _FastNoiseSIMD.GetEmptySet, _FastNoiseSIMD.call]

/-- C7 fails as stated: on the constructor's state `get_noise_set_3d(0, 0, 0, 0, 1, 1)` and
`get_noise_set_3d(0, 0, 0, -1, 1, 1)` report no error; each asks the library for a buffer with
these extents and adds the buffer to the tracked list, so the state is not left unchanged. -/
theorem C7_counterexample_no_validation :
    last_request (get_noise_set_3d sample_library new 0 0 0 0 1 1 0).2._noise
      = some ⟨0, 0, 0, 0, 1, 1, 1⟩ ∧
    (get_noise_set_3d sample_library new 0 0 0 0 1 1 0).2._allocated_sets = [1] ∧
    (get_noise_set_3d sample_library new 0 0 0 0 1 1 0).2._allocated_sets
      ≠ new._allocated_sets ∧
    last_request (get_noise_set_3d sample_library new 0 0 0 (-1) 1 1 0).2._noise
      = some ⟨0, 0, 0, -1, 1, 1, 1⟩ ∧
    (get_noise_set_3d sample_library new 0 0 0 (-1) 1 1 0).2._allocated_sets = [1] ∧
    (get_noise_set_3d sample_library new 0 0 0 (-1) 1 1 0).2._allocated_sets
      ≠ new._allocated_sets := by
  have h1 : last_request (get_noise_set_3d sample_library new 0 0 0 0 1 1 0).2._noise
      = some ⟨0, 0, 0, 0, 1, 1, 1⟩ := by
    rw [get_noise_set_3d_request, new_offset, new_scale]
    simp [int_to_float_zero, float_add_zero_zero]
  have h2 : last_request (get_noise_set_3d sample_library new 0 0 0 (-1) 1 1 0).2._noise
      = some ⟨0, 0, 0, -1, 1, 1, 1⟩ := by
    rw [get_noise_set_3d_request, new_offset, new_scale]
    simp [int_to_float_zero, float_add_zero_zero]
  have a1 : (get_noise_set_3d sample_library new 0 0 0 0 1 1 0).2._allocated_sets = [1] := by
    rw [get_noise_set_3d_eq, new_fresh]
    rfl
  have a2 : (get_noise_set_3d sample_library new 0 0 0 (-1) 1 1 0).2._allocated_sets = [1] := by
    rw [get_noise_set_3d_eq, new_fresh]
    rfl
  refine ⟨h1, a1, ?_, h2, a2, ?_⟩
  · rw [a1, new_allocated_sets]; decide
  · rw [a2, new_allocated_sets]; decide

/-- C7, amended: no region request is validated and none reports an error.  Whatever the
extents (zero and negative ones included), `get_noise_set_3d` and its wrappers
`get_noise_set_1d/2d/2dv/3dv` make exactly one `GetNoiseSet` call with the extents they were
given (a `float` extent truncated to an integer) and append the buffer it returns to the
tracked list; `get_empty_set` and `get_empty_set_3dv` make exactly one `GetEmptySet` call with
the size they were given (the `float` product of the components converted to `int`) and
track the buffer; `_b_get_noise_set_1d/_2dv/_3dv` make their `GetNoiseSet` call with the extents
they were given before any size is looked at, and leave the tracked list as it was. -/
theorem C7_extents_not_validated (lib : NoiseLibrary) (s : State) :
    (∀ (p_x p_y p_z p_sizex p_sizey p_sizez : Int) (p_scale : float),
      ∃ r, (get_noise_set_3d lib s p_x p_y p_z p_sizex p_sizey p_sizez p_scale).2._noise.calls
          = s._noise.calls ++ [LibCall.GetNoiseSet r s._noise.fresh] ∧
        r.sizes = ⟨p_sizex, p_sizey, p_sizez⟩ ∧
        (get_noise_set_3d lib s p_x p_y p_z p_sizex p_sizey p_sizez p_scale).1.ptr
          = s._noise.fresh ∧
        (get_noise_set_3d lib s p_x p_y p_z p_sizex p_sizey p_sizez p_scale).2._allocated_sets
          = s._allocated_sets ++ [s._noise.fresh]) ∧
    (∀ (p_z : float) (p_sizez : Int) (p_scale : float),
      ∃ r, (get_noise_set_1d lib s p_z p_sizez p_scale).2._noise.calls
          = s._noise.calls ++ [LibCall.GetNoiseSet r s._noise.fresh] ∧
        r.sizes = ⟨1, 1, p_sizez⟩ ∧
        (get_noise_set_1d lib s p_z p_sizez p_scale).2._allocated_sets
          = s._allocated_sets ++ [s._noise.fresh]) ∧
    (∀ (p_x p_z : float) (p_sizex p_sizez : Int) (p_scale : float),
      ∃ r, (get_noise_set_2d lib s p_x p_z p_sizex p_sizez p_scale).2._noise.calls
          = s._noise.calls ++ [LibCall.GetNoiseSet r s._noise.fresh] ∧
        r.sizes = ⟨p_sizex, 1, p_sizez⟩ ∧
        (get_noise_set_2d lib s p_x p_z p_sizex p_sizez p_scale).2._allocated_sets
          = s._allocated_sets ++ [s._noise.fresh]) ∧
    (∀ (p_v p_size : Vector2) (p_scale : float),
      ∃ r, (get_noise_set_2dv lib s p_v p_size p_scale).2._noise.calls
          = s._noise.calls ++ [LibCall.GetNoiseSet r s._noise.fresh] ∧
        r.sizes = ⟨float_to_int p_size.x, 1, float_to_int p_size.y⟩ ∧
        (get_noise_set_2dv lib s p_v p_size p_scale).2._allocated_sets
          = s._allocated_sets ++ [s._noise.fresh]) ∧
    (∀ (p_v p_size : Vector3) (p_scale : float),
      ∃ r, (get_noise_set_3dv lib s p_v p_size p_scale).2._noise.calls
          = s._noise.calls ++ [LibCall.GetNoiseSet r s._noise.fresh] ∧
        r.sizes = ⟨float_to_int p_size.x, float_to_int p_size.y, float_to_int p_size.z⟩ ∧
        (get_noise_set_3dv lib s p_v p_size p_scale).2._allocated_sets
          = s._allocated_sets ++ [s._noise.fresh]) ∧
    (∀ p_size : Int,
      (get_empty_set s p_size).2._noise.calls
          = s._noise.calls ++ [LibCall.GetEmptySet p_size s._noise.fresh] ∧
        (get_empty_set s p_size).2._allocated_sets
          = s._allocated_sets ++ [s._noise.fresh]) ∧
    (∀ p_size : Vector3,
      (get_empty_set_3dv s p_size).2._noise.calls
          = s._noise.calls ++
            [LibCall.GetEmptySet
              (float_to_int (float_mul (float_mul p_size.x p_size.y) p_size.z))
              s._noise.fresh] ∧
        (get_empty_set_3dv s p_size).2._allocated_sets
          = s._allocated_sets ++ [s._noise.fresh]) ∧
    (∀ (p_z : float) (p_sizez : Int) (p_scale : float),
      ∃ r rest, (_b_get_noise_set_1d lib s p_z p_sizez p_scale).2._noise.calls
          = s._noise.calls ++ LibCall.GetNoiseSet r s._noise.fresh :: rest ∧
        r.sizes = ⟨1, 1, p_sizez⟩ ∧
        (_b_get_noise_set_1d lib s p_z p_sizez p_scale).2._allocated_sets
          = s._allocated_sets) ∧
    (∀ (p_v p_size : Vector2) (p_scale : float),
      ∃ r rest, (_b_get_noise_set_2dv lib s p_v p_size p_scale).2._noise.calls
          = s._noise.calls ++ LibCall.GetNoiseSet r s._noise.fresh :: rest ∧
        r.sizes = ⟨p_size.x, 1, p_size.y⟩ ∧
        (_b_get_noise_set_2dv lib s p_v p_size p_scale).2._allocated_sets
          = s._allocated_sets) ∧
    (∀ (p_v p_size : Vector3) (p_scale : float),
      ∃ r rest, (_b_get_noise_set_3dv lib s p_v p_size p_scale).2._noise.calls
          = s._noise.calls ++ LibCall.GetNoiseSet r s._noise.fresh :: rest ∧
        r.sizes = ⟨p_size.x, p_size.y, p_size.z⟩ ∧
        (_b_get_noise_set_3dv lib s p_v p_size p_scale).2._allocated_sets
          = s._allocated_sets) := by
  have h1 : float_to_int 1.0 = 1 := float_to_int_one
  refine ⟨?_, ?_, ?_, ?_, ?_, ?_, ?_, ?_, ?_, ?_⟩
  · intro p_x p_y p_z p_sizex p_sizey p_sizez p_scale
    rw [get_noise_set_3d_eq]
    exact ⟨_, rfl, rfl, rfl, rfl⟩
  · intro p_z p_sizez p_scale
    unfold get_noise_set_1d
    rw [get_noise_set_3d_eq, h1]
    exact ⟨_, rfl, by simp [NoiseSetRequest.sizes], rfl⟩
  · intro p_x p_z p_sizex p_sizez p_scale
    unfold get_noise_set_2d
    rw [get_noise_set_3d_eq, h1]
    exact ⟨_, rfl, by simp [NoiseSetRequest.sizes], rfl⟩
  · intro p_v p_size p_scale
    unfold get_noise_set_2dv
    rw [get_noise_set_3d_eq, h1]
    exact ⟨_, rfl, by simp [NoiseSetRequest.sizes], rfl⟩
  · intro p_v p_size p_scale
    unfold get_noise_set_3dv
    rw [get_noise_set_3d_eq]
    exact ⟨_, rfl, rfl, rfl⟩
  · intro p_size
    rw [get_empty_set_eq]
    exact ⟨rfl, rfl⟩
  · intro p_size
    unfold get_empty_set_3dv
    rw [get_empty_set_eq]
    exact ⟨rfl, rfl⟩
  · intro p_z p_sizez p_scale
    rw [b_get_noise_set_1d_eq]
    split_ifs
    · exact ⟨_, [], rfl, rfl, rfl⟩
    · exact ⟨_, [_], rfl, rfl, rfl⟩
  · intro p_v p_size p_scale
    rw [b_get_noise_set_2dv_eq]
    split_ifs
    · exact ⟨_, [], rfl, rfl, rfl⟩
    · exact ⟨_, [_], rfl, rfl, rfl⟩
  · intro p_v p_size p_scale
    rw [b_get_noise_set_3dv_eq]
    split_ifs
    · exact ⟨_, [], rfl, rfl, rfl⟩
    · exact ⟨_, [_], rfl, rfl, rfl⟩

/-! ### Arrays returned to scripts -/

theorem range_map_getElem? (f : Nat → float) (n i : Nat) (h : i < n) :
    ((List.range n).map f)[i]? = some (f i) := by
  rw [List.getElem?_map, List.getElem?_range h]
  rfl

theorem float_mul_natCast (a b : Nat) (h : a * b ≤ 16777216) :
    float_mul (a : float) (b : float) = ((a * b : Nat) : float) := by
  have e := float_mul_intCast (a : Int) (b : Int)
    (by have : (0 : Int) ≤ (a : Int) * b := by positivity
        omega)
    (by exact_mod_cast h)
  simpa using e

/-- The `float` product of three natural numbers whose product is at most 2^24 is exact. -/
theorem float_mul3_natCast (nx ny nz : Nat) (h : nx * ny * nz ≤ 16777216) :
    float_mul (float_mul (nx : float) ny) nz = ((nx * ny * nz : Nat) : float) := by
  rcases Nat.eq_zero_or_pos nz with h0 | hpos
  · rw [h0]
    unfold float_mul
    simp [float_round_zero]
  · have hxy : nx * ny ≤ 16777216 := le_trans (Nat.le_mul_of_pos_right _ hpos) h
    rw [float_mul_natCast nx ny hxy, float_mul_natCast (nx * ny) nz h]

/-- While the `float` product of the sizes is exact (a product of at most 2^24), the array
returned by `_b_get_noise_set_3dv` has `size.x * size.y * size.z` elements and the one
returned by `_b_get_noise_set_2dv` has `size.x * size.y`; the one returned by
`_b_get_noise_set_1d` has `p_sizez` elements; element `i` of the array is element `i` of the
buffer the library returned for the request the call made. -/
theorem script_array_contents (lib : NoiseLibrary) (s : State) (p_scale : float) :
    (∀ (p_v : Vector3) (nx ny nz : Nat), nx * ny * nz ≤ 16777216 →
      ∃ pv r, (_b_get_noise_set_3dv lib s p_v ⟨nx, ny, nz⟩ p_scale).1 = some pv ∧
        last_request (_b_get_noise_set_3dv lib s p_v ⟨nx, ny, nz⟩ p_scale).2._noise = some r ∧
        pv.length = nx * ny * nz ∧
        ∀ i, i < nx * ny * nz → pv[i]? = some ((s._noise.GetNoiseSet lib r).1.data i)) ∧
    (∀ (p_v : Vector2) (nx ny : Nat), nx * ny ≤ 16777216 →
      ∃ pv r, (_b_get_noise_set_2dv lib s p_v ⟨nx, ny⟩ p_scale).1 = some pv ∧
        last_request (_b_get_noise_set_2dv lib s p_v ⟨nx, ny⟩ p_scale).2._noise = some r ∧
        pv.length = nx * ny ∧
        ∀ i, i < nx * ny → pv[i]? = some ((s._noise.GetNoiseSet lib r).1.data i)) ∧
    (∀ (p_z : float) (n : Nat),
      ∃ pv r, (_b_get_noise_set_1d lib s p_z n p_scale).1 = some pv ∧
        last_request (_b_get_noise_set_1d lib s p_z n p_scale).2._noise = some r ∧
        pv.length = n ∧
        ∀ i, i < n → pv[i]? = some ((s._noise.GetNoiseSet lib r).1.data i)) := by
  have hneg : ∀ n : Nat, ¬ ((n : Int) < 0) := fun n => by omega
  refine ⟨?_, ?_, ?_⟩
  · intro p_v nx ny nz h
    have h3 : float_to_int (float_mul (float_mul (nx : float) ny) nz)
        = ((nx * ny * nz : Nat) : Int) := by
      rw [float_mul3_natCast nx ny nz h]
      exact float_to_int_natCast _ (by omega)
    refine ⟨(List.range (nx * ny * nz)).map
        (lib.samples s._noise.config (b_3dv_request s p_v ⟨nx, ny, nz⟩ p_scale)),
      _, ?_, b_get_noise_set_3dv_request lib s p_v ⟨nx, ny, nz⟩ p_scale, ?_, ?_⟩
    · rw [b_get_noise_set_3dv_eq]
      simp only [h3, hneg, if_false, Int.toNat_natCast]
    · simp
    · intro i hi
      exact range_map_getElem? _ _ _ hi
  · intro p_v nx ny h
    have h2 : float_to_int (float_mul (nx : float) ny) = ((nx * ny : Nat) : Int) := by
      rw [float_mul_natCast nx ny h]
      exact float_to_int_natCast _ (by omega)
    refine ⟨(List.range (nx * ny)).map
        (lib.samples s._noise.config (b_2dv_request s p_v ⟨nx, ny⟩ p_scale)),
      _, ?_, b_get_noise_set_2dv_request lib s p_v ⟨nx, ny⟩ p_scale, ?_, ?_⟩
    · rw [b_get_noise_set_2dv_eq]
      simp only [h2, hneg, if_false, Int.toNat_natCast]
    · simp
    · intro i hi
      exact range_map_getElem? _ _ _ hi
  · intro p_z n
    refine ⟨(List.range n).map
        (lib.samples s._noise.config (b_1d_request s p_z n p_scale)),
      _, ?_, b_get_noise_set_1d_request lib s p_z n p_scale, ?_, ?_⟩
    · rw [b_get_noise_set_1d_eq]
      simp only [hneg, if_false, Int.toNat_natCast]
    · simp
    · intro i hi
      exact range_map_getElem? _ _ _ hi

theorem float_mul_4097 :
    float_mul 4097 4097 = 16785408 ∧ float_mul (float_mul 4097 4097) 1 = 16785408 := by
  have h1 : float_mul 4097 4097 = 16785408 := by
    unfold float_mul
    have e : (4097 : ℚ) * 4097 = 16785409 := by norm_num
    rw [e]
    exact float_round_16785409
  have h2 : float_round 16785408 = 16785408 := by
    have h := float_round_dyadic 8392704 1 (by norm_num) (by norm_num)
    norm_num at h
    exact h
  refine ⟨h1, ?_⟩
  rw [h1]
  unfold float_mul
  rw [mul_one]
  exact h2

theorem float_to_int_16785408 : float_to_int 16785408 = 16785408 := by
  simpa using float_to_int_intCast 16785408 (by norm_num) (by norm_num)

/-- C8 at a failing input: for the sizes `(4097, 4097, 1)` the request made on the library has
the extents `(4097, 4097, 1)`, a region of `4097 * 4097 * 1 = 16785409` elements, and the
array returned by `_b_get_noise_set_3dv` has 16785408 elements, the `float` product
`4097 * 4097` being rounded to 16785408; likewise `_b_get_noise_set_2dv` with the sizes
`(4097, 4097)`. -/
theorem C8_array_shorter_than_product :
    (∃ pv r, (_b_get_noise_set_3dv sample_library new ⟨0, 0, 0⟩ ⟨4097, 4097, 1⟩ 0).1
        = some pv ∧
      last_request (_b_get_noise_set_3dv sample_library new ⟨0, 0, 0⟩
        ⟨4097, 4097, 1⟩ 0).2._noise = some r ∧
      r.sizes = ⟨4097, 4097, 1⟩ ∧
      pv.length = 16785408 ∧ pv.length ≠ 4097 * 4097 * 1) ∧
    (∃ pv r, (_b_get_noise_set_2dv sample_library new ⟨0, 0⟩ ⟨4097, 4097⟩ 0).1 = some pv ∧
      last_request (_b_get_noise_set_2dv sample_library new ⟨0, 0⟩
        ⟨4097, 4097⟩ 0).2._noise = some r ∧
      r.sizes = ⟨4097, 1, 4097⟩ ∧
      pv.length = 16785408 ∧ pv.length ≠ 4097 * 4097) := by
  have hn : (16785408 : Int).toNat = 16785408 := rfl
  constructor
  · refine ⟨(List.range 16785408).map (sample_library.samples new._noise.config
        (b_3dv_request new ⟨0, 0, 0⟩ ⟨4097, 4097, 1⟩ 0)), _, ?_,
      b_get_noise_set_3dv_request _ _ _ _ _, rfl, ?_, ?_⟩
    · rw [b_get_noise_set_3dv_eq]
      simp only [float_mul_4097.2, float_to_int_16785408]
      rw [if_neg (by norm_num), hn]
    · rw [List.length_map, List.length_range]
    · rw [List.length_map, List.length_range]
      norm_num
  · refine ⟨(List.range 16785408).map (sample_library.samples new._noise.config
        (b_2dv_request new ⟨0, 0⟩ ⟨4097, 4097⟩ 0)), _, ?_,
      b_get_noise_set_2dv_request _ _ _ _ _, rfl, ?_, ?_⟩
    · rw [b_get_noise_set_2dv_eq]
      simp only [float_mul_4097.1, float_to_int_16785408]
      rw [if_neg (by norm_num), hn]
    · rw [List.length_map, List.length_range]
    · rw [List.length_map, List.length_range]
      norm_num

/-! ### Point evaluation reads only -/

theorem live_sets_get_free (l : List LibCall) (r : NoiseSetRequest) (p : Nat)
    (hp : p ∉ live_sets ⟨l⟩) :
    live_sets ⟨l ++ [LibCall.GetNoiseSet r p, LibCall.FreeNoiseSet p]⟩ = live_sets ⟨l⟩ := by
  unfold live_sets at *
  simp only [List.foldl_append, List.foldl_cons, List.foldl_nil, live_step]
  generalize List.foldl live_step [] l = live at *
  induction live with
  | nil => simp
  | cons a t ih =>
    have ha : a ≠ p := fun h => hp (by simp [h])
    have ht : p ∉ t := fun h => hp (by simp [h])
    simp only [List.cons_append]
    rw [List.erase_cons_tail (by simpa using ha), ih ht]

theorem get_noise_3d_eq (lib : NoiseLibrary) (s : State) (p_x p_y p_z : float) :
    (get_noise_3d lib s p_x p_y p_z).2
      = { s with _noise := ⟨s._noise.calls ++
          [LibCall.GetNoiseSet
            ⟨float_add p_x s._offset.x, float_add p_y s._offset.y, float_add p_z s._offset.z, 1.0, 1.0, 1.0,
              lib.default_scaleModifier⟩ s._noise.fresh,
           LibCall.FreeNoiseSet s._noise.fresh]⟩ } := by
  simp [get_noise_3d, _FastNoiseSIMD.GetNoiseSet, _FastNoiseSIMD.call]

/-- C9: with the library a function of its configuration and the call's arguments,
`get_noise_3d(x, y, z)` leaves every locally stored field, the tracked buffer list and the
library's configuration unchanged; the only calls it makes obtain one buffer and release that
same buffer, so the library's outstanding buffers are as before; and a second call with the
same coordinates, right after the first or in any state with the same configuration and
offset, returns the same value. -/
theorem C9_get_noise_3d_reads_only (lib : NoiseLibrary) (s : State) (p_x p_y p_z : float) :
    (get_noise_3d lib s p_x p_y p_z).2._offset = s._offset ∧
    (get_noise_3d lib s p_x p_y p_z).2._scale = s._scale ∧
    (get_noise_3d lib s p_x p_y p_z).2._perturb_amp = s._perturb_amp ∧
    (get_noise_3d lib s p_x p_y p_z).2._axis_scales = s._axis_scales ∧
    (get_noise_3d lib s p_x p_y p_z).2._cell_dist_index0 = s._cell_dist_index0 ∧
    (get_noise_3d lib s p_x p_y p_z).2._cell_dist_index1 = s._cell_dist_index1 ∧
    (get_noise_3d lib s p_x p_y p_z).2.changed = s.changed ∧
    (get_noise_3d lib s p_x p_y p_z).2._allocated_sets = s._allocated_sets ∧
    (get_noise_3d lib s p_x p_y p_z).2._noise.config = s._noise.config ∧
    (∃ req, (get_noise_3d lib s p_x p_y p_z).2._noise.calls
      = s._noise.calls ++
        [LibCall.GetNoiseSet req s._noise.fresh, LibCall.FreeNoiseSet s._noise.fresh]) ∧
    (s._noise.fresh ∉ live_sets s._noise →
      live_sets (get_noise_3d lib s p_x p_y p_z).2._noise = live_sets s._noise) ∧
    (get_noise_3d lib (get_noise_3d lib s p_x p_y p_z).2 p_x p_y p_z).1
      = (get_noise_3d lib s p_x p_y p_z).1 ∧
    (∀ t : State, t._noise.config = s._noise.config → t._offset = s._offset →
      (get_noise_3d lib t p_x p_y p_z).1 = (get_noise_3d lib s p_x p_y p_z).1) := by
  have hcfg : (get_noise_3d lib s p_x p_y p_z).2._noise.config = s._noise.config := by
    rw [get_noise_3d_eq]
    exact config_append_get_free _ _ _ _
  have hoff : (get_noise_3d lib s p_x p_y p_z).2._offset = s._offset := by
    rw [get_noise_3d_eq]
  have hsame : ∀ t : State, t._noise.config = s._noise.config → t._offset = s._offset →
      (get_noise_3d lib t p_x p_y p_z).1 = (get_noise_3d lib s p_x p_y p_z).1 := by
    intro t h1 h2
    rw [get_noise_3d_value, get_noise_3d_value, h1, h2]
  refine ⟨hoff, ?_, ?_, ?_, ?_, ?_, ?_, ?_, hcfg, ?_, ?_, hsame _ hcfg hoff, hsame⟩
  · rw [get_noise_3d_eq]
  · rw [get_noise_3d_eq]
  · rw [get_noise_3d_eq]
  · rw [get_noise_3d_eq]
  · rw [get_noise_3d_eq]
  · rw [get_noise_3d_eq]
  · rw [get_noise_3d_eq]
  · exact ⟨_, get_noise_3d_calls lib s p_x p_y p_z⟩
  · intro hp
    rw [get_noise_3d_eq]
    exact live_sets_get_free _ _ _ hp

/-- C9 at the constructor's state and the sample library: no buffer is outstanding before
`get_noise_3d(1, 2, 3)` and none is after it. -/
theorem C9_get_noise_3d_reads_only_witness :
    new._noise.fresh ∉ live_sets new._noise ∧
    live_sets (get_noise_3d sample_library new 1 2 3).2._noise = live_sets new._noise :=
  ⟨by decide,
   (C9_get_noise_3d_reads_only sample_library new 1 2 3).2.2.2.2.2.2.2.2.2.2.1 (by decide)⟩

/-! ### Locally stored settings -/

/-- C10: the locally stored settings take any value and give it back: `get_scale` after
`set_scale(v)` returns `v`, and likewise for `set_offset` / `get_offset`, `set_axis_scales` /
`get_axis_scales` and `set_perturb_amplitude` / `get_perturb_amplitude` (zero and negative
values included); each of these setters leaves the other locally stored fields, the cellular
index pair and the tracked buffer list among them, unchanged; `set_scale` and `set_offset`
make no library call, and `set_axis_scales` and `set_perturb_amplitude` forward to the library
exactly the value they store. -/
theorem C10_local_settings_round_trip (s : State) :
    (∀ v : float,
      get_scale (set_scale s v) = v ∧
      (set_scale s v)._offset = s._offset ∧
      (set_scale s v)._axis_scales = s._axis_scales ∧
      (set_scale s v)._perturb_amp = s._perturb_amp ∧
      (set_scale s v)._cell_dist_index0 = s._cell_dist_index0 ∧
      (set_scale s v)._cell_dist_index1 = s._cell_dist_index1 ∧
      (set_scale s v)._allocated_sets = s._allocated_sets ∧
      (set_scale s v)._noise = s._noise) ∧
    (∀ v : Vector3,
      get_offset (set_offset s v) = v ∧
      (set_offset s v)._scale = s._scale ∧
      (set_offset s v)._axis_scales = s._axis_scales ∧
      (set_offset s v)._perturb_amp = s._perturb_amp ∧
      (set_offset s v)._cell_dist_index0 = s._cell_dist_index0 ∧
      (set_offset s v)._cell_dist_index1 = s._cell_dist_index1 ∧
      (set_offset s v)._allocated_sets = s._allocated_sets ∧
      (set_offset s v)._noise = s._noise) ∧
    (∀ v : Vector3,
      get_axis_scales (set_axis_scales s v) = v ∧
      (set_axis_scales s v)._scale = s._scale ∧
      (set_axis_scales s v)._offset = s._offset ∧
      (set_axis_scales s v)._perturb_amp = s._perturb_amp ∧
      (set_axis_scales s v)._cell_dist_index0 = s._cell_dist_index0 ∧
      (set_axis_scales s v)._cell_dist_index1 = s._cell_dist_index1 ∧
      (set_axis_scales s v)._allocated_sets = s._allocated_sets ∧
      (set_axis_scales s v)._noise.calls
        = s._noise.calls ++ [LibCall.SetAxisScales v.x v.y v.z]) ∧
    (∀ v : float,
      get_perturb_amplitude (set_perturb_amplitude s v) = v ∧
      (set_perturb_amplitude s v)._scale = s._scale ∧
      (set_perturb_amplitude s v)._offset = s._offset ∧
      (set_perturb_amplitude s v)._axis_scales = s._axis_scales ∧
      (set_perturb_amplitude s v)._cell_dist_index0 = s._cell_dist_index0 ∧
      (set_perturb_amplitude s v)._cell_dist_index1 = s._cell_dist_index1 ∧
      (set_perturb_amplitude s v)._allocated_sets = s._allocated_sets ∧
      (set_perturb_amplitude s v)._noise.calls
        = s._noise.calls ++ [LibCall.SetPerturbAmp v]) ∧
    get_scale (set_scale s 0) = 0 ∧ get_scale (set_scale s (-1)) = -1 ∧
    get_perturb_amplitude (set_perturb_amplitude s 0) = 0 ∧
    get_perturb_amplitude (set_perturb_amplitude s (-1)) = -1 ∧
    get_offset (set_offset s ⟨0, -1, 0⟩) = ⟨0, -1, 0⟩ ∧
    get_axis_scales (set_axis_scales s ⟨0, -1, 0⟩) = ⟨0, -1, 0⟩ := by
  refine ⟨fun v => ⟨rfl, rfl, rfl, rfl, rfl, rfl, rfl, rfl⟩,
    fun v => ⟨rfl, rfl, rfl, rfl, rfl, rfl, rfl, rfl⟩,
    fun v => ⟨rfl, rfl, rfl, rfl, rfl, rfl, rfl, rfl⟩,
    fun v => ⟨rfl, rfl, rfl, rfl, rfl, rfl, rfl, rfl⟩,
    rfl, rfl, rfl, rfl, rfl, rfl⟩

/-! ### The one-index setters -/

/-- C14: in a state whose stored pair `(a, b)` satisfies `0 ≤ a < b ≤ 3`, for every integer
`p`, `set_cellular_distance2_index0(p)` leaves index1 equal to `b` and stores
`index0 = max(0, min(p, b - 1))`; `set_cellular_distance2_index1(p)` stores
`index1 = min(3, max(1, p))`, and index0 becomes the new index1 minus 1 when `a` is at least
the new index1 and stays `a` otherwise. -/
theorem C14_one_index_setters (s : State) (p : Int)
    (h0 : 0 ≤ s._cell_dist_index0) (h01 : s._cell_dist_index0 < s._cell_dist_index1)
    (h3 : s._cell_dist_index1 ≤ 3) :
    (set_cellular_distance2_index0 s p)._cell_dist_index1 = s._cell_dist_index1 ∧
    (set_cellular_distance2_index0 s p)._cell_dist_index0
      = max 0 (min p (s._cell_dist_index1 - 1)) ∧
    (set_cellular_distance2_index1 s p)._cell_dist_index1 = min 3 (max 1 p) ∧
    (s._cell_dist_index0 ≥ (set_cellular_distance2_index1 s p)._cell_dist_index1 →
      (set_cellular_distance2_index1 s p)._cell_dist_index0
        = (set_cellular_distance2_index1 s p)._cell_dist_index1 - 1) ∧
    (s._cell_dist_index0 < (set_cellular_distance2_index1 s p)._cell_dist_index1 →
      (set_cellular_distance2_index1 s p)._cell_dist_index0 = s._cell_dist_index0) := by
  have e0 : (set_cellular_distance2_index0 s p)._cell_dist_index0
      = (set_cellular_distance2_indices s p s._cell_dist_index1)._cell_dist_index0 := rfl
  have e1 : (set_cellular_distance2_index0 s p)._cell_dist_index1
      = (set_cellular_distance2_indices s p s._cell_dist_index1)._cell_dist_index1 := rfl
  have f0 : (set_cellular_distance2_index1 s p)._cell_dist_index0
      = (set_cellular_distance2_indices s s._cell_dist_index0 p)._cell_dist_index0 := rfl
  have f1 : (set_cellular_distance2_index1 s p)._cell_dist_index1
      = (set_cellular_distance2_indices s s._cell_dist_index0 p)._cell_dist_index1 := rfl
  rw [e0, e1, f0, f1, set_indices_index0, set_indices_index1, set_indices_index0,
    set_indices_index1]
  refine ⟨?_, ?_, rfl, ?_, ?_⟩
  · omega
  · omega
  · intro h; omega
  · intro h; omega

/-- C14 at the constructor's state, whose pair is `(0, 1)`: `set_cellular_distance2_index1(3)`
stores index1 = 3 and leaves index0 at 0. -/
theorem C14_one_index_setters_witness :
    (set_cellular_distance2_index1 new 3)._cell_dist_index1 = min 3 (max 1 3) ∧
    (set_cellular_distance2_index1 new 3)._cell_dist_index0 = new._cell_dist_index0 :=
  ⟨(C14_one_index_setters new 3 (by decide) (by decide) (by decide)).2.2.1,
   (C14_one_index_setters new 3 (by decide) (by decide) (by decide)).2.2.2.2 (by decide)⟩

/-! ### Lower-dimensional entry points -/

/-- C16: the lower-dimensional entry points are the 3D ones with the missing axes fixed:
`get_noise_1d(z) = get_noise_3d(0, 0, z)`, `get_noise_2d(x, z) = get_noise_3d(x, 0, z)`,
`get_noise_2dv(v) = get_noise_3d(v.x, 0, v.y)`, `get_noise_3dv(v) = get_noise_3d(v.x, v.y, v.z)`,
`get_noise_set_1d(z, n, s) = get_noise_set_3d(0, 0, z, 1, 1, n, s)`,
`get_noise_set_2d(x, z, sx, sz, s) = get_noise_set_3d(x, 0, z, sx, 1, sz, s)` and
`get_noise_set_2dv(v, size, s) = get_noise_set_3d(v.x, 0, v.y, size.x, 1, size.y, s)`, result
and state alike, for all arguments and states; a `float` written for an `int` parameter of
`get_noise_set_3d` is converted as C++ converts it.  The second 2D coordinate is the z axis
and the y extent is 1. -/
theorem C16_lower_dimensional_specialisations (lib : NoiseLibrary) (s : State) :
    (∀ p_z : float, get_noise_1d lib s p_z = get_noise_3d lib s 0 0 p_z) ∧
    (∀ p_x p_z : float, get_noise_2d lib s p_x p_z = get_noise_3d lib s p_x 0 p_z) ∧
    (∀ p_v : Vector2, get_noise_2dv lib s p_v = get_noise_3d lib s p_v.x 0 p_v.y) ∧
    (∀ p_v : Vector3, get_noise_3dv lib s p_v = get_noise_3d lib s p_v.x p_v.y p_v.z) ∧
    (∀ (p_z : float) (p_sizez : Int) (p_scale : float),
      get_noise_set_1d lib s p_z p_sizez p_scale
        = get_noise_set_3d lib s 0 0 (float_to_int p_z) 1 1 p_sizez p_scale) ∧
    (∀ (p_x p_z : float) (p_sizex p_sizez : Int) (p_scale : float),
      get_noise_set_2d lib s p_x p_z p_sizex p_sizez p_scale
        = get_noise_set_3d lib s (float_to_int p_x) 0 (float_to_int p_z)
            p_sizex 1 p_sizez p_scale) ∧
    (∀ (p_v p_size : Vector2) (p_scale : float),
      get_noise_set_2dv lib s p_v p_size p_scale
        = get_noise_set_3d lib s (float_to_int p_v.x) 0 (float_to_int p_v.y)
            (float_to_int p_size.x) 1 (float_to_int p_size.y) p_scale) := by
  refine ⟨?_, ?_, ?_, ?_, ?_, ?_, ?_⟩
  · intro p_z
    unfold get_noise_1d
    rw [float_zero]
  · intro p_x p_z
    unfold get_noise_2d
    rw [float_zero]
  · intro p_v
    unfold get_noise_2dv
    rw [float_zero]
  · intro p_v
    rfl
  · intro p_z p_sizez p_scale
    unfold get_noise_set_1d
    rw [float_to_int_zero, float_to_int_one]
  · intro p_x p_z p_sizex p_sizez p_scale
    unfold get_noise_set_2d
    rw [float_to_int_zero, float_to_int_one]
  · intro p_v p_size p_scale
    unfold get_noise_set_2dv
    rw [float_to_int_zero, float_to_int_one]

/-! ### The tracked buffer list -/

theorem handed_out_append (l : List LibCall) (c : LibCall) :
    handed_out (l ++ [c]) = handed_out l ++ (c.allocated?).toList := by
  unfold handed_out
  rw [List.filterMap_append]
  cases h : c.allocated? <;> simp [h]

theorem fresh_append (l : List LibCall) (c : LibCall) :
    _FastNoiseSIMD.fresh ⟨l ++ [c]⟩
      = _FastNoiseSIMD.fresh ⟨l⟩ + (if c.isAlloc then 1 else 0) := by
  unfold _FastNoiseSIMD.fresh
  simp only [List.filter_append, List.length_append]
  by_cases h : c.isAlloc = true
  · simp [h]
  · simp [h]

theorem not_freed_cons_some (d : LibCall) (cs : List LibCall) (q : Nat)
    (hd : d.allocated? = some q) :
    handed_out_not_freed (d :: cs)
      = if LibCall.FreeNoiseSet q ∈ cs then handed_out_not_freed cs
        else q :: handed_out_not_freed cs := by
  simp only [handed_out_not_freed, hd]

theorem not_freed_cons_none (d : LibCall) (cs : List LibCall) (hd : d.allocated? = none) :
    handed_out_not_freed (d :: cs) = handed_out_not_freed cs := by
  simp only [handed_out_not_freed, hd]

theorem not_freed_append_alloc (l : List LibCall) (c : LibCall) (p : Nat)
    (hc : c.allocated? = some p) :
    handed_out_not_freed (l ++ [c]) = handed_out_not_freed l ++ [p] := by
  have hne : ∀ q, LibCall.FreeNoiseSet q ≠ c := by
    intro q h
    rw [← h] at hc
    simp [LibCall.allocated?] at hc
  induction l with
  | nil =>
    rw [List.nil_append, not_freed_cons_some c [] p hc]
    simp [handed_out_not_freed]
  | cons d l ih =>
    rw [List.cons_append]
    cases hd : d.allocated? with
    | none => rw [not_freed_cons_none _ _ hd, not_freed_cons_none _ _ hd, ih]
    | some q =>
      rw [not_freed_cons_some _ _ q hd, not_freed_cons_some _ _ q hd, ih]
      have hiff : LibCall.FreeNoiseSet q ∈ l ++ [c] ↔ LibCall.FreeNoiseSet q ∈ l := by
        simp [hne q]
      by_cases h1 : LibCall.FreeNoiseSet q ∈ l
      · rw [if_pos (hiff.mpr h1), if_pos h1]
      · rw [if_neg (fun h => h1 (hiff.mp h)), if_neg h1]
        rfl

theorem not_freed_append_free (l : List LibCall) (p : Nat) :
    handed_out_not_freed (l ++ [LibCall.FreeNoiseSet p])
      = (handed_out_not_freed l).filter (fun q => q ≠ p) := by
  induction l with
  | nil =>
    rw [List.nil_append, not_freed_cons_none (LibCall.FreeNoiseSet p) [] rfl]
    simp [handed_out_not_freed]
  | cons d l ih =>
    rw [List.cons_append]
    cases hd : d.allocated? with
    | none => rw [not_freed_cons_none _ _ hd, not_freed_cons_none _ _ hd, ih]
    | some q =>
      rw [not_freed_cons_some _ _ q hd, not_freed_cons_some _ _ q hd, ih]
      have hiff : LibCall.FreeNoiseSet q ∈ l ++ [LibCall.FreeNoiseSet p]
          ↔ LibCall.FreeNoiseSet q ∈ l ∨ q = p := by
        simp
      by_cases h1 : LibCall.FreeNoiseSet q ∈ l
      · rw [if_pos (hiff.mpr (Or.inl h1)), if_pos h1]
      · by_cases h2 : q = p
        · rw [if_pos (hiff.mpr (Or.inr h2)), if_neg h1]
          simp [h2]
        · rw [if_neg (fun h => (hiff.mp h).elim h1 h2), if_neg h1]
          simp [h2]

theorem not_freed_sublist (l : List LibCall) :
    List.Sublist (handed_out_not_freed l) (handed_out l) := by
  induction l with
  | nil => simp [handed_out_not_freed, handed_out]
  | cons d l ih =>
    cases hd : d.allocated? with
    | none =>
      rw [not_freed_cons_none _ _ hd]
      simpa [handed_out, hd] using ih
    | some q =>
      rw [not_freed_cons_some _ _ q hd]
      have e : handed_out (d :: l) = q :: handed_out l := by
        simp [handed_out, hd]
      rw [e]
      split_ifs
      · exact List.Sublist.cons _ ih
      · exact List.Sublist.cons₂ _ ih

theorem consistent_alloc (s : State) (c : LibCall)
    (hc : c.allocated? = some s._noise.fresh) (hia : c.isAlloc = true)
    (h : buffers_consistent s) :
    buffers_consistent { s with
      _noise := ⟨s._noise.calls ++ [c]⟩
      _allocated_sets := s._allocated_sets ++ [s._noise.fresh] } := by
  obtain ⟨hlt, hnd, htr⟩ := h
  have hfresh : _FastNoiseSIMD.fresh ⟨s._noise.calls ++ [c]⟩ = s._noise.fresh + 1 := by
    rw [fresh_append, if_pos hia]
  have hout : handed_out (s._noise.calls ++ [c])
      = handed_out s._noise.calls ++ [s._noise.fresh] := by
    rw [handed_out_append, hc]; rfl
  refine ⟨?_, ?_, ?_⟩
  · intro p hp
    show p < _FastNoiseSIMD.fresh ⟨s._noise.calls ++ [c]⟩
    rw [hfresh]
    have hp' : p ∈ handed_out s._noise.calls ++ [s._noise.fresh] := hout ▸ hp
    rcases List.mem_append.mp hp' with h1 | h1
    · exact Nat.lt_succ_of_lt (hlt p h1)
    · rw [List.mem_singleton.mp h1]; exact Nat.lt_succ_self _
  · show (handed_out (s._noise.calls ++ [c])).Nodup
    rw [hout]
    refine List.Nodup.append hnd (List.nodup_singleton _) ?_
    intro a ha hb
    rw [List.mem_singleton.mp hb] at ha
    exact Nat.lt_irrefl _ (hlt _ ha)
  · show s._allocated_sets ++ [s._noise.fresh] = handed_out_not_freed (s._noise.calls ++ [c])
    rw [not_freed_append_alloc _ _ _ hc, htr]

theorem consistent_free (s : State) (p_set : Nat) (h : buffers_consistent s) :
    buffers_consistent (free_noise_set s p_set) := by
  obtain ⟨hlt, hnd, htr⟩ := h
  have hfresh : _FastNoiseSIMD.fresh ⟨s._noise.calls ++ [LibCall.FreeNoiseSet p_set]⟩
      = s._noise.fresh := by
    rw [fresh_append]; rfl
  have hout : handed_out (s._noise.calls ++ [LibCall.FreeNoiseSet p_set])
      = handed_out s._noise.calls := by
    rw [handed_out_append]; simp [LibCall.allocated?]
  have hnd' : (handed_out_not_freed s._noise.calls).Nodup :=
    List.Nodup.sublist (not_freed_sublist _) hnd
  refine ⟨?_, ?_, ?_⟩
  · intro p hp
    show p < _FastNoiseSIMD.fresh ⟨s._noise.calls ++ [LibCall.FreeNoiseSet p_set]⟩
    rw [hfresh]
    exact hlt p (hout ▸ hp)
  · show (handed_out (s._noise.calls ++ [LibCall.FreeNoiseSet p_set])).Nodup
    rw [hout]; exact hnd
  · show s._allocated_sets.erase p_set
      = handed_out_not_freed (s._noise.calls ++ [LibCall.FreeNoiseSet p_set])
    rw [not_freed_append_free, htr, List.Nodup.erase_eq_filter hnd']
    apply List.filter_congr
    intro x _
    by_cases hx : x = p_set <;> simp [hx]

theorem consistent_apply (lib : NoiseLibrary) (s : State) (c : BufferCall)
    (h : buffers_consistent s) : buffers_consistent (BufferCall.apply lib s c) := by
  cases c with
  | set_1d p_z p_sizez p_scale =>
    show buffers_consistent (get_noise_set_1d lib s p_z p_sizez p_scale).2
    unfold get_noise_set_1d
    rw [get_noise_set_3d_eq]
    exact consistent_alloc s _ rfl rfl h
  | set_2d p_x p_z p_sizex p_sizez p_scale =>
    show buffers_consistent (get_noise_set_2d lib s p_x p_z p_sizex p_sizez p_scale).2
    unfold get_noise_set_2d
    rw [get_noise_set_3d_eq]
    exact consistent_alloc s _ rfl rfl h
  | set_2dv p_v p_size p_scale =>
    show buffers_consistent (get_noise_set_2dv lib s p_v p_size p_scale).2
    unfold get_noise_set_2dv
    rw [get_noise_set_3d_eq]
    exact consistent_alloc s _ rfl rfl h
  | set_3d p_x p_y p_z p_sizex p_sizey p_sizez p_scale =>
    show buffers_consistent
      (get_noise_set_3d lib s p_x p_y p_z p_sizex p_sizey p_sizez p_scale).2
    rw [get_noise_set_3d_eq]
    exact consistent_alloc s _ rfl rfl h
  | set_3dv p_v p_size p_scale =>
    show buffers_consistent (get_noise_set_3dv lib s p_v p_size p_scale).2
    unfold get_noise_set_3dv
    rw [get_noise_set_3d_eq]
    exact consistent_alloc s _ rfl rfl h
  | empty_set p_size =>
    show buffers_consistent (get_empty_set s p_size).2
    rw [get_empty_set_eq]
    exact consistent_alloc s _ rfl rfl h
  | empty_set_3dv p_size =>
    show buffers_consistent (get_empty_set_3dv s p_size).2
    unfold get_empty_set_3dv
    rw [get_empty_set_eq]
    exact consistent_alloc s _ rfl rfl h
  | free p_set => exact consistent_free s p_set h

theorem consistent_run (lib : NoiseLibrary) (cs : List BufferCall) :
    ∀ s : State, buffers_consistent s → buffers_consistent (run_buffer_calls lib s cs) := by
  induction cs with
  | nil => intro s hs; exact hs
  | cons c cs ih =>
    intro s hs
    exact ih (BufferCall.apply lib s c) (consistent_apply lib s c hs)

theorem consistent_new : buffers_consistent new := by
  refine ⟨?_, ?_, ?_⟩
  · intro p hp
    have e : handed_out new._noise.calls = [] := rfl
    rw [e] at hp
    cases hp
  · have e : handed_out new._noise.calls = [] := rfl
    rw [e]
    exact List.nodup_nil
  · rfl

theorem destructor_frees_all (l : List Nat) :
    ∀ (s : State) (fuel : Nat), s._allocated_sets = l → l.length ≤ fuel →
      destructor fuel s
        = some (l.length,
            { s with
              _noise := ⟨s._noise.calls ++ l.map LibCall.FreeNoiseSet⟩
              _allocated_sets := [] }) := by
  induction l with
  | nil =>
    intro s fuel hs _
    unfold destructor destructor_step
    cases s
    simp only at hs
    subst hs
    simp
  | cons p rest ih =>
    intro s fuel hs hfuel
    cases fuel with
    | zero => simp at hfuel
    | succ fuel =>
      have hstep : destructor_step s
          = some { s with _noise := s._noise.call (.FreeNoiseSet p), _allocated_sets := rest } := by
        unfold destructor_step
        rw [hs]
      unfold destructor
      rw [hstep]
      simp only []
      rw [ih _ fuel rfl (by simpa using hfuel)]
      simp [_FastNoiseSIMD.call]

/-- C13: with buffers as distinct numbers on explicit state, after any sequence of
`get_noise_set_1d/2d/2dv/3d/3dv`, `get_empty_set`, `get_empty_set_3dv` and `free_noise_set`
calls on a constructed object the tracked list `_allocated_sets` holds exactly the buffers
handed out and not passed to `free_noise_set` since, each once; and on any state the
destructor's loop ends after as many passes as the list has entries (given at least that much
fuel), having freed the tracked buffers one by one, each entry once, and leaving the list
empty. -/
theorem C13_tracked_buffers :
    (∀ (lib : NoiseLibrary) (cs : List BufferCall),
      (run_buffer_calls lib new cs)._allocated_sets
        = handed_out_not_freed (run_buffer_calls lib new cs)._noise.calls ∧
      (run_buffer_calls lib new cs)._allocated_sets.Nodup) ∧
    (∀ (s : State) (fuel : Nat), s._allocated_sets.length ≤ fuel →
      ∃ t : State, destructor fuel s = some (s._allocated_sets.length, t) ∧
        t._allocated_sets = [] ∧
        t._noise.calls = s._noise.calls ++ s._allocated_sets.map LibCall.FreeNoiseSet) := by
  constructor
  · intro lib cs
    obtain ⟨_, hnd, htr⟩ := consistent_run lib cs new consistent_new
    refine ⟨htr, ?_⟩
    rw [htr]
    exact List.Nodup.sublist (not_freed_sublist _) hnd
  · intro s fuel hfuel
    exact ⟨_, destructor_frees_all s._allocated_sets s fuel rfl hfuel, rfl, rfl⟩

/-- C13 on the state reached by two `get_empty_set` calls and `free_noise_set` of the first
buffer: the list holds buffer 2 and the destructor, given fuel 5, ends after one pass. -/
theorem C13_tracked_buffers_witness :
    (run_buffer_calls sample_library new
        [.empty_set 4, .empty_set 2, .free 1])._allocated_sets = [2] ∧
    ∃ t : State,
      destructor 5 (run_buffer_calls sample_library new [.empty_set 4, .empty_set 2, .free 1])
        = some ((run_buffer_calls sample_library new
            [.empty_set 4, .empty_set 2, .free 1])._allocated_sets.length, t) ∧
      t._allocated_sets = [] ∧
      t._noise.calls
        = (run_buffer_calls sample_library new
            [.empty_set 4, .empty_set 2, .free 1])._noise.calls
          ++ (run_buffer_calls sample_library new
            [.empty_set 4, .empty_set 2, .free 1])._allocated_sets.map LibCall.FreeNoiseSet :=
  ⟨by decide,
   C13_tracked_buffers.2
    (run_buffer_calls sample_library new [.empty_set 4, .empty_set 2, .free 1]) 5
    (by decide)⟩

/-! ### The scan for the minimum and the maximum -/

theorem int_wrap_eq (n : Int) (h1 : -2147483648 ≤ n) (h2 : n < 2147483648) :
    int_wrap n = n := by
  unfold int_wrap
  omega

theorem scan_succ (ns : NoiseSet) (n : Nat) :
    (List.range (n + 1)).foldl (scan_step ns) (100, -100)
      = scan_step ns ((List.range n).foldl (scan_step ns) (100, -100)) n := by
  rw [List.range_succ, List.foldl_append]
  rfl

/-- What the first loop establishes after `n` samples: `min_val` is at most every sample
seen and at most 100, and it is 100 or one of the samples; `max_val` is at least every sample
seen and at least -100, and it is -100 or one of the samples. -/
theorem scan_spec (ns : NoiseSet) (n : Nat) :
    (∀ i, i < n → ((List.range n).foldl (scan_step ns) (100, -100)).1 ≤ ns.data i ∧
      ns.data i ≤ ((List.range n).foldl (scan_step ns) (100, -100)).2) ∧
    ((List.range n).foldl (scan_step ns) (100, -100)).1 ≤ 100 ∧
    -100 ≤ ((List.range n).foldl (scan_step ns) (100, -100)).2 ∧
    (((List.range n).foldl (scan_step ns) (100, -100)).1 = 100 ∨
      ∃ i, i < n ∧ ns.data i = ((List.range n).foldl (scan_step ns) (100, -100)).1) ∧
    (((List.range n).foldl (scan_step ns) (100, -100)).2 = -100 ∨
      ∃ i, i < n ∧ ns.data i = ((List.range n).foldl (scan_step ns) (100, -100)).2) := by
  induction n with
  | zero =>
    refine ⟨fun i hi => absurd hi (Nat.not_lt_zero i), ?_, ?_, Or.inl rfl, Or.inl rfl⟩
    · simp
    · simp
  | succ n ih =>
    rw [scan_succ]
    generalize (List.range n).foldl (scan_step ns) (100, -100) = acc at ih
    obtain ⟨hall, hle, hge, hmin, hmax⟩ := ih
    have e1 : (scan_step ns acc n).1
        = if ns.data n < acc.1 then ns.data n else acc.1 := rfl
    have e2 : (scan_step ns acc n).2
        = if ns.data n > acc.2 then ns.data n else acc.2 := rfl
    rw [e1, e2]
    refine ⟨?_, ?_, ?_, ?_, ?_⟩
    · intro i hi
      rcases Nat.lt_succ_iff_lt_or_eq.mp hi with h | h
      · obtain ⟨a, b⟩ := hall i h
        constructor
        · split_ifs with hc
          · exact le_trans (le_of_lt hc) a
          · exact a
        · split_ifs with hc
          · exact le_trans b (le_of_lt hc)
          · exact b
      · subst h
        constructor
        · split_ifs with hc
          · exact le_refl _
          · exact not_lt.mp hc
        · split_ifs with hc
          · exact le_refl _
          · exact not_lt.mp hc
    · split_ifs with hc
      · exact le_trans (le_of_lt hc) hle
      · exact hle
    · split_ifs with hc
      · exact le_trans hge (le_of_lt hc)
      · exact hge
    · split_ifs with hc
      · exact Or.inr ⟨n, Nat.lt_succ_self n, rfl⟩
      · rcases hmin with h | ⟨i, hi, h⟩
        · exact Or.inl h
        · exact Or.inr ⟨i, Nat.lt_succ_of_lt hi, h⟩
    · split_ifs with hc
      · exact Or.inr ⟨n, Nat.lt_succ_self n, rfl⟩
      · rcases hmax with h | ⟨i, hi, h⟩
        · exact Or.inl h
        · exact Or.inr ⟨i, Nat.lt_succ_of_lt hi, h⟩

/-- When some sample is at most 100 the scanned `min_val` is the least sample, and when some
sample is at least -100 the scanned `max_val` is the greatest sample. -/
theorem scan_true_min_max (ns : NoiseSet) (n : Nat) :
    ((∃ i, i < n ∧ ns.data i ≤ 100) →
      ∃ i, i < n ∧ ns.data i = ((List.range n).foldl (scan_step ns) (100, -100)).1) ∧
    ((∃ i, i < n ∧ -100 ≤ ns.data i) →
      ∃ i, i < n ∧ ns.data i = ((List.range n).foldl (scan_step ns) (100, -100)).2) := by
  obtain ⟨hall, _, _, hmin, hmax⟩ := scan_spec ns n
  constructor
  · rintro ⟨i, hi, hle⟩
    rcases hmin with h | h
    · have h1 := (hall i hi).1
      rw [h] at h1
      exact ⟨i, hi, by rw [h]; exact le_antisymm hle h1⟩
    · exact h
  · rintro ⟨i, hi, hge⟩
    rcases hmax with h | h
    · have h1 := (hall i hi).2
      rw [h] at h1
      exact ⟨i, hi, by rw [h]; exact le_antisymm h1 hge⟩
    · exact h

theorem get_noise_set_2d_eq (lib : NoiseLibrary) (s : State)
    (p_sizex p_sizez : Int) (p_scale : float) :
    get_noise_set_2d lib s 0.0 0.0 p_sizex p_sizez p_scale
      = (⟨s._noise.fresh, lib.samples s._noise.config
            ⟨float_add (int_to_float 0) s._offset.x, float_add (int_to_float 0) s._offset.y,
              float_add (int_to_float 0) s._offset.z,
              p_sizex, 1, p_sizez, if p_scale = 0 then s._scale else p_scale⟩⟩,
         { s with
           _noise := ⟨s._noise.calls ++ [LibCall.GetNoiseSet
              ⟨float_add (int_to_float 0) s._offset.x, float_add (int_to_float 0) s._offset.y,
                float_add (int_to_float 0) s._offset.z,
                p_sizex, 1, p_sizez, if p_scale = 0 then s._scale else p_scale⟩
              s._noise.fresh]⟩
           _allocated_sets := s._allocated_sets ++ [s._noise.fresh] }) := by
  unfold get_noise_set_2d
  rw [get_noise_set_3d_eq, float_to_int_zero, float_to_int_one]
  simp

theorem config_length_new : new._noise.config.length = 19 := rfl

theorem sample_library_row (cfg : List LibCall) (x y z scale : float) (h w : Int) (n : Nat) :
    sample_library.samples cfg ⟨x, y, z, h, 1, w, scale⟩ n
      = scale * ((x + (n / (1 * w.toNat) : Nat)) + 10 * (y + (n / w.toNat % 1 : Nat))
          + 100 * (z + (n % w.toNat : Nat))) + cfg.length := by
  have h1 : float_trunc 1 = 1 := by simpa using float_trunc_intCast 1
  simp [sample_library, float_trunc_intCast, h1]

/-- C11 at a failing input: with the offset `(0, 0, 2)` the buffer `get_image(1, 1)` scans
holds the single sample 219 (sample library).  The scan leaves `max_val = 219` but
`min_val = 100`, which is not the smallest sample. -/
theorem C11_scan_misses_minimum_above_100 :
    (get_noise_set_2d sample_library (set_offset new ⟨0, 0, 2⟩) 0.0 0.0 1 1
        default_p_scale).1.data 0 = 219 ∧
    scan_min_max
        (get_noise_set_2d sample_library (set_offset new ⟨0, 0, 2⟩) 0.0 0.0 1 1
          default_p_scale).1 (int_mul 1 1) = (100, 219) ∧
    (scan_min_max
        (get_noise_set_2d sample_library (set_offset new ⟨0, 0, 2⟩) 0.0 0.0 1 1
          default_p_scale).1 (int_mul 1 1)).1
      ≠ (get_noise_set_2d sample_library (set_offset new ⟨0, 0, 2⟩) 0.0 0.0 1 1
          default_p_scale).1.data 0 := by
  have hcfg : (set_offset new ⟨0, 0, 2⟩)._noise.config.length = 19 := rfl
  have hd : (get_noise_set_2d sample_library (set_offset new ⟨0, 0, 2⟩) 0.0 0.0 1 1
        default_p_scale).1.data 0 = 219 := by
    rw [get_noise_set_2d_eq]
    show sample_library.samples _ _ 0 = 219
    have e := sample_library_row (set_offset new ⟨0, 0, 2⟩)._noise.config
      (float_add (int_to_float 0) (set_offset new ⟨0, 0, 2⟩)._offset.x)
      (float_add (int_to_float 0) (set_offset new ⟨0, 0, 2⟩)._offset.y)
      (float_add (int_to_float 0) (set_offset new ⟨0, 0, 2⟩)._offset.z)
      (if default_p_scale = 0 then (set_offset new ⟨0, 0, 2⟩)._scale else default_p_scale)
      1 1 0
    simp only [Int.cast_one] at e ⊢
    rw [e, hcfg]
    simp [default_p_scale, float_zero, set_offset, emit_changed, new_scale, int_to_float_zero,
      float_add_zero_zero, float_add_zero_small.2.1]
    norm_num
  have hc : int_mul 1 1 = 1 := by decide
  have hscan : scan_min_max
        (get_noise_set_2d sample_library (set_offset new ⟨0, 0, 2⟩) 0.0 0.0 1 1
          default_p_scale).1 (int_mul 1 1) = (100, 219) := by
    rw [hc]
    unfold scan_min_max
    have e : (List.range (1 : Int).toNat) = [0] := by decide
    rw [e]
    simp only [List.foldl_cons, List.foldl_nil, scan_step, hd]
    norm_num
  refine ⟨hd, hscan, ?_⟩
  rw [hscan, hd]
  norm_num

/-! ### Writing the pixels -/

theorem write_byte_some (wd8 : List Nat) (i : Nat) (v : Nat) (h : i < wd8.length) :
    write_byte wd8 (i : Int) v = some (wd8.set i v) := by
  unfold write_byte
  rw [if_pos ⟨Int.natCast_nonneg i, by exact_mod_cast h⟩]
  simp

theorem pixel_index (x c : Nat) (hc : c ≤ 3) (h : 4 * x + 3 < 2147483648) :
    int_add (int_mul x 4) c = ((4 * x + c : Nat) : Int) := by
  unfold int_add int_mul
  rw [int_wrap_eq ((x : Int) * 4) (by omega) (by omega)]
  rw [int_wrap_eq _ (by omega) (by omega)]
  push_cast
  ring

theorem write_pixel_eq (ns : NoiseSet) (min_val max_val : float) (p_invert : Bool)
    (wd8 : List Nat) (x : Nat) (hx : 4 * x + 3 < wd8.length)
    (hL : wd8.length ≤ 2147483648) :
    write_pixel ns min_val max_val p_invert wd8 x
      = some ((((wd8.set (4 * x) (grey_byte (ns.data x) min_val max_val p_invert)).set
          (4 * x + 1) (grey_byte (ns.data x) min_val max_val p_invert)).set
          (4 * x + 2) (grey_byte (ns.data x) min_val max_val p_invert)).set
          (4 * x + 3) 255) := by
  have h3 : 4 * x + 3 < 2147483648 := by omega
  have i0 := pixel_index x 0 (by omega) h3
  have i1 := pixel_index x 1 (by omega) h3
  have i2 := pixel_index x 2 (by omega) h3
  have i3 := pixel_index x 3 (by omega) h3
  simp only [Nat.cast_zero, Nat.cast_one, Nat.cast_ofNat] at i0 i1 i2 i3
  generalize hg : grey_byte (ns.data x) min_val max_val p_invert = g
  have w0 : write_byte wd8 ((4 * x + 0 : Nat) : Int) g = some (wd8.set (4 * x) g) :=
    write_byte_some wd8 (4 * x + 0) g (by omega)
  have w1 : write_byte (wd8.set (4 * x) g) ((4 * x + 1 : Nat) : Int) g
      = some ((wd8.set (4 * x) g).set (4 * x + 1) g) :=
    write_byte_some _ (4 * x + 1) g (by rw [List.length_set]; omega)
  have w2 : write_byte ((wd8.set (4 * x) g).set (4 * x + 1) g) ((4 * x + 2 : Nat) : Int) g
      = some (((wd8.set (4 * x) g).set (4 * x + 1) g).set (4 * x + 2) g) :=
    write_byte_some _ (4 * x + 2) g (by rw [List.length_set, List.length_set]; omega)
  have w3 : write_byte (((wd8.set (4 * x) g).set (4 * x + 1) g).set (4 * x + 2) g)
      ((4 * x + 3 : Nat) : Int) 255
      = some ((((wd8.set (4 * x) g).set (4 * x + 1) g).set (4 * x + 2) g).set (4 * x + 3) 255) :=
    write_byte_some _ (4 * x + 3) 255
      (by rw [List.length_set, List.length_set, List.length_set]; omega)
  have hwp : write_pixel ns min_val max_val p_invert wd8 x
      = (write_byte wd8 (int_add (int_mul x 4) 0) g).bind fun wd8 =>
        (write_byte wd8 (int_add (int_mul x 4) 1) g).bind fun wd8 =>
        (write_byte wd8 (int_add (int_mul x 4) 2) g).bind fun wd8 =>
        write_byte wd8 (int_add (int_mul x 4) 3) 255 := by
    rw [← hg]
    rfl
  rw [hwp, i0, i1, i2, i3, w0, Option.some_bind, w1, Option.some_bind, w2, Option.some_bind, w3]

theorem pixel_untouched (out : List Nat) (n g j : Nat) (hj : j < 4 * n ∨ 4 * n + 4 ≤ j) :
    ((((out.set (4 * n) g).set (4 * n + 1) g).set (4 * n + 2) g).set (4 * n + 3) 255)[j]?
      = out[j]? := by
  have h0 : 4 * n ≠ j := by omega
  have h1 : 4 * n + 1 ≠ j := by omega
  have h2 : 4 * n + 2 ≠ j := by omega
  have h3 : 4 * n + 3 ≠ j := by omega
  rw [List.getElem?_set_ne h3, List.getElem?_set_ne h2, List.getElem?_set_ne h1,
    List.getElem?_set_ne h0]

theorem pixel_written (out : List Nat) (n g : Nat) (h : 4 * n + 3 < out.length) :
    ((((out.set (4 * n) g).set (4 * n + 1) g).set (4 * n + 2) g).set (4 * n + 3) 255)[4 * n]?
      = some g ∧
    ((((out.set (4 * n) g).set (4 * n + 1) g).set (4 * n + 2) g).set (4 * n + 3)
      255)[4 * n + 1]? = some g ∧
    ((((out.set (4 * n) g).set (4 * n + 1) g).set (4 * n + 2) g).set (4 * n + 3)
      255)[4 * n + 2]? = some g ∧
    ((((out.set (4 * n) g).set (4 * n + 1) g).set (4 * n + 2) g).set (4 * n + 3)
      255)[4 * n + 3]? = some 255 := by
  have a01 : 4 * n + 1 ≠ 4 * n := by omega
  have a02 : 4 * n + 2 ≠ 4 * n := by omega
  have a03 : 4 * n + 3 ≠ 4 * n := by omega
  have a12 : 4 * n + 2 ≠ 4 * n + 1 := by omega
  have a13 : 4 * n + 3 ≠ 4 * n + 1 := by omega
  have a23 : 4 * n + 3 ≠ 4 * n + 2 := by omega
  have l0 : 4 * n < out.length := by omega
  have l1 : 4 * n + 1 < (out.set (4 * n) g).length := by
    rw [List.length_set]; omega
  have l2 : 4 * n + 2 < ((out.set (4 * n) g).set (4 * n + 1) g).length := by
    rw [List.length_set, List.length_set]; omega
  have l3 : 4 * n + 3
      < (((out.set (4 * n) g).set (4 * n + 1) g).set (4 * n + 2) g).length := by
    rw [List.length_set, List.length_set, List.length_set]; omega
  refine ⟨?_, ?_, ?_, ?_⟩
  · rw [List.getElem?_set_ne a03, List.getElem?_set_ne a02, List.getElem?_set_ne a01,
      List.getElem?_set_self l0]
  · rw [List.getElem?_set_ne a13, List.getElem?_set_ne a12, List.getElem?_set_self l1]
  · rw [List.getElem?_set_ne a23, List.getElem?_set_self l2]
  · rw [List.getElem?_set_self l3]

theorem foldlM_range_succ (f : List Nat → Nat → Option (List Nat)) (wd8 out : List Nat)
    (n : Nat) (h : (List.range n).foldlM f wd8 = some out) :
    (List.range (n + 1)).foldlM f wd8 = f out n := by
  rw [List.range_succ, List.foldlM_append, h]
  simp

/-- The second loop after `n` passes on a vector with room for them: it has written the four
bytes of each of the first `n` pixels and nothing else. -/
theorem write_loop_spec (ns : NoiseSet) (min_val max_val : float) (p_invert : Bool)
    (wd8 : List Nat) (hL : wd8.length ≤ 2147483648) (n : Nat) (hn : 4 * n ≤ wd8.length) :
    ∃ out, (List.range n).foldlM (write_pixel ns min_val max_val p_invert) wd8 = some out ∧
      out.length = wd8.length ∧
      (∀ i, i < n →
        out[4 * i]? = some (grey_byte (ns.data i) min_val max_val p_invert) ∧
        out[4 * i + 1]? = some (grey_byte (ns.data i) min_val max_val p_invert) ∧
        out[4 * i + 2]? = some (grey_byte (ns.data i) min_val max_val p_invert) ∧
        out[4 * i + 3]? = some 255) ∧
      (∀ j, 4 * n ≤ j → out[j]? = wd8[j]?) := by
  induction n with
  | zero =>
    exact ⟨wd8, rfl, rfl, fun i hi => absurd hi (Nat.not_lt_zero i), fun j _ => rfl⟩
  | succ n ih =>
    have hn' : 4 * n ≤ wd8.length := by omega
    obtain ⟨out, hout, hlen, hpix, hrest⟩ := ih hn'
    have hx : 4 * n + 3 < out.length := by omega
    have hL' : out.length ≤ 2147483648 := by omega
    refine ⟨(((out.set (4 * n) (grey_byte (ns.data n) min_val max_val p_invert)).set
        (4 * n + 1) (grey_byte (ns.data n) min_val max_val p_invert)).set
        (4 * n + 2) (grey_byte (ns.data n) min_val max_val p_invert)).set
        (4 * n + 3) 255, ?_, ?_, ?_, ?_⟩
    · rw [foldlM_range_succ _ wd8 out n hout,
        write_pixel_eq ns min_val max_val p_invert out n hx hL']
    · rw [List.length_set, List.length_set, List.length_set, List.length_set, hlen]
    · intro i hi
      rcases Nat.lt_succ_iff_lt_or_eq.mp hi with h | h
      · obtain ⟨a, b, c, d⟩ := hpix i h
        have u0 := pixel_untouched out n (grey_byte (ns.data n) min_val max_val p_invert)
          (4 * i) (Or.inl (by omega))
        have u1 := pixel_untouched out n (grey_byte (ns.data n) min_val max_val p_invert)
          (4 * i + 1) (Or.inl (by omega))
        have u2 := pixel_untouched out n (grey_byte (ns.data n) min_val max_val p_invert)
          (4 * i + 2) (Or.inl (by omega))
        have u3 := pixel_untouched out n (grey_byte (ns.data n) min_val max_val p_invert)
          (4 * i + 3) (Or.inl (by omega))
        exact ⟨u0.trans a, u1.trans b, u2.trans c, u3.trans d⟩
      · rw [h]
        exact pixel_written out n _ hx
    · intro j hj
      have u := pixel_untouched out n (grey_byte (ns.data n) min_val max_val p_invert) j
        (Or.inr (by omega))
      exact u.trans (hrest j (by omega))

/-! ### Grey levels -/

theorem float_trunc_mono (a b : float) (h : a ≤ b) : float_trunc a ≤ float_trunc b := by
  unfold float_trunc
  by_cases ha : 0 ≤ a
  · have hb : 0 ≤ b := le_trans ha h
    rw [if_pos ha, if_pos hb]
    exact Int.floor_mono h
  · rw [if_neg ha]
    by_cases hb : 0 ≤ b
    · rw [if_pos hb]
      have h1 : Int.ceil a ≤ 0 := Int.ceil_le.mpr (by simpa using le_of_lt (not_le.mp ha))
      have h2 : 0 ≤ Int.floor b := Int.floor_nonneg.mpr hb
      exact le_trans h1 h2
    · rw [if_neg hb]
      exact Int.ceil_mono h

/-- The `float` expression `(v - min_val) / (max_val - min_val) * 255.f` is monotone in `v`. -/
theorem grey_value_mono (v w min_val max_val : float) (hlt : min_val < max_val) (h : v ≤ w) :
    float_mul (float_div (float_sub v min_val) (float_sub max_val min_val)) 255
      ≤ float_mul (float_div (float_sub w min_val) (float_sub max_val min_val)) 255 := by
  have hd : 0 < float_sub max_val min_val := float_round_pos _ (sub_pos.mpr hlt)
  have hs : float_sub v min_val ≤ float_sub w min_val :=
    float_round_mono _ _ (by linarith)
  have hq : float_div (float_sub v min_val) (float_sub max_val min_val)
      ≤ float_div (float_sub w min_val) (float_sub max_val min_val) :=
    float_round_mono _ _ (div_le_div_of_nonneg_right hs (le_of_lt hd))
  exact float_round_mono _ _ (mul_le_mul_of_nonneg_right hq (by norm_num))

theorem grey_value_min (min_val max_val : float) :
    float_mul (float_div (float_sub min_val min_val) (float_sub max_val min_val)) 255 = 0 := by
  unfold float_mul float_div float_sub
  rw [sub_self, float_round_zero, zero_div, float_round_zero, zero_mul, float_round_zero]

theorem grey_value_max (min_val max_val : float) (hlt : min_val < max_val) :
    float_mul (float_div (float_sub max_val min_val) (float_sub max_val min_val)) 255
      = 255 := by
  have hd : 0 < float_sub max_val min_val := float_round_pos _ (sub_pos.mpr hlt)
  have h1 : float_round 1 = 1 := by
    simpa using float_round_intCast 1 (by norm_num) (by norm_num)
  have h255 : float_round 255 = 255 := by
    simpa using float_round_intCast 255 (by norm_num) (by norm_num)
  unfold float_mul float_div
  rw [div_self (ne_of_gt hd), h1, one_mul, h255]

theorem grey_value_range (v min_val max_val : float) (hlt : min_val < max_val)
    (h1 : min_val ≤ v) (h2 : v ≤ max_val) :
    0 ≤ float_mul (float_div (float_sub v min_val) (float_sub max_val min_val)) 255 ∧
    float_mul (float_div (float_sub v min_val) (float_sub max_val min_val)) 255 ≤ 255 := by
  have m1 := grey_value_mono min_val v min_val max_val hlt h1
  have m2 := grey_value_mono v max_val min_val max_val hlt h2
  rw [grey_value_min] at m1
  rw [grey_value_max min_val max_val hlt] at m2
  exact ⟨m1, m2⟩

/-- For a sample between `min_val` and `max_val` the conversion to `int` is the integer part
of the `float` grey value, which lies between 0 and 255. -/
theorem grey_level_eq (v min_val max_val : float) (hlt : min_val < max_val)
    (h1 : min_val ≤ v) (h2 : v ≤ max_val) :
    grey_level v min_val max_val
      = float_trunc (float_mul (float_div (float_sub v min_val) (float_sub max_val min_val))
          255) ∧
    0 ≤ grey_level v min_val max_val ∧ grey_level v min_val max_val ≤ 255 := by
  obtain ⟨a, b⟩ := grey_value_range v min_val max_val hlt h1 h2
  have t0 : float_trunc 0 = 0 := by simpa using float_trunc_intCast 0
  have t255 : float_trunc 255 = 255 := by simpa using float_trunc_intCast 255
  have ta := float_trunc_mono _ _ a
  have tb := float_trunc_mono _ _ b
  rw [t0] at ta
  rw [t255] at tb
  have e : grey_level v min_val max_val
      = float_trunc (float_mul (float_div (float_sub v min_val) (float_sub max_val min_val))
          255) := by
    unfold grey_level
    exact float_to_int_of_range _ (by omega) (by omega)
  rw [e]
  exact ⟨rfl, ta, tb⟩

theorem grey_level_max (min_val max_val : float) (hlt : min_val < max_val) :
    grey_level max_val min_val max_val = 255 := by
  unfold grey_level
  rw [grey_value_max min_val max_val hlt]
  simpa using float_to_int_intCast 255 (by norm_num) (by norm_num)

theorem grey_level_range (v min_val max_val : float) (hlt : min_val < max_val)
    (h1 : min_val ≤ v) (h2 : v ≤ max_val) :
    0 ≤ grey_level v min_val max_val ∧ grey_level v min_val max_val ≤ 255 :=
  (grey_level_eq v min_val max_val hlt h1 h2).2

theorem grey_byte_eq (v min_val max_val : float) (hlt : min_val < max_val)
    (h1 : min_val ≤ v) (h2 : v ≤ max_val) :
    grey_byte v min_val max_val false = (grey_level v min_val max_val).toNat ∧
    grey_byte v min_val max_val true = 255 - (grey_level v min_val max_val).toNat := by
  obtain ⟨a, b⟩ := grey_level_range v min_val max_val hlt h1 h2
  have e : float_to_uint8
        (float_mul (float_div (float_sub v min_val) (float_sub max_val min_val)) 255)
      = (grey_level v min_val max_val).toNat := by
    unfold float_to_uint8 int_to_uint8
    show (grey_level v min_val max_val % 256).toNat = _
    rw [Int.emod_eq_of_lt a (by omega)]
  constructor
  · unfold grey_byte
    simp only [e]
    rfl
  · unfold grey_byte
    simp only [e, if_true]
    unfold int_to_uint8
    omega

/-! ### The method `get_image` -/

theorem image_set_eq (lib : NoiseLibrary) (s : State) (p_width p_height : Int) :
    get_noise_set_2d lib s 0.0 0.0 p_height p_width default_p_scale
      = (image_noise_set lib s p_width p_height,
         { s with
           _noise := ⟨s._noise.calls ++
              [LibCall.GetNoiseSet (image_request s p_width p_height) s._noise.fresh]⟩
           _allocated_sets := s._allocated_sets ++ [s._noise.fresh] }) := by
  rw [get_noise_set_2d_eq]
  simp [image_noise_set, image_request, default_p_scale, float_zero]

theorem get_image_unfold (lib : NoiseLibrary) (uninit : Nat → Nat) (s : State)
    (p_width p_height : Int) (p_invert : Bool) :
    get_image lib uninit s p_width p_height p_invert
      = match normalize_and_write (image_noise_set lib s p_width p_height)
            (scan_min_max (image_noise_set lib s p_width p_height)
              (int_mul p_width p_height)).1
            (scan_min_max (image_noise_set lib s p_width p_height)
              (int_mul p_width p_height)).2
            p_invert (int_mul p_width p_height)
            (resize_bytes uninit (int_mul (int_mul p_width p_height) 4)) with
        | none =>
          (none, { s with
            _noise := ⟨s._noise.calls ++
              [LibCall.GetNoiseSet (image_request s p_width p_height) s._noise.fresh]⟩
            _allocated_sets := s._allocated_sets ++ [s._noise.fresh] })
        | some data =>
          (some ⟨p_width, p_height, data⟩, { s with
            _noise := ⟨s._noise.calls ++
              [LibCall.GetNoiseSet (image_request s p_width p_height) s._noise.fresh,
               LibCall.FreeNoiseSet s._noise.fresh]⟩
            _allocated_sets := (s._allocated_sets ++ [s._noise.fresh]).erase s._noise.fresh }) := by
  unfold get_image
  simp only [image_set_eq]
  cases normalize_and_write (image_noise_set lib s p_width p_height)
            (scan_min_max (image_noise_set lib s p_width p_height)
              (int_mul p_width p_height)).1
            (scan_min_max (image_noise_set lib s p_width p_height)
              (int_mul p_width p_height)).2
            p_invert (int_mul p_width p_height)
            (resize_bytes uninit (int_mul (int_mul p_width p_height) 4)) with
  | none => rfl
  | some data =>
    simp [free_noise_set, _FastNoiseSIMD.call, image_noise_set]

theorem image_sizes (p_width p_height : Int) (hw : 0 ≤ p_width) (hh : 0 ≤ p_height)
    (hfit : p_width * p_height * 4 < 2147483648) :
    int_mul p_width p_height = p_width * p_height ∧
    int_mul (int_mul p_width p_height) 4 = p_width * p_height * 4 ∧
    0 ≤ p_width * p_height := by
  have h0 : 0 ≤ p_width * p_height := Int.mul_nonneg hw hh
  have e1 : int_mul p_width p_height = p_width * p_height := by
    unfold int_mul
    exact int_wrap_eq _ (by omega) (by omega)
  refine ⟨e1, ?_, h0⟩
  rw [e1]
  unfold int_mul
  exact int_wrap_eq _ (by omega) (by omega)

theorem resize_bytes_length (uninit : Nat → Nat) (size : Int) (h : 0 ≤ size) :
    (resize_bytes uninit size).length = size.toNat := by
  unfold resize_bytes
  rw [if_neg (by omega)]
  simp

/-- With room for every pixel and `max_val` above `min_val`, `get_image` returns an image
whose data has four bytes per sample: the grey byte of the sample three times, then 255. -/
theorem get_image_written (lib : NoiseLibrary) (uninit : Nat → Nat) (s : State)
    (p_width p_height : Int) (p_invert : Bool)
    (hw : 0 ≤ p_width) (hh : 0 ≤ p_height) (hfit : p_width * p_height * 4 < 2147483648)
    (min_val max_val : float)
    (hscan : scan_min_max (image_noise_set lib s p_width p_height)
      (int_mul p_width p_height) = (min_val, max_val))
    (hne : max_val ≠ min_val) :
    ∃ data, (get_image lib uninit s p_width p_height p_invert).1
        = some ⟨p_width, p_height, data⟩ ∧
      data.length = 4 * (p_width * p_height).toNat ∧
      ∀ i, i < (p_width * p_height).toNat →
        data[4 * i]? = some (grey_byte ((image_noise_set lib s p_width p_height).data i)
          min_val max_val p_invert) ∧
        data[4 * i + 1]? = some (grey_byte ((image_noise_set lib s p_width p_height).data i)
          min_val max_val p_invert) ∧
        data[4 * i + 2]? = some (grey_byte ((image_noise_set lib s p_width p_height).data i)
          min_val max_val p_invert) ∧
        data[4 * i + 3]? = some 255 := by
  obtain ⟨e1, e2, h0⟩ := image_sizes p_width p_height hw hh hfit
  have hlen : (resize_bytes uninit (p_width * p_height * 4)).length
      = 4 * (p_width * p_height).toNat := by
    rw [resize_bytes_length _ _ (by omega)]
    omega
  obtain ⟨out, hout, holen, hpix, _⟩ := write_loop_spec
    (image_noise_set lib s p_width p_height) min_val max_val p_invert
    (resize_bytes uninit (p_width * p_height * 4)) (by rw [hlen]; omega)
    (p_width * p_height).toNat (by rw [hlen])
  refine ⟨out, ?_, by rw [holen, hlen], hpix⟩
  rw [get_image_unfold, e2, hscan, e1]
  simp only [normalize_and_write, if_pos hne, hout]

theorem image_sample_new (p_width p_height : Int) (n : Nat) :
    (image_noise_set sample_library new p_width p_height).data n
      = ((n / p_width.toNat : Nat) : float) + 100 * ((n % p_width.toNat : Nat) : float)
        + 19 := by
  show sample_library.samples new._noise.config (image_request new p_width p_height) n = _
  unfold image_request
  rw [new_offset, new_scale, sample_library_row, config_length_new]
  simp [Nat.mod_one, int_to_float_zero, float_add_zero_zero]

theorem scan_all_equal (ns : NoiseSet) (n : Nat) (c : float) (hn : 1 ≤ n)
    (hall : ∀ i, i < n → ns.data i = c) (h1 : -100 ≤ c) (h2 : c ≤ 100) :
    (List.range n).foldl (scan_step ns) (100, -100) = (c, c) := by
  obtain ⟨_, _, _, hmin, hmax⟩ := scan_spec ns n
  obtain ⟨tmin, tmax⟩ := scan_true_min_max ns n
  obtain ⟨i, hi, ei⟩ := tmin ⟨0, hn, by rw [hall 0 hn]; exact h2⟩
  obtain ⟨j, hj, ej⟩ := tmax ⟨0, hn, by rw [hall 0 hn]; exact h1⟩
  rw [hall i hi] at ei
  rw [hall j hj] at ej
  exact Prod.ext ei.symm ej.symm

/-- When `max_val` equals `min_val` after the scan, `get_image` writes no byte of the
pixel data, neither a grey channel nor the alpha byte: the image's data is what the byte
vector held right after `resize`, whatever the samples and whatever `p_invert`.  A buffer of
at least one sample whose samples all equal a value between -100 and 100 is such a case. -/
theorem equal_scan_writes_nothing (lib : NoiseLibrary) (uninit : Nat → Nat) (s : State)
    (p_width p_height : Int) (p_invert : Bool) :
    ((scan_min_max (image_noise_set lib s p_width p_height) (int_mul p_width p_height)).2
        = (scan_min_max (image_noise_set lib s p_width p_height) (int_mul p_width p_height)).1 →
      (get_image lib uninit s p_width p_height p_invert).1
        = some ⟨p_width, p_height,
            resize_bytes uninit (int_mul (int_mul p_width p_height) 4)⟩) ∧
    (∀ c : float, 1 ≤ int_mul p_width p_height →
      (∀ i, i < (int_mul p_width p_height).toNat →
        (image_noise_set lib s p_width p_height).data i = c) →
      -100 ≤ c → c ≤ 100 →
      (scan_min_max (image_noise_set lib s p_width p_height) (int_mul p_width p_height)).2
        = (scan_min_max (image_noise_set lib s p_width p_height) (int_mul p_width p_height)).1 ∧
      (get_image lib uninit s p_width p_height p_invert).1
        = some ⟨p_width, p_height,
            resize_bytes uninit (int_mul (int_mul p_width p_height) 4)⟩) := by
  have key : (scan_min_max (image_noise_set lib s p_width p_height)
        (int_mul p_width p_height)).2
        = (scan_min_max (image_noise_set lib s p_width p_height) (int_mul p_width p_height)).1 →
      (get_image lib uninit s p_width p_height p_invert).1
        = some ⟨p_width, p_height,
            resize_bytes uninit (int_mul (int_mul p_width p_height) 4)⟩ := by
    intro h
    rw [get_image_unfold]
    simp only [normalize_and_write, h, ne_eq, not_true_eq_false, if_false]
  refine ⟨key, ?_⟩
  intro c hcount hall h1 h2
  have hs : scan_min_max (image_noise_set lib s p_width p_height) (int_mul p_width p_height)
      = (c, c) := by
    unfold scan_min_max
    exact scan_all_equal _ _ c (by omega) hall h1 h2
  have hmm : (scan_min_max (image_noise_set lib s p_width p_height)
        (int_mul p_width p_height)).2
        = (scan_min_max (image_noise_set lib s p_width p_height)
            (int_mul p_width p_height)).1 := by
    rw [hs]
  exact ⟨hmm, key hmm⟩

/-- On the constructor's state with the sample library the one sample of
`get_image(1, 1)` is 19, and the four bytes of the image are the four bytes the vector held
after `resize`. -/
theorem equal_scan_writes_nothing_new :
    (get_image sample_library (fun i => i + 1) new 1 1 true).1
      = some ⟨1, 1, resize_bytes (fun i => i + 1) (int_mul (int_mul 1 1) 4)⟩ :=
  ((equal_scan_writes_nothing sample_library (fun i => i + 1) new 1 1 true).2 19
    (by decide)
    (fun i hi => by
      have h1 : (int_mul 1 1).toNat = 1 := by decide
      rw [h1] at hi
      rw [image_sample_new]
      interval_cases i
      norm_num)
    (by norm_num) (by norm_num)).2

/-! ### Equal samples outside the range of the initial `min_val` / `max_val` -/

theorem image_sample_offset_2 :
    (image_noise_set sample_library (set_offset new ⟨0, 0, 2⟩) 1 1).data 0 = 219 := by
  have hcfg : (set_offset new ⟨0, 0, 2⟩)._noise.config.length = 19 := rfl
  show sample_library.samples (set_offset new ⟨0, 0, 2⟩)._noise.config
    (image_request (set_offset new ⟨0, 0, 2⟩) 1 1) 0 = _
  unfold image_request
  rw [sample_library_row, hcfg]
  simp [set_offset, emit_changed, new_scale, int_to_float_zero, float_add_zero_zero,
    float_add_zero_small.2.1]
  norm_num

theorem image_scan_offset_2 :
    scan_min_max (image_noise_set sample_library (set_offset new ⟨0, 0, 2⟩) 1 1)
      (int_mul 1 1) = (100, 219) := by
  have hc : int_mul 1 1 = 1 := by decide
  have e : (List.range (1 : Int).toNat) = [0] := by decide
  rw [hc]
  unfold scan_min_max
  rw [e]
  simp only [List.foldl_cons, List.foldl_nil, scan_step, image_sample_offset_2]
  norm_num

/-- C15 at a failing input: with the offset `(0, 0, 2)` the buffer of `get_image(1, 1)` holds
the single sample 219 (sample library), so all its samples are equal.  The scan ends with
`min_val = 100` and `max_val = 219`, the guard `max_val != min_val` passes, and the four
bytes of the image are written (`255, 255, 255, 255`) over what the vector held after
`resize` (`7, 7, 7, 7`). -/
theorem C15_equal_samples_above_100_written :
    (∀ i, i < (int_mul 1 1).toNat →
      (image_noise_set sample_library (set_offset new ⟨0, 0, 2⟩) 1 1).data i = 219) ∧
    scan_min_max (image_noise_set sample_library (set_offset new ⟨0, 0, 2⟩) 1 1)
      (int_mul 1 1) = (100, 219) ∧
    (get_image sample_library (fun _ => 7) (set_offset new ⟨0, 0, 2⟩) 1 1 false).1
      = some ⟨1, 1, [255, 255, 255, 255]⟩ ∧
    resize_bytes (fun _ => 7) (int_mul (int_mul 1 1) 4) = [7, 7, 7, 7] := by
  have h1 : (int_mul 1 1).toNat = 1 := by decide
  refine ⟨?_, image_scan_offset_2, ?_, by decide⟩
  · intro i hi
    rw [h1] at hi
    interval_cases i
    exact image_sample_offset_2
  · obtain ⟨data, hd, hlen, hpix⟩ := get_image_written sample_library (fun _ => 7)
      (set_offset new ⟨0, 0, 2⟩) 1 1 false (by decide) (by decide) (by decide) 100 219
      image_scan_offset_2 (by norm_num)
    have t1 : ((1 : Int) * 1).toNat = 1 := by decide
    rw [t1] at hlen hpix
    obtain ⟨p0, p1, p2, p3⟩ := hpix 0 (by decide)
    have g : grey_byte ((image_noise_set sample_library (set_offset new ⟨0, 0, 2⟩) 1 1).data 0)
        100 219 false = 255 := by
      rw [image_sample_offset_2,
        (grey_byte_eq 219 100 219 (by norm_num) (by norm_num) (by norm_num)).1,
        grey_level_max 100 219 (by norm_num)]
      rfl
    rw [g] at p0 p1 p2
    rw [hd]
    rcases data with _ | ⟨a, _ | ⟨b, _ | ⟨c, _ | ⟨d, _ | ⟨e, t⟩⟩⟩⟩⟩
    · simp at hlen
    · simp at hlen
    · simp at hlen
    · simp at hlen
    · simp at p0 p1 p2 p3
      rw [p0, p1, p2, p3]
    · simp at hlen

/-! ### Bounds of the accesses in `get_image` -/

theorem float_to_int_4097 : float_to_int 4097 = 4097 ∧ float_to_int 1 = 1 :=
  ⟨by simpa using float_to_int_intCast 4097 (by norm_num) (by norm_num),
   by simpa using float_to_int_intCast 1 (by norm_num) (by norm_num)⟩

/-- C18 at a failing input: for the size `(4097, 4097, 1)` `get_empty_set_3dv` asks the
library for a buffer of 16785408 elements, the `float` product `4097 * 4097` being rounded to
16785408, and `fill_noise_set_3dv` with that buffer and the same size asks the library to
fill a region of extents `(4097, 4097, 1)`, which has `4097 * 4097 * 1 = 16785409`
elements, one more than the buffer holds. -/
theorem C18_empty_set_smaller_than_filled_region :
    (get_empty_set_3dv new ⟨4097, 4097, 1⟩).2._noise.calls
      = new._noise.calls ++ [LibCall.GetEmptySet 16785408 new._noise.fresh] ∧
    (get_empty_set_3dv new ⟨4097, 4097, 1⟩).1 = new._noise.fresh ∧
    (∃ r, last_request (fill_noise_set_3dv (get_empty_set_3dv new ⟨4097, 4097, 1⟩).2
          (get_empty_set_3dv new ⟨4097, 4097, 1⟩).1 ⟨0, 0, 0⟩ ⟨4097, 4097, 1⟩ 0)._noise
        = some r ∧
      r.sizes = ⟨4097, 4097, 1⟩ ∧
      r.element_count = 16785409 ∧
      (16785408 : Int) < r.element_count) := by
  have hcalls : (get_empty_set_3dv new ⟨4097, 4097, 1⟩).2._noise.calls
      = new._noise.calls ++ [LibCall.GetEmptySet 16785408 new._noise.fresh] := by
    unfold get_empty_set_3dv
    rw [get_empty_set_eq]
    simp only [float_mul_4097.2, float_to_int_16785408]
  have hset : (get_empty_set_3dv new ⟨4097, 4097, 1⟩).1 = new._noise.fresh := by
    unfold get_empty_set_3dv
    rw [get_empty_set_eq]
  have hr : ∀ (s : State) (p_set : Nat),
      ∃ r, last_request (fill_noise_set_3dv s p_set ⟨0, 0, 0⟩ ⟨4097, 4097, 1⟩ 0)._noise
          = some r ∧
        r.sizes = ⟨4097, 4097, 1⟩ ∧ r.element_count = 16785409 := by
    intro s p_set
    have hreq : last_request
          (fill_noise_set_3dv s p_set ⟨0, 0, 0⟩ ⟨4097, 4097, 1⟩ 0)._noise
        = some ⟨float_add (int_to_float (float_to_int 0)) s._offset.x,
            float_add (int_to_float (float_to_int 0)) s._offset.y,
            float_add (int_to_float (float_to_int 0)) s._offset.z,
            ((4097 : Int) : float), ((4097 : Int) : float), ((1 : Int) : float),
            if (0 : float) = 0 then s._scale else 0⟩ := by
      unfold fill_noise_set_3dv
      rw [fill_noise_set_3d_request, float_to_int_4097.1, float_to_int_4097.2]
    have h1 : float_to_int ((4097 : Int) : float) = 4097 :=
      float_to_int_intCast 4097 (by norm_num) (by norm_num)
    have h2 : float_to_int ((1 : Int) : float) = 1 :=
      float_to_int_intCast 1 (by norm_num) (by norm_num)
    refine ⟨_, hreq, ?_, ?_⟩
    · simp [NoiseSetRequest.sizes]
    · unfold NoiseSetRequest.element_count
      simp only [h1, h2]
      norm_num
  obtain ⟨r, h1, h2, h3⟩ := hr (get_empty_set_3dv new ⟨4097, 4097, 1⟩).2
    (get_empty_set_3dv new ⟨4097, 4097, 1⟩).1
  exact ⟨hcalls, hset, r, h1, h2, h3, by rw [h3]; norm_num⟩

/-! ### The copy of the script bindings -/

theorem float_mul_three_halves :
    float_mul (3 / 2) (3 / 2) = 9 / 4 ∧ float_mul (float_mul (3 / 2) (3 / 2)) 1 = 9 / 4 := by
  have h : float_round (9 / 4) = 9 / 4 := by
    have h := float_round_dyadic 9 (-2) (by norm_num) (by norm_num)
    norm_num at h
    exact h
  have h1 : float_mul (3 / 2) (3 / 2) = 9 / 4 := by
    unfold float_mul
    have e : (3 / 2 : ℚ) * (3 / 2) = 9 / 4 := by norm_num
    rw [e]
    exact h
  refine ⟨h1, ?_⟩
  rw [h1]
  unfold float_mul
  rw [mul_one]
  exact h

/-- C19 at a failing input: `_b_get_noise_set_3dv` with the size `(3/2, 3/2, 1)` requests a
region of `1 * 1 * 1 = 1` element and copies `trunc(9/4) = 2` floats out of the buffer (the
`float` product `3/2 * 3/2 * 1 = 9/4` is exact);
`_b_get_noise_set_2dv` with the size `(3/2, 3/2)` does the same. -/
theorem C19_copy_exceeds_requested_region :
    (∃ pv r, (_b_get_noise_set_3dv sample_library new ⟨0, 0, 0⟩ ⟨3 / 2, 3 / 2, 1⟩ 0).1
        = some pv ∧
      last_request (_b_get_noise_set_3dv sample_library new ⟨0, 0, 0⟩
        ⟨3 / 2, 3 / 2, 1⟩ 0).2._noise = some r ∧
      pv.length = 2 ∧ r.element_count = 1) ∧
    (∃ pv r, (_b_get_noise_set_2dv sample_library new ⟨0, 0⟩ ⟨3 / 2, 3 / 2⟩ 0).1 = some pv ∧
      last_request (_b_get_noise_set_2dv sample_library new ⟨0, 0⟩
        ⟨3 / 2, 3 / 2⟩ 0).2._noise = some r ∧
      pv.length = 2 ∧ r.element_count = 1) := by
  have t32 : float_to_int (3 / 2) = 1 :=
    float_to_int_eq _ 1 (by norm_num) (by norm_num) (by norm_num) (by norm_num) (by norm_num)
  have t1 : float_to_int 1 = 1 := float_to_int_4097.2
  have t94 : float_to_int (9 / 4) = 2 :=
    float_to_int_eq _ 2 (by norm_num) (by norm_num) (by norm_num) (by norm_num) (by norm_num)
  have t3 : float_to_int (float_mul (float_mul (3 / 2) (3 / 2)) 1) = 2 := by
    rw [float_mul_three_halves.2]
    exact t94
  have t2 : float_to_int (float_mul (3 / 2) (3 / 2)) = 2 := by
    rw [float_mul_three_halves.1]
    exact t94
  constructor
  · refine ⟨(List.range 2).map (sample_library.samples new._noise.config
        (b_3dv_request new ⟨0, 0, 0⟩ ⟨3 / 2, 3 / 2, 1⟩ 0)), _, ?_,
      b_get_noise_set_3dv_request _ _ _ _ _, ?_, ?_⟩
    · rw [b_get_noise_set_3dv_eq]
      simp only [t3]
      rfl
    · rfl
    · unfold NoiseSetRequest.element_count b_3dv_request
      simp only [t32, t1]
      rfl
  · refine ⟨(List.range 2).map (sample_library.samples new._noise.config
        (b_2dv_request new ⟨0, 0⟩ ⟨3 / 2, 3 / 2⟩ 0)), _, ?_,
      b_get_noise_set_2dv_request _ _ _ _ _, ?_, ?_⟩
    · rw [b_get_noise_set_2dv_eq]
      simp only [t2]
      rfl
    · rfl
    · unfold NoiseSetRequest.element_count b_2dv_request
      simp only [t32, t1]
      rfl

end FastNoiseSIMD
